import Mathlib

/-!
# Query engine: time slicing and status propagation of `AnalyticsQuery`

A shallow embedding of `src/query_engine/query.cc`.  Unsigned 64-bit values are
natural numbers reduced modulo `2 ^ 64`; the C++ `int` values are integers that
are converted to 64-bit unsigned where the source mixes them with `uint64_t`.
A result of `none` stands for an execution that does not reach the end of the
function (an assertion of the JSON library, an exception that nobody catches,
a division by zero, or a loop that has not finished within the given fuel).
-/

namespace QueryEngine

/-! ## Machine integers -/

/-- Number of values of a `uint64_t`. -/
def U64 : Nat := 2 ^ 64

/-- Conversion of a C++ `int` to `uint64_t`. -/
def toU64 (x : Int) : Nat := (x % (2 ^ 64 : Int)).toNat

/-- Addition of two `uint64_t`. -/
def u64_add (a b : Nat) : Nat := (a + b) % U64

/-- Subtraction of two `uint64_t`. -/
def u64_sub (a b : Nat) : Nat := (a % U64 + U64 - b % U64) % U64

/-- Multiplication of two `uint64_t`. -/
def u64_mul (a b : Nat) : Nat := (a * b) % U64

/-! ## Status codes (`<cerrno>`) -/

/-- The value of `EIO`. -/
def EIO_errno : Int := 5

/-- The value of `EINVAL`. -/
def EINVAL_errno : Int := 22

/-- The value of `EBADMSG`. -/
def EBADMSG_errno : Int := 74

/-! ## Constants of `viz_constants` and keys of the raw query -/

/-- One column of a table schema. -/
structure Column where
  name : String
  datatype : String
  index : Bool
deriving DecidableEq, Repr

/-- The schema of a table: its ordered columns. -/
structure TableSchema where
  columns : List Column
deriving DecidableEq, Repr

/-- An entry of the standard table list. -/
structure TableDef where
  name : String
  schema : TableSchema
deriving DecidableEq, Repr

/-- The generated constants `g_viz_constants` (and the module name taken from
`g_vns_constants`).  The generated file is not part of the sources read here, so
every value it defines is a field of this record. -/
structure VizConstants where
  _TABLES : List TableDef
  _OBJECT_TABLES : List String
  _OBJECT_TABLE_SCHEMA : TableSchema
  COLLECTOR_GLOBAL_TABLE : String
  FLOW_TABLE : String
  FLOW_SERIES_TABLE : String
  OBJECT_VALUE_TABLE : String
  MODULE : String
  RowTimeInBits : Nat
  QUERY_ENGINE_ModuleName : String

/-- Key of the table name in the raw query. -/
def QUERY_TABLE : String := "table"

/-- Key of the start time in the raw query. -/
def QUERY_START_TIME : String := "start_time"

/-- Key of the end time in the raw query. -/
def QUERY_END_TIME : String := "end_time"

/-- Key of the flow direction in the raw query. -/
def QUERY_FLOW_DIR : String := "dir"

/-- Key of the WHERE clause in the raw query. -/
def QUERY_WHERE : String := "where"

/-- Key of the sort order in the raw query. -/
def QUERY_SORT_OP : String := "sort"

/-- Key of the row limit in the raw query. -/
def QUERY_LIMIT : String := "limit"

/-- Key of the sort fields in the raw query. -/
def QUERY_SORT_FIELDS : String := "sort_fields"

/-- Key of the result filter in the raw query. -/
def QUERY_FILTER : String := "filter"

/-- Select field asking for the flow count. -/
def SELECT_FLOW_COUNT : String := "flow_count"

/-- Select field `packets`. -/
def SELECT_PACKETS : String := "packets"

/-- Select field `bytes`. -/
def SELECT_BYTES : String := "bytes"

/-- Select field `sum(packets)`. -/
def SELECT_SUM_PACKETS : String := "sum(packets)"

/-- Select field `sum(bytes)`. -/
def SELECT_SUM_BYTES : String := "sum(bytes)"

/-- Select field `avg(packets)`. -/
def SELECT_AVG_PACKETS : String := "avg(packets)"

/-- Select field `avg(bytes)`. -/
def SELECT_AVG_BYTES : String := "avg(bytes)"

/-- Name of the member `name` of a match object. -/
def WHERE_MATCH_NAME : String := "name"

/-- Name of the member `value` of a match object. -/
def WHERE_MATCH_VALUE : String := "value"

/-- Name of the member `op` of a match object. -/
def WHERE_MATCH_OP : String := "op"

/-- Values declared in `query.h` (the enumerations of match operators, sort
orders, flow directions and flow-series query kinds).  The header is not part of
the sources read here, so each value is a field of this record. -/
structure QueryHeader where
  NOT_EQUAL : Int
  REGEX_MATCH : Int
  ASCENDING : Int
  INGRESS : Int
  FS_SELECT_STATS : Nat
  FS_SELECT_FLOW_TUPLE_STATS : Nat

/-! ## JSON values as seen through the `rapidjson` accessors -/

/-- A parsed JSON value.  A number is either integral (`int`) or stored as a
double, of which only the source text is kept. -/
inductive JsonValue where
  | null : JsonValue
  | bool (b : Bool) : JsonValue
  | int (n : Int) : JsonValue
  | double (text : String) : JsonValue
  | string (s : String) : JsonValue
  | array (elems : List JsonValue) : JsonValue
  | object (members : List (String × JsonValue)) : JsonValue

namespace JsonValue

/-- The accessor `IsString`. -/
def IsString : JsonValue → Bool
  | string _ => true
  | _ => false

/-- The accessor `IsNumber`. -/
def IsNumber : JsonValue → Bool
  | int _ => true
  | double _ => true
  | _ => false

/-- The accessor `IsInt`: an integral number in the range of a 32-bit `int`. -/
def IsInt : JsonValue → Bool
  | int n => decide (-(2 : Int) ^ 31 ≤ n ∧ n < (2 : Int) ^ 31)
  | _ => false

/-- The accessor `IsUint`: an integral number in the range of a `uint32_t`. -/
def IsUint : JsonValue → Bool
  | int n => decide (0 ≤ n ∧ n < (2 : Int) ^ 32)
  | _ => false

/-- The accessor `GetString`; it asserts on a value that is not a string. -/
def GetString : JsonValue → Option String
  | string s => some s
  | _ => none

/-- The accessor `GetInt`; it asserts on a value that is not a 32-bit `int`. -/
def GetInt : JsonValue → Option Int
  | int n => if -(2 : Int) ^ 31 ≤ n ∧ n < (2 : Int) ^ 31 then some n else none
  | _ => none

/-- Member access `v[name]`: the first member of that name, the null value when
the object has none, and an assertion on a value that is not an object. -/
def member (v : JsonValue) (name : String) : Option JsonValue :=
  match v with
  | object ms =>
    match ms.lookup name with
    | some x => some x
    | none => some null
  | _ => none

end JsonValue

/-- Library calls whose code is outside the repository, and the wall clock. -/
structure Library where
  /-- The value read by `istringstream >> uint64_t`. -/
  istream_uint64 : String → Nat
  /-- The value read by `istringstream >> int`. -/
  istream_int : String → Int
  /-- The result of `Document::Parse`: `none` when the text is not JSON. -/
  rapidjson_Parse : String → Option JsonValue
  /-- Whether `boost::regex(pattern)` constructs without throwing. -/
  regex_compiles : String → Bool
  /-- The value `tv_sec*1000000+tv_usec` read by `gettimeofday`, as `uint64_t`. -/
  now : Nat

/-! ## The three stages -/

/-- What `AnalyticsQuery` reads of a constructed `WhereQuery`. -/
structure WhereQuery where
  status_details : Int
deriving DecidableEq, Repr

/-- What `AnalyticsQuery` and `PostProcessingQuery` read of a constructed
`SelectQuery`. -/
structure SelectQuery where
  status_details : Int
  provide_timeseries : Bool
  granularity : Nat
  select_column_fields : List String
  ObjectIdQuery : Bool
  flowseries_query_type : Nat
deriving DecidableEq, Repr

/-- Modelled from the spec: `SelectQuery::is_present_in_select_column_fields`,
whose body is in another file; a field is present when it is one of the select
column fields. -/
def SelectQuery.is_present_in_select_column_fields (s : SelectQuery) (f : String) : Bool :=
  s.select_column_fields.contains f

/-- A sort field: column name and datatype. -/
structure sort_field_t where
  name : String
  type : String
deriving DecidableEq, Repr

/-- A match of the result filter. -/
structure filter_match_t where
  name : String := ""
  value : String := ""
  op : Int := 0
  ignore_col_absence : Bool := false
  match_e : Option String := none
deriving DecidableEq, Repr

/-- The fields of `PostProcessingQuery` set by its constructor. -/
structure PostProcessingQuery where
  status_details : Int := 0
  sorted : Bool := false
  sorting_type : Int := 0
  limit : Int := 0
  sort_fields : List sort_field_t := []
  filter_list : List filter_match_t := []
deriving DecidableEq, Repr

/-- The type `query_status_t` of `query.h`. -/
inductive query_status_t where
  | QUERY_PROCESSING_NOT_STARTED : query_status_t
  | QUERY_IN_PROGRESS : query_status_t
  | QUERY_SUCCESS : query_status_t
  | QUERY_FAILURE : query_status_t
deriving DecidableEq, Repr

/-- The type `QEOpServerProxy::BufferT`: a name and a sequence of rows, each a
map from column name to value. -/
structure BufferT where
  first : String
  second : List (List (String × String))
deriving DecidableEq, Repr

/-- The fields of `AnalyticsQuery` (with those of its base `QueryUnit`). -/
structure AnalyticsQuery where
  query_id : String := ""
  dbif : Bool := false
  status_details : Int := 0
  filter_qe_logs : Bool := true
  json_api_data_ : List (String × String) := []
  merge_needed : Bool := false
  parallel_batch_num : Int := 0
  total_parallel_batches : Int := 1
  processing_needed : Bool := true
  parallelize_query_ : Bool := false
  sandesh_moduleid : String := ""
  table : String := ""
  object_value_key : String := ""
  req_from_time : Nat := 0
  req_end_time : Nat := 0
  from_time : Nat := 0
  end_time : Nat := 0
  original_from_time : Nat := 0
  original_end_time : Nat := 0
  time_slice : Nat := 0
  wherequery_ : Option WhereQuery := none
  selectquery_ : Option SelectQuery := none
  postprocess_ : Option PostProcessingQuery := none
  query_status : query_status_t := query_status_t.QUERY_PROCESSING_NOT_STARTED
  final_result : Option BufferT := none
deriving DecidableEq, Repr

/-- Modelled from the spec: the macro `QE_IO_ERROR` of `query.h` on its failing
branch; it records the storage error, after which the caller returns. -/
def QE_IO_ERROR (q : AnalyticsQuery) : AnalyticsQuery :=
  { q with status_details := EIO_errno }

/-- Modelled from the spec: the macro `QE_PARSE_ERROR` of `query.h` on its
failing branch; it records the parse error, after which the caller returns. -/
def QE_PARSE_ERROR (q : AnalyticsQuery) : AnalyticsQuery :=
  { q with status_details := EBADMSG_errno }

/-- Modelled from the spec: the macro `QE_INVALIDARG_ERROR` of `query.h` on its
failing branch; it records the invalid argument, after which the caller
returns. -/
def QE_INVALIDARG_ERROR (q : AnalyticsQuery) : AnalyticsQuery :=
  { q with status_details := EINVAL_errno }

/-! ## Validation functions (`query.cc`, lines 1092-1238) -/

/-- The function `AnalyticsQuery::is_object_table_query`. -/
def is_object_table_query (c : VizConstants) (q : AnalyticsQuery) : Bool :=
  (q.table != c.COLLECTOR_GLOBAL_TABLE) &&
  (q.table != c.FLOW_TABLE) &&
  (q.table != c.FLOW_SERIES_TABLE) &&
  (q.table != c.OBJECT_VALUE_TABLE)

/-- The function `AnalyticsQuery::is_valid_from_field`. -/
def is_valid_from_field (c : VizConstants) (from_field : String) : Bool :=
  if c._TABLES.any (fun t => t.name == from_field) then true
  else if c._OBJECT_TABLES.any (fun k => k == from_field) then true
  else false

/-- The function `AnalyticsQuery::is_valid_where_field`. -/
def is_valid_where_field (c : VizConstants) (q : AnalyticsQuery) (where_field : String) : Bool :=
  match c._TABLES.find? (fun t => t.name == q.table) with
  | some t => t.schema.columns.any (fun col => col.name == where_field && col.index)
  | none =>
    if c._OBJECT_TABLES.any (fun k => k == q.table) then
      c._OBJECT_TABLE_SCHEMA.columns.any (fun col => col.name == where_field && col.index)
    else false

/-- The function `AnalyticsQuery::is_valid_sort_field`. -/
def is_valid_sort_field (sel : SelectQuery) (sort_field : String) : Bool :=
  if sort_field == SELECT_PACKETS || sort_field == SELECT_BYTES ||
      sort_field == SELECT_SUM_PACKETS || sort_field == SELECT_SUM_BYTES ||
      sort_field == SELECT_AVG_PACKETS || sort_field == SELECT_AVG_BYTES then true
  else sel.is_present_in_select_column_fields sort_field

/-- The datatype of the first column of that name, the empty string when there
is none. -/
def column_datatype (columns : List Column) (column_field : String) : String :=
  match columns.find? (fun col => col.name == column_field) with
  | some col => col.datatype
  | none => ""

/-- The function `AnalyticsQuery::get_column_field_datatype`. -/
def get_column_field_datatype (c : VizConstants) (q : AnalyticsQuery) (column_field : String) :
    String :=
  match c._TABLES.find? (fun t => t.name == q.table) with
  | some t => column_datatype t.schema.columns column_field
  | none =>
    if c._OBJECT_TABLES.any (fun k => k == q.table) then
      column_datatype c._OBJECT_TABLE_SCHEMA.columns column_field
    else ""

/-- The function `get_column_name` over the static vector
`query_string_to_column_name`, passed as `names`. -/
def get_column_name (names : List (String × String)) (query_string : String) : String :=
  match names.find? (fun p => p.1 == query_string) with
  | some p => p.2
  | none => query_string

/-- The function `AnalyticsQuery::can_parallelize_query`: the flag it stores in
`parallelize_query_` and returns. -/
def can_parallelize_query (c : VizConstants) (sel : SelectQuery) (q : AnalyticsQuery) : Bool :=
  if q.table == c.FLOW_SERIES_TABLE && !sel.provide_timeseries then
    if sel.is_present_in_select_column_fields SELECT_FLOW_COUNT then false else true
  else if q.table == c.OBJECT_VALUE_TABLE then false
  else true

/-! ## The constructor of `PostProcessingQuery` (`query.cc`, lines 59-194) -/

/-- How a block of the constructor ends: it falls through to the next statement
(`next`) or an error macro has returned from the constructor (`ret`). -/
inductive Ctl (α : Type) where
  | next (a : α) : Ctl α
  | ret (a : α) : Ctl α
deriving DecidableEq

/-- The object under construction together with `m_query->merge_needed`. -/
structure PostProcessingState where
  pp : PostProcessingQuery
  merge_needed : Bool
deriving DecidableEq, Repr

/-- Modelled from the spec: `QE_PARSE_ERROR` inside the post-processing stage. -/
def PostProcessingState.parse_error (st : PostProcessingState) : PostProcessingState :=
  { st with pp := { st.pp with status_details := EBADMSG_errno } }

/-- Modelled from the spec: `QE_INVALIDARG_ERROR` inside the post-processing
stage. -/
def PostProcessingState.invalidarg_error (st : PostProcessingState) : PostProcessingState :=
  { st with pp := { st.pp with status_details := EINVAL_errno } }

/-- Lines 98-109: the loop over the elements of the sort-fields array. -/
def PostProcessingQuery_sort_loop (c : VizConstants) (names : List (String × String))
    (sel : SelectQuery) (m_query : AnalyticsQuery) :
    List JsonValue → PostProcessingState → Ctl PostProcessingState
  | [], st => Ctl.next st
  | e :: es, st =>
    match e with
    | JsonValue.string sort_str =>
      let datatype := get_column_field_datatype c m_query sort_str
      if datatype == "" then Ctl.ret st.invalidarg_error
      else if is_valid_sort_field sel sort_str == false then Ctl.ret st.invalidarg_error
      else
        PostProcessingQuery_sort_loop c names sel m_query es
          { st with pp := { st.pp with
              sort_fields := st.pp.sort_fields ++ [⟨get_column_name names sort_str, datatype⟩] } }
    | _ => Ctl.ret st.parse_error

/-- Lines 143-161: the value of a filter after type conversion. -/
def filter_value_of (value_value : JsonValue) : String :=
  match value_value with
  | JsonValue.string s => s
  | JsonValue.int n =>
    if value_value.IsInt then toString n
    else if value_value.IsUint then toString n
    else ""
  | _ => ""

/-- Lines 123-170: the loop over the elements of the result-filter array. -/
def PostProcessingQuery_filter_loop (h : QueryHeader) (lib : Library) :
    List JsonValue → PostProcessingState → Option (Ctl PostProcessingState)
  | [], st => some (Ctl.next st)
  | e :: es, st =>
    match e.member WHERE_MATCH_NAME, e.member WHERE_MATCH_VALUE, e.member WHERE_MATCH_OP with
    | some name_value, some value_value, some op_value =>
      if name_value.IsString == false then some (Ctl.ret st.invalidarg_error)
      else if (value_value.IsString || value_value.IsNumber) == false then
        some (Ctl.ret st.invalidarg_error)
      else if op_value.IsNumber == false then some (Ctl.ret st.invalidarg_error)
      else
        match name_value.GetString, op_value.GetInt with
        | some name, some op =>
          let value := filter_value_of value_value
          if op == h.REGEX_MATCH && lib.regex_compiles value == false then none
          else
            let filter : filter_match_t :=
              { name := name, value := value, op := op,
                match_e := if op == h.REGEX_MATCH then some value else none }
            PostProcessingQuery_filter_loop h lib es
              { st with pp := { st.pp with filter_list := st.pp.filter_list ++ [filter] } }
        | _, _ => none
    | _, _, _ => none

/-- Lines 70-185: the body of the loop over the raw query, for one entry. -/
def PostProcessingQuery_entry (c : VizConstants) (h : QueryHeader) (lib : Library)
    (names : List (String × String)) (sel : SelectQuery) (m_query : AnalyticsQuery)
    (key value : String) (st0 : PostProcessingState) : Option (Ctl PostProcessingState) :=
  let st1 : PostProcessingState :=
    if key == QUERY_SORT_OP then
      { pp := { st0.pp with sorted := true, sorting_type := lib.istream_int value },
        merge_needed := true }
    else st0
  let st2 : PostProcessingState :=
    if key == QUERY_LIMIT then
      { pp := { st1.pp with limit := lib.istream_int value }, merge_needed := true }
    else st1
  let r3 : Option (Ctl PostProcessingState) :=
    if key == QUERY_SORT_FIELDS then
      match lib.rapidjson_Parse ("\x7b \"sort_fields\" : " ++ value ++ " \x7d") with
      | some d =>
        match d.member "sort_fields" with
        | some (JsonValue.array elems) =>
          some (PostProcessingQuery_sort_loop c names sel m_query elems st2)
        | some _ => some (Ctl.ret st2.parse_error)
        | none => none
      | none => none
    else some (Ctl.next st2)
  match r3 with
  | none => none
  | some (Ctl.ret st) => some (Ctl.ret st)
  | some (Ctl.next st3) =>
    let r4 : Option (Ctl PostProcessingState) :=
      if key == QUERY_FILTER then
        match lib.rapidjson_Parse ("\x7b \"filter\" : " ++ value ++ " \x7d") with
        | some d =>
          match d.member "filter" with
          | some (JsonValue.array elems) => PostProcessingQuery_filter_loop h lib elems st3
          | some _ => some (Ctl.ret st3.parse_error)
          | none => none
        | none => none
      else some (Ctl.next st3)
    match r4 with
    | none => none
    | some (Ctl.ret st) => some (Ctl.ret st)
    | some (Ctl.next st4) =>
      if m_query.filter_qe_logs && m_query.table == c.COLLECTOR_GLOBAL_TABLE then
        let filter : filter_match_t :=
          { name := c.MODULE, value := m_query.sandesh_moduleid, op := h.NOT_EQUAL,
            ignore_col_absence := true }
        some (Ctl.next { st4 with pp := { st4.pp with filter_list := st4.pp.filter_list ++ [filter] } })
      else some (Ctl.next st4)

/-- Lines 68-186: the loop over the entries of the raw query, in key order. -/
def PostProcessingQuery_loop (c : VizConstants) (h : QueryHeader) (lib : Library)
    (names : List (String × String)) (sel : SelectQuery) (m_query : AnalyticsQuery) :
    List (String × String) → PostProcessingState → Option (Ctl PostProcessingState)
  | [], st => some (Ctl.next st)
  | (key, value) :: rest, st =>
    match PostProcessingQuery_entry c h lib names sel m_query key value st with
    | none => none
    | some (Ctl.ret st1) => some (Ctl.ret st1)
    | some (Ctl.next st1) => PostProcessingQuery_loop c h lib names sel m_query rest st1

/-- The constructor `PostProcessingQuery::PostProcessingQuery`, given the main
query at the time of the call; it yields the constructed stage and the value of
`m_query->merge_needed` it leaves.  The source leaves `sorting_type`
uninitialised until a sort order is read; here it starts at 0. -/
def PostProcessingQuery_ctor (c : VizConstants) (h : QueryHeader) (lib : Library)
    (names : List (String × String)) (sel : SelectQuery)
    (json_api_data : List (String × String)) (m_query : AnalyticsQuery) :
    Option PostProcessingState :=
  let st0 : PostProcessingState :=
    { pp := { status_details := 0, sorted := false, limit := 0 },
      merge_needed := m_query.merge_needed }
  match PostProcessingQuery_loop c h lib names sel m_query json_api_data st0 with
  | none => none
  | some (Ctl.ret st) => some st
  | some (Ctl.next st) =>
    if st.pp.sort_fields.length != 0 && st.pp.sorted == false then
      some { st with pp := { st.pp with sorted := true, sorting_type := h.ASCENDING } }
    else some st

/-! ## `AnalyticsQuery::Init` (`query.cc`, lines 284-495) -/

/-- The outcome of the constructors of the two stages whose code is in other
files, and the static vector read by `get_column_name`. -/
structure Stages where
  wherequery : WhereQuery
  selectquery : SelectQuery
  query_string_to_column_name : List (String × String)

/-- Line 322: `iter->second.substr(1, iter->second.size()-2)`; `substr` throws
on the empty string, and on a string of one character the length wraps around
and the result is empty. -/
def strip_quotes (s : String) : Option String :=
  match s.data with
  | [] => none
  | _ :: rest => some (String.mk (rest.take (u64_sub s.data.length 2)))

/-- Line 443: the time slice on the parallel path, before the lower bound is
applied. -/
def time_slice_unfloored (from_time end_time : Nat) (total_parallel_batches : Int) : Nat :=
  u64_add (u64_sub end_time from_time / toU64 total_parallel_batches) 1

/-- Lines 445-447: the expression `2^g_viz_constants.RowTimeInBits`, a bitwise
exclusive or of two `int`, converted to `uint64_t`. -/
def row_time_bound (c : VizConstants) : Nat := (2 ^^^ c.RowTimeInBits) % U64

/-- Lines 445-447: the lower bound applied to the time slice. -/
def time_slice_floored (c : VizConstants) (time_slice : Nat) : Nat :=
  if time_slice < row_time_bound c then row_time_bound c else time_slice

/-- Lines 451-458: the adjustment of the time slice to the granularity of a
time series. -/
def time_slice_adjusted (sel : SelectQuery) (time_slice : Nat) : Nat :=
  if sel.provide_timeseries && sel.granularity % U64 != 0 then
    if sel.granularity % U64 ≥ time_slice then sel.granularity % U64
    else u64_mul (u64_add (time_slice / (sel.granularity % U64)) 1) (sel.granularity % U64)
  else time_slice

/-- Lines 461-466: whether the parallel path sets `merge_needed`. -/
def parallel_merge_needed (c : VizConstants) (h : QueryHeader) (sel : SelectQuery)
    (q : AnalyticsQuery) : Bool :=
  (q.table == c.FLOW_TABLE) ||
  (q.table == c.FLOW_SERIES_TABLE &&
    (sel.flowseries_query_type == h.FS_SELECT_STATS ||
     sel.flowseries_query_type == h.FS_SELECT_FLOW_TUPLE_STATS))

/-- Lines 477-485: the window of this batch. -/
def Init_window (q : AnalyticsQuery) : AnalyticsQuery :=
  let from_time := u64_add q.original_from_time (u64_mul q.time_slice (toU64 q.parallel_batch_num))
  let end_time := u64_add from_time q.time_slice
  if from_time ≥ q.original_end_time then
    { q with from_time := from_time, end_time := end_time, processing_needed := false }
  else if end_time > q.original_end_time then
    { q with from_time := from_time, end_time := q.original_end_time }
  else { q with from_time := from_time, end_time := end_time }

/-- Lines 434-475: the clamp of `from_time` and the choice of the time slice.
The division of line 443 is undefined when `total_parallel_batches` is zero. -/
def Init_time_slice (c : VizConstants) (h : QueryHeader) (sel : SelectQuery)
    (q0 : AnalyticsQuery) : Option AnalyticsQuery :=
  let q1 : AnalyticsQuery :=
    if q0.from_time > q0.end_time then { q0 with from_time := u64_sub q0.end_time 1 } else q0
  let q2 : AnalyticsQuery :=
    { q1 with original_from_time := q1.from_time, original_end_time := q1.end_time }
  if can_parallelize_query c sel q2 then
    if toU64 q2.total_parallel_batches = 0 then none
    else
      let time_slice :=
        time_slice_adjusted sel
          (time_slice_floored c
            (time_slice_unfloored q2.from_time q2.end_time q2.total_parallel_batches))
      some { q2 with parallelize_query_ := true, time_slice := time_slice,
                     merge_needed := q2.merge_needed || parallel_merge_needed c h sel q2 }
  else
    some { q2 with parallelize_query_ := false,
                   time_slice := u64_sub q2.end_time q2.from_time }

/-- Lines 412-417: a query on an object table that asks for object ids reads
from the object value table, under the key of the requested table. -/
def object_table_redirect (c : VizConstants) (sel : SelectQuery) (q : AnalyticsQuery) :
    AnalyticsQuery :=
  if is_object_table_query c q && sel.ObjectIdQuery then
    { q with object_value_key := q.table, table := c.OBJECT_VALUE_TABLE }
  else q

/-- Lines 366-475: the construction of the three stages, followed by the choice
of the time slice.  The result is `ret` when the function has returned early and
`next` when control reaches line 477.  The flow direction of lines 372-377 is
only handed to the constructor of the WHERE stage, whose outcome is given by
`s`. -/
def Init_stages (c : VizConstants) (h : QueryHeader) (lib : Library) (s : Stages)
    (json_api_data : List (String × String)) (q0 : AnalyticsQuery) :
    Option (Ctl AnalyticsQuery) :=
  let where_json_string : String :=
    match json_api_data.lookup QUERY_WHERE with
    | none => ""
    | some w => w
  let q1 : AnalyticsQuery :=
    { q0 with wherequery_ := some s.wherequery, status_details := s.wherequery.status_details }
  if q1.status_details ≠ 0 then some (Ctl.ret q1)
  else
    let q2 : AnalyticsQuery :=
      { q1 with selectquery_ := some s.selectquery,
                status_details := s.selectquery.status_details }
    if q2.status_details ≠ 0 then some (Ctl.ret q2)
    else
      let q3 : AnalyticsQuery := object_table_redirect c s.selectquery q2
      if is_object_table_query c q3 && where_json_string == "" then
        some (Ctl.ret (QE_INVALIDARG_ERROR q3))
      else
        match PostProcessingQuery_ctor c h lib s.query_string_to_column_name s.selectquery
            json_api_data q3 with
        | none => none
        | some st =>
          let q4 : AnalyticsQuery :=
            { q3 with postprocess_ := some st.pp, merge_needed := st.merge_needed,
                      status_details := st.pp.status_details }
          if q4.status_details ≠ 0 then some (Ctl.ret q4)
          else
            match Init_time_slice c h s.selectquery q4 with
            | none => none
            | some q5 => some (Ctl.next q5)

/-- Lines 292-475 of `AnalyticsQuery::Init`, run on the object `this` with the
database handle being non-null iff `db_if` holds.  The result is `ret` when the
function has returned early and `next` when control reaches line 477. -/
def Init_parse (c : VizConstants) (h : QueryHeader) (lib : Library) (s : Stages)
    (this : AnalyticsQuery) (db_if : Bool) (qid : String)
    (json_api_data : List (String × String)) (analytics_start_time : Nat) :
    Option (Ctl AnalyticsQuery) :=
  let q0 : AnalyticsQuery := { this with query_id := qid, dbif := db_if }
  if db_if == false then some (Ctl.ret (QE_IO_ERROR q0))
  else
    let q1 : AnalyticsQuery := { q0 with sandesh_moduleid := c.QUERY_ENGINE_ModuleName }
    match json_api_data.lookup QUERY_TABLE with
    | none => some (Ctl.ret (QE_PARSE_ERROR q1))
    | some quoted =>
      match strip_quotes quoted with
      | none => none
      | some table =>
        let q2 : AnalyticsQuery := { q1 with table := table }
        if is_valid_from_field c table == false then some (Ctl.ret (QE_INVALIDARG_ERROR q2))
        else
          match json_api_data.lookup QUERY_START_TIME with
          | none => some (Ctl.ret (QE_PARSE_ERROR q2))
          | some start_text =>
            let req_from_time := lib.istream_uint64 start_text % U64
            let q3 : AnalyticsQuery :=
              { q2 with req_from_time := req_from_time,
                        from_time := if req_from_time < analytics_start_time % U64
                                     then analytics_start_time % U64 else req_from_time }
            match json_api_data.lookup QUERY_END_TIME with
            | none => some (Ctl.ret (QE_PARSE_ERROR q3))
            | some end_text =>
              let req_end_time := lib.istream_uint64 end_text % U64
              let q4 : AnalyticsQuery :=
                { q3 with req_end_time := req_end_time,
                          end_time := if req_end_time > lib.now % U64
                                      then lib.now % U64 else req_end_time }
              Init_stages c h lib s json_api_data q4

/-- The function `AnalyticsQuery::Init`: lines 292-475, then the window of this
batch (lines 477-485) unless the function has returned before. -/
def Init (c : VizConstants) (h : QueryHeader) (lib : Library) (s : Stages)
    (this : AnalyticsQuery) (db_if : Bool) (qid : String)
    (json_api_data : List (String × String)) (analytics_start_time : Nat) :
    Option AnalyticsQuery :=
  match Init_parse c h lib s this db_if qid json_api_data analytics_start_time with
  | none => none
  | some (Ctl.ret q) => some q
  | some (Ctl.next q) => some (Init_window q)

/-! ## `AnalyticsQuery::get_query_details` (`query.cc`, lines 229-250) -/

/-- Lines 234-242: the loop over the chunks; every iteration spends one unit of
fuel. -/
def get_query_details_loop (original_end_time time_slice : Nat) :
    Nat → Nat → List Nat → Option (List Nat)
  | 0, _, _ => none
  | fuel + 1, chunk_start, chunk_sizes =>
    if chunk_start < original_end_time then
      if u64_add chunk_start time_slice ≤ original_end_time then
        get_query_details_loop original_end_time time_slice fuel
          (u64_add chunk_start time_slice) (chunk_sizes ++ [time_slice])
      else
        get_query_details_loop original_end_time time_slice fuel
          (u64_add chunk_start time_slice)
          (chunk_sizes ++ [u64_sub original_end_time chunk_start])
    else some chunk_sizes

/-- The outputs of `get_query_details`. -/
structure QueryDetails where
  is_merge_needed : Bool
  chunk_sizes : List Nat
  parse_status : Int
deriving DecidableEq, Repr

/-- The function `AnalyticsQuery::get_query_details`, appending to the vector
`chunk_sizes` it is given. -/
def get_query_details (q : AnalyticsQuery) (fuel : Nat) (chunk_sizes : List Nat) :
    Option QueryDetails :=
  if q.status_details = 0 then
    match get_query_details_loop q.original_end_time q.time_slice fuel
        q.original_from_time chunk_sizes with
    | none => none
    | some cs =>
      some { is_merge_needed := q.merge_needed, chunk_sizes := cs,
             parse_status := q.status_details }
  else
    some { is_merge_needed := q.merge_needed, chunk_sizes := chunk_sizes ++ [0],
           parse_status := q.status_details }

/-! ## The batch constructor of `AnalyticsQuery` (`query.cc`, lines 707-774) -/

/-- The answers of the database interface during construction, and the column
families of `vizd_tables` and `vizd_flow_tables`. -/
structure GenDbIf where
  Db_Init : Bool
  Db_SetTablespace : Bool
  Db_UseColumnfamily : String → Bool
  vizd_tables : List String
  vizd_flow_tables : List String

/-- One of the three loops of lines 741-771: the status becomes `EIO` as soon as
a column family cannot be used. -/
def use_columnfamilies (db : GenDbIf) (cfs : List String) (q : AnalyticsQuery) :
    AnalyticsQuery :=
  cfs.foldl (fun acc cf =>
    if db.Db_UseColumnfamily cf == false then { acc with status_details := EIO_errno } else acc) q

/-- Lines 727-772: the database initialisation of the batch constructor. -/
def ctor_database_init (c : VizConstants) (db : GenDbIf) (q0 : AnalyticsQuery) :
    AnalyticsQuery :=
  let q1 : AnalyticsQuery :=
    if db.Db_Init == false then { q0 with status_details := EIO_errno } else q0
  let q2 : AnalyticsQuery :=
    if db.Db_SetTablespace == false then { q1 with status_details := EIO_errno } else q1
  let q3 := use_columnfamilies db db.vizd_tables q2
  let q4 := use_columnfamilies db c._OBJECT_TABLES q3
  use_columnfamilies db db.vizd_flow_tables q4

/-- Lines 711-723: the member initialisers of the batch constructor. -/
def ctor_members (qid : String) (json_api_data : List (String × String))
    (batch total_batches : Int) : AnalyticsQuery :=
  { status_details := 0, filter_qe_logs := true, json_api_data_ := json_api_data,
    merge_needed := false, parallel_batch_num := batch,
    total_parallel_batches := total_batches, processing_needed := true,
    query_id := qid, dbif := true }

/-- The constructor `AnalyticsQuery::AnalyticsQuery` taking the batch number and
the number of batches: the member initialisers, the database initialisation,
then `Init` (line 773), whatever the database has answered; `dbif_.get()` is
never null. -/
def AnalyticsQuery_ctor (c : VizConstants) (h : QueryHeader) (lib : Library) (s : Stages)
    (db : GenDbIf) (qid : String) (json_api_data : List (String × String))
    (analytics_start_time : Nat) (batch total_batches : Int) : Option AnalyticsQuery :=
  Init c h lib s (ctor_database_init c db (ctor_members qid json_api_data batch total_batches))
    true qid json_api_data analytics_start_time

/-! ## `AnalyticsQuery::process_query` and `QueryEngine::QueryExec`
(`query.cc`, lines 660-705 and 1009-1050) -/

/-- The three stages of a query. -/
inductive Stage where
  | WHERE : Stage
  | SELECT : Stage
  | POSTPROCESS : Stage
deriving DecidableEq, Repr

/-- What a call of `process_query` on a stage leaves: the status it returns, the
`status_details` of the stage and its `result_`.  The three functions are in
other files, so their outcome is given. -/
structure StageRun where
  query_status : query_status_t
  status_details : Int
  result_ : Option BufferT
deriving DecidableEq, Repr

/-- The outcome of `process_query` on each of the three stages. -/
structure StageRuns where
  wherequery : StageRun
  selectquery : StageRun
  postprocess : StageRun
deriving DecidableEq, Repr

/-- What `AnalyticsQuery::process_query` leaves: the object, the value returned,
and the stages whose `process_query` has been called, in the order of the
calls. -/
structure ProcessQueryResult where
  object : AnalyticsQuery
  returned : query_status_t
  ran : List Stage
deriving DecidableEq, Repr

/-- The function `AnalyticsQuery::process_query`.  The traces of lines 688 and
701 are left out. -/
def process_query (r : StageRuns) (q : AnalyticsQuery) : ProcessQueryResult :=
  if q.status_details ≠ 0 then
    { object := q, returned := query_status_t.QUERY_FAILURE, ran := [] }
  else
    let q1 : AnalyticsQuery :=
      { q with query_status := r.wherequery.query_status,
               status_details := r.wherequery.status_details }
    if q1.query_status ≠ query_status_t.QUERY_SUCCESS then
      { object := q1, returned := q1.query_status, ran := [Stage.WHERE] }
    else
      let q2 : AnalyticsQuery :=
        { q1 with query_status := r.selectquery.query_status,
                  status_details := r.selectquery.status_details }
      if q2.query_status ≠ query_status_t.QUERY_SUCCESS then
        { object := q2, returned := q2.query_status, ran := [Stage.WHERE, Stage.SELECT] }
      else
        let q3 : AnalyticsQuery :=
          { q2 with query_status := r.postprocess.query_status,
                    status_details := r.postprocess.status_details,
                    final_result := r.postprocess.result_ }
        if q3.query_status ≠ query_status_t.QUERY_SUCCESS then
          { object := q3, returned := q3.query_status,
            ran := [Stage.WHERE, Stage.SELECT, Stage.POSTPROCESS] }
        else
          { object := q3, returned := query_status_t.QUERY_SUCCESS,
            ran := [Stage.WHERE, Stage.SELECT, Stage.POSTPROCESS] }

/-- What `QueryEngine::QueryExec` hands to `QueryResult` on the path with a
database (lines 1040-1047): the `status_details` and the `final_result` of the
query constructed for this chunk, after `process_query`. -/
def QueryExec (c : VizConstants) (h : QueryHeader) (lib : Library) (s : Stages)
    (db : GenDbIf) (r : StageRuns) (qid : String) (terms : List (String × String))
    (stime : Nat) (chunk maxChunks : Int) : Option (Int × Option BufferT) :=
  match AnalyticsQuery_ctor c h lib s db qid terms stime chunk maxChunks with
  | none => none
  | some q =>
    some ((process_query r q).object.status_details, (process_query r q).object.final_result)

/-! ## Descriptions used in the statements -/

/-- The windows obtained by laying chunks end to end from `start`: each pair is
the start and the end of a half-open interval. -/
def chunk_windows : Nat → List Nat → List (Nat × Nat)
  | _, [] => []
  | start, c :: cs => (start, start + c) :: chunk_windows (start + c) cs

/-- The chunk sizes of a range of length `d` cut into slices of length `ts`:
full slices, then the remainder when it is not zero. -/
def chunk_list (d ts : Nat) : List Nat :=
  List.replicate (d / ts) ts ++ (if d % ts = 0 then [] else [d % ts])

/-- The value of `from_time` after the clamp of lines 435-436. -/
def clamped_from (from_time end_time : Nat) : Nat :=
  if from_time > end_time then u64_sub end_time 1 else from_time

/-- The test of `can_parallelize_query` as a function of the table name. -/
def can_parallelize_table (c : VizConstants) (sel : SelectQuery) (table : String) : Bool :=
  if table == c.FLOW_SERIES_TABLE && !sel.provide_timeseries then
    if sel.is_present_in_select_column_fields SELECT_FLOW_COUNT then false else true
  else if table == c.OBJECT_VALUE_TABLE then false
  else true

/-- The test of lines 461-464 as a function of the table name. -/
def parallel_merge_table (c : VizConstants) (h : QueryHeader) (sel : SelectQuery)
    (table : String) : Bool :=
  (table == c.FLOW_TABLE) ||
  (table == c.FLOW_SERIES_TABLE &&
    (sel.flowseries_query_type == h.FS_SELECT_STATS ||
     sel.flowseries_query_type == h.FS_SELECT_FLOW_TUPLE_STATS))

/-- The table read after lines 412-417, as a function of the requested table. -/
def redirected_table (c : VizConstants) (sel : SelectQuery) (table : String) : String :=
  if ((table != c.COLLECTOR_GLOBAL_TABLE) && (table != c.FLOW_TABLE) &&
      (table != c.FLOW_SERIES_TABLE) && (table != c.OBJECT_VALUE_TABLE)) &&
      sel.ObjectIdQuery then c.OBJECT_VALUE_TABLE
  else table

/-- The value of `end_time` after line 364, from the text of the end time. -/
def planned_end_time (lib : Library) (end_text : String) : Nat :=
  if lib.istream_uint64 end_text % U64 > lib.now % U64 then lib.now % U64
  else lib.istream_uint64 end_text % U64

/-- The value of `from_time` after line 436, from the texts of both times. -/
def planned_from_time (lib : Library) (analytics_start_time : Nat)
    (start_text end_text : String) : Nat :=
  clamped_from
    (if lib.istream_uint64 start_text % U64 < analytics_start_time % U64
      then analytics_start_time % U64 else lib.istream_uint64 start_text % U64)
    (planned_end_time lib end_text)

/-- The value of `time_slice` after line 475. -/
def planned_time_slice (c : VizConstants) (sel : SelectQuery) (table : String)
    (from_time end_time : Nat) (total_parallel_batches : Int) : Nat :=
  if can_parallelize_table c sel table then
    time_slice_adjusted sel (time_slice_floored c
      (time_slice_unfloored from_time end_time total_parallel_batches))
  else u64_sub end_time from_time

/-! ## Sample inputs -/

/-- Sample constants: two standard tables, one object table and the row time
of 23 bits. -/
def sample_constants : VizConstants :=
  { _TABLES :=
      [⟨"MessageTable", ⟨[⟨"Source", "string", true⟩, ⟨"ModuleId", "string", true⟩]⟩⟩,
       ⟨"FlowSeriesTable", ⟨[⟨"sourcevn", "string", true⟩]⟩⟩],
    _OBJECT_TABLES := ["ObjectVNTable"],
    _OBJECT_TABLE_SCHEMA := ⟨[⟨"ObjectId", "string", true⟩]⟩,
    COLLECTOR_GLOBAL_TABLE := "MessageTable",
    FLOW_TABLE := "FlowRecordTable",
    FLOW_SERIES_TABLE := "FlowSeriesTable",
    OBJECT_VALUE_TABLE := "ObjectValueTable",
    MODULE := "ModuleId",
    RowTimeInBits := 23,
    QUERY_ENGINE_ModuleName := "QueryEngine" }

/-- Sample values of the enumerations of `query.h`. -/
def sample_header : QueryHeader :=
  { NOT_EQUAL := 2, REGEX_MATCH := 8, ASCENDING := 1, INGRESS := 1,
    FS_SELECT_STATS := 1, FS_SELECT_FLOW_TUPLE_STATS := 2 }

/-- The number written by a string of decimal digits. -/
def sample_decimal (s : String) : Nat :=
  s.data.foldl (fun acc ch => acc * 10 + (ch.toNat - 48)) 0

/-- A sample library: decimal numbers, no JSON fragment, every pattern
compiles, and the given wall clock. -/
def sample_library (now : Nat) : Library :=
  { istream_uint64 := sample_decimal,
    istream_int := fun s => (sample_decimal s : Int),
    rapidjson_Parse := fun _ => none,
    regex_compiles := fun _ => true,
    now := now }

/-- Sample stages: both constructors succeed, and the select asks for one
column. -/
def sample_stages : Stages :=
  { wherequery := { status_details := 0 },
    selectquery := { status_details := 0, provide_timeseries := false, granularity := 0,
                     select_column_fields := ["Source"], ObjectIdQuery := false,
                     flowseries_query_type := 0 },
    query_string_to_column_name := [] }

/-- Sample stages of a flow-series query that selects the flow count without a
time series, which cannot be run in parallel. -/
def sample_flow_count_stages : Stages :=
  { wherequery := { status_details := 0 },
    selectquery := { status_details := 0, provide_timeseries := false, granularity := 0,
                     select_column_fields := ["flow_count"], ObjectIdQuery := false,
                     flowseries_query_type := 0 },
    query_string_to_column_name := [] }

/-- A sample raw query on a table, with its start and end time, in key order. -/
def sample_query (table start_time end_time : String) : List (String × String) :=
  [("end_time", end_time), ("start_time", start_time), ("table", table)]

/-- The object handed to `Init` by the batch constructor when the database
answers every call. -/
def sample_this (batch total_batches : Int) : AnalyticsQuery :=
  { parallel_batch_num := batch, total_parallel_batches := total_batches, dbif := true }

/-- A database whose every call succeeds. -/
def sample_db : GenDbIf :=
  { Db_Init := true, Db_SetTablespace := true, Db_UseColumnfamily := fun _ => true,
    vizd_tables := ["MessageTable"], vizd_flow_tables := ["FlowRecordTable"] }

/-- A database whose initialisation fails. -/
def sample_failing_db : GenDbIf :=
  { Db_Init := false, Db_SetTablespace := true, Db_UseColumnfamily := fun _ => true,
    vizd_tables := ["MessageTable"], vizd_flow_tables := ["FlowRecordTable"] }

/-- Following the spec: the ceiling of `a / b`. -/
def ceil_div (a b : Nat) : Nat := (a + b - 1) / b

/-- The run of `Init` for batch `i` of ten on the sample message query over the
range from 0 to 100. -/
def sample_message_run (i : Nat) : Option AnalyticsQuery :=
  Init sample_constants sample_header (sample_library 5000) sample_stages
    { sample_this 0 10 with parallel_batch_num := (i : Int) } true "q"
    (sample_query "\"MessageTable\"" "0" "100") 0

/-- The object left by `sample_message_run`. -/
def sample_message_result (i : Nat) : AnalyticsQuery :=
  (sample_message_run i).getD {}

/-- The run of `Init` for batch `i` of four on the sample flow-count query, which
is not parallelizable, over the range from 0 to 100. -/
def sample_flow_count_run (i : Nat) : Option AnalyticsQuery :=
  Init sample_constants sample_header (sample_library 5000) sample_flow_count_stages
    { sample_this 0 4 with parallel_batch_num := (i : Int) } true "q"
    (sample_query "\"FlowSeriesTable\"" "0" "100") 0

/-- The object left by `sample_flow_count_run`. -/
def sample_flow_count_result (i : Nat) : AnalyticsQuery :=
  (sample_flow_count_run i).getD {}

/-- The object with which the sample message query, run as batch 7 of ten,
reaches line 477. -/
def sample_parsed : AnalyticsQuery :=
  match Init_parse sample_constants sample_header (sample_library 5000) sample_stages
      (sample_this 7 10) true "q" (sample_query "\"MessageTable\"" "0" "100") 0 with
  | some (Ctl.next p) => p
  | _ => {}

/-- The run of `Init` on the sample message query asking for the range from 5
to 0, as the only batch. -/
def sample_zero_end_run : Option AnalyticsQuery :=
  Init sample_constants sample_header (sample_library 5000) sample_stages
    (sample_this 0 1) true "q" (sample_query "\"MessageTable\"" "5" "0") 0

/-- The object left by `sample_zero_end_run`. -/
def sample_zero_end_result : AnalyticsQuery :=
  sample_zero_end_run.getD {}

/-- The batch constructor run on the sample message query over the range from 0
to 100, as batch 0 of ten, against the database whose initialisation fails. -/
def sample_failing_db_run : Option AnalyticsQuery :=
  AnalyticsQuery_ctor sample_constants sample_header (sample_library 5000) sample_stages
    sample_failing_db "q" (sample_query "\"MessageTable\"" "0" "100") 0 0 10

/-- The object left by `sample_failing_db_run`. -/
def sample_failing_db_result : AnalyticsQuery :=
  sample_failing_db_run.getD {}

/-- The object left by `Init` on the sample message query run as batch 7 of
ten. -/
def sample_noop_result : AnalyticsQuery :=
  (Init sample_constants sample_header (sample_library 5000) sample_stages
    (sample_this 7 10) true "q" (sample_query "\"MessageTable\"" "0" "100") 0).getD {}

/-- An object whose range from 0 to 100 is cut into slices of 21. -/
def sample_sliced : AnalyticsQuery :=
  { original_from_time := 0, original_end_time := 100, time_slice := 21 }

/-- The run of `Init` on the sample flow-count query, which is not
parallelizable, over the empty range from 7 to 7, as batch 0 of four. -/
def sample_empty_range_run : Option AnalyticsQuery :=
  Init sample_constants sample_header (sample_library 5000) sample_flow_count_stages
    (sample_this 0 4) true "q" (sample_query "\"FlowSeriesTable\"" "7" "7") 0

/-- The object left by `sample_empty_range_run`. -/
def sample_empty_range_result : AnalyticsQuery :=
  sample_empty_range_run.getD {}

/-- Sample stage outcomes: the WHERE and SELECT stages succeed, the
post-processing stage fails with an input/output error while its `result_`
holds one row. -/
def sample_failing_postprocess : StageRuns :=
  { wherequery := { query_status := query_status_t.QUERY_SUCCESS, status_details := 0,
                    result_ := none },
    selectquery := { query_status := query_status_t.QUERY_SUCCESS, status_details := 0,
                     result_ := some { first := "MessageTable", second := [[("Source", "a")]] } },
    postprocess := { query_status := query_status_t.QUERY_FAILURE, status_details := EIO_errno,
                     result_ := some { first := "MessageTable", second := [[("Source", "a")]] } } }

/-- A sample raw query that names a table unknown to the constants and has no
start time. -/
def sample_unknown_table_query : List (String × String) :=
  [("end_time", "100"), ("table", "\"Bogus\"")]

/-- The object left by `Init` on `sample_unknown_table_query`. -/
def sample_unknown_table_result : AnalyticsQuery :=
  (Init sample_constants sample_header (sample_library 5000) sample_stages
    (sample_this 0 1) true "q" sample_unknown_table_query 0).getD {}

/-- A sample raw query on the message table without a start time. -/
def sample_no_start_query : List (String × String) :=
  [("end_time", "100"), ("table", "\"MessageTable\"")]

/-- Sample stages of a query that asks for the list of object ids. -/
def sample_object_id_stages : Stages :=
  { wherequery := { status_details := 0 },
    selectquery := { status_details := 0, provide_timeseries := false, granularity := 0,
                     select_column_fields := ["ObjectId"], ObjectIdQuery := true,
                     flowseries_query_type := 0 },
    query_string_to_column_name := [] }

/-- The run of `Init` on the object-id query on the sample object table, which
has no WHERE clause, over the range from 0 to 100. -/
def sample_object_id_run : Option AnalyticsQuery :=
  Init sample_constants sample_header (sample_library 5000) sample_object_id_stages
    (sample_this 0 1) true "q" (sample_query "\"ObjectVNTable\"" "0" "100") 0

/-- The object left by `sample_object_id_run`. -/
def sample_object_id_result : AnalyticsQuery :=
  sample_object_id_run.getD {}

/-- Following the spec: the schema of the resolved table, which is the table's
own schema when its name is in `_TABLES`, otherwise the shared object-table
schema when its name is a key of `_OBJECT_TABLES`. -/
def resolved_schema (c : VizConstants) (table : String) : Option TableSchema :=
  match c._TABLES.find? (fun t => t.name == table) with
  | some t => some t.schema
  | none => if table ∈ c._OBJECT_TABLES then some c._OBJECT_TABLE_SCHEMA else none

/-- The JSON documents known to the sample library with JSON: the wrapped
sort-fields clauses `["bytes"]` and `["Source"]`, and the wrapped result filter
`[{"name":"bytes","value":5000000000,"op":5}]`. -/
def sample_documents : List (String × JsonValue) :=
  [("\x7b \"sort_fields\" : [\"bytes\"] \x7d",
      JsonValue.object [("sort_fields", JsonValue.array [JsonValue.string "bytes"])]),
   ("\x7b \"sort_fields\" : [\"Source\"] \x7d",
      JsonValue.object [("sort_fields", JsonValue.array [JsonValue.string "Source"])]),
   ("\x7b \"filter\" : [\x7b\"name\":\"bytes\",\"value\":5000000000,\"op\":5\x7d] \x7d",
      JsonValue.object [("filter", JsonValue.array [JsonValue.object
        [("name", JsonValue.string "bytes"), ("value", JsonValue.int 5000000000),
         ("op", JsonValue.int 5)]])])]

/-- A sample library that parses the texts of `sample_documents`. -/
def sample_json_library (now : Nat) : Library :=
  { istream_uint64 := sample_decimal,
    istream_int := fun s => (sample_decimal s : Int),
    rapidjson_Parse := fun text => sample_documents.lookup text,
    regex_compiles := fun _ => true,
    now := now }

/-- A sample raw query on a table over the range from 0 to 100 with a
sort-fields clause, in key order. -/
def sample_sorted_query (table sort_fields : String) : List (String × String) :=
  [("end_time", "100"), ("sort_fields", sort_fields), ("start_time", "0"), ("table", table)]

/-- A sample raw query on a table over the range from 0 to 100 with a result
filter, in key order. -/
def sample_filtered_query (table filter : String) : List (String × String) :=
  [("end_time", "100"), ("filter", filter), ("start_time", "0"), ("table", table)]

/-- The object left by `Init` on the sample message query sorted by `bytes`. -/
def sample_sort_bytes_result : AnalyticsQuery :=
  (Init sample_constants sample_header (sample_json_library 5000) sample_stages
    (sample_this 0 1) true "q" (sample_sorted_query "\"MessageTable\"" "[\"bytes\"]") 0).getD {}

/-- The main query handed to the constructor of the post-processing stage by the
sample message query. -/
def sample_main_query : AnalyticsQuery :=
  { table := "MessageTable", sandesh_moduleid := "QueryEngine", dbif := true }

/-- The stage constructed for the sample message query sorted by `Source`. -/
def sample_sort_source_state : PostProcessingState :=
  (PostProcessingQuery_ctor sample_constants sample_header (sample_json_library 5000) []
    sample_stages.selectquery (sample_sorted_query "\"MessageTable\"" "[\"Source\"]")
    sample_main_query).getD { pp := {}, merge_needed := false }

/-- The object left by `Init` on the sample flow-series query filtered on
`bytes` with the value 5000000000. -/
def sample_wide_filter_result : AnalyticsQuery :=
  (Init sample_constants sample_header (sample_json_library 5000) sample_stages
    (sample_this 0 1) true "q"
    (sample_filtered_query "\"FlowSeriesTable\""
      "[\x7b\"name\":\"bytes\",\"value\":5000000000,\"op\":5\x7d]") 0).getD {}

/-- The object constructed for batch 0 of ten of the sample message query against
the database that answers every call. -/
def sample_constructed_result : AnalyticsQuery :=
  (AnalyticsQuery_ctor sample_constants sample_header (sample_library 5000) sample_stages
    sample_db "q" (sample_query "\"MessageTable\"" "0" "100") 0 0 10).getD {}

/-! ## Further descriptions and sample inputs of the post-processing stage -/

/-- The state in which the constructor of the post-processing stage enters its
loop over the raw query. -/
def PostProcessingQuery_initial (m_query : AnalyticsQuery) : PostProcessingState :=
  { pp := { status_details := 0, sorted := false, limit := 0 },
    merge_needed := m_query.merge_needed }

/-- The `status_details` with which the constructor of the post-processing stage
ends, when it ends. -/
def PostProcessingQuery_status (c : VizConstants) (h : QueryHeader) (lib : Library)
    (names : List (String × String)) (sel : SelectQuery)
    (json_api_data : List (String × String)) (m_query : AnalyticsQuery) : Option Int :=
  (PostProcessingQuery_ctor c h lib names sel json_api_data m_query).map
    (fun st => st.pp.status_details)

/-- The text handed to the JSON library for a sort-fields clause (line 88). -/
def sort_fields_document (value : String) : String :=
  "\x7b \"sort_fields\" : " ++ value ++ " \x7d"

/-- The text handed to the JSON library for a result filter (line 113). -/
def filter_document (value : String) : String :=
  "\x7b \"filter\" : " ++ value ++ " \x7d"

/-- The JSON documents known to the sample library of malformed clauses: the
wrapped sort-fields clauses `"Source"` and `["Source", 5]`, and the wrapped
result filters `7` and `[{"value":"x","op":1}]`. -/
def sample_malformed_documents : List (String × JsonValue) :=
  [(sort_fields_document "\"Source\"",
      JsonValue.object [("sort_fields", JsonValue.string "Source")]),
   (sort_fields_document "[\"Source\", 5]",
      JsonValue.object [("sort_fields",
        JsonValue.array [JsonValue.string "Source", JsonValue.int 5])]),
   (filter_document "7", JsonValue.object [("filter", JsonValue.int 7)]),
   (filter_document "[\x7b\"value\":\"x\",\"op\":1\x7d]",
      JsonValue.object [("filter", JsonValue.array [JsonValue.object
        [("value", JsonValue.string "x"), ("op", JsonValue.int 1)]])])]

/-- A sample library that parses the texts of `sample_malformed_documents`. -/
def sample_malformed_library : Library :=
  { istream_uint64 := sample_decimal,
    istream_int := fun s => (sample_decimal s : Int),
    rapidjson_Parse := fun text => sample_malformed_documents.lookup text,
    regex_compiles := fun _ => true,
    now := 5000 }

/-- The stage constructed for the sample message query whose result filter is
`[{"value":"x","op":1}]`, an element without the key `name`. -/
def sample_missing_name_state : PostProcessingState :=
  (PostProcessingQuery_ctor sample_constants sample_header sample_malformed_library []
    sample_stages.selectquery
    (sample_filtered_query "\"MessageTable\"" "[\x7b\"value\":\"x\",\"op\":1\x7d]")
    sample_main_query).getD { pp := {}, merge_needed := false }

/-- The state after the entry `end_time` of the sample queries, which adds one
filter on the logs of the query engine itself. -/
def sample_after_end_time : PostProcessingState :=
  { pp := { filter_list := [{ name := "ModuleId", value := "QueryEngine", op := 2,
                              ignore_col_absence := true }] },
    merge_needed := false }

/-! ## `AnalyticsQuery::merge_processing` and `final_merge_processing`
(`query.cc`, lines 196-226) -/

/-- The two merge functions of the post-processing stage, whose bodies are in
another file: each is given the stage, the input and the output buffer, and
yields the value it returns and the output buffer it leaves. -/
structure PostProcessingMerge where
  merge_processing : PostProcessingQuery → BufferT → BufferT → Bool × BufferT
  final_merge_processing : PostProcessingQuery → List BufferT → BufferT → Bool × BufferT

/-- What a merge function of `AnalyticsQuery` leaves: the object, the value
returned, the output buffer, and whether the merge function of the
post-processing stage has been called. -/
structure MergeResult where
  object : AnalyticsQuery
  returned : Bool
  output : BufferT
  merger_called : Bool
deriving DecidableEq, Repr

/-- The function `AnalyticsQuery::merge_processing`; the call through
`postprocess_` needs the stage to have been constructed. -/
def merge_processing (mg : PostProcessingMerge) (q : AnalyticsQuery) (input output : BufferT) :
    Option MergeResult :=
  if q.status_details ≠ 0 then
    some { object := q, returned := false, output := output, merger_called := false }
  else
    let q1 : AnalyticsQuery := { q with status_details := 0 }
    match q1.postprocess_ with
    | none => none
    | some pp =>
      some { object := q1, returned := (mg.merge_processing pp input output).1,
             output := (mg.merge_processing pp input output).2, merger_called := true }

/-- The function `AnalyticsQuery::final_merge_processing`; the call through
`postprocess_` needs the stage to have been constructed. -/
def final_merge_processing (mg : PostProcessingMerge) (q : AnalyticsQuery)
    (inputs : List BufferT) (output : BufferT) : Option MergeResult :=
  if q.status_details ≠ 0 then
    some { object := q, returned := false, output := output, merger_called := false }
  else
    let q1 : AnalyticsQuery := { q with status_details := 0 }
    match q1.postprocess_ with
    | none => none
    | some pp =>
      some { object := q1, returned := (mg.final_merge_processing pp inputs output).1,
             output := (mg.final_merge_processing pp inputs output).2, merger_called := true }

/-! ## The merge of the post-processing stage, after the specification -/

/-- Modelled from the spec: the composite key that the merge of
`PostProcessingQuery` (its body is in another file) compares, under the ordered
list of sort fields; a string field contributes the codes of its characters, a
numeric field its number. -/
def sort_key (numeric_value : String → Int) (fields : List sort_field_t)
    (row : List (String × String)) : List (List Int) :=
  fields.map (fun f =>
    if f.type == "string" then ((row.lookup f.name).getD "").data.map (fun ch => (ch.toNat : Int))
    else [numeric_value ((row.lookup f.name).getD "")])

/-- Modelled from the spec: the comparison of the merge of `PostProcessingQuery`
(its body is in another file), whether row `a` may come before row `b`: the
composite keys are compared field by field from the left, in the direction of
the query. -/
def row_le (numeric_value : String → Int) (h : QueryHeader) (pp : PostProcessingQuery)
    (a b : List (String × String)) : Bool :=
  if pp.sorting_type == h.ASCENDING then
    decide (sort_key numeric_value pp.sort_fields a ≤ sort_key numeric_value pp.sort_fields b)
  else
    decide (sort_key numeric_value pp.sort_fields b ≤ sort_key numeric_value pp.sort_fields a)

/-- Modelled from the spec: the inner loop of `merge_rows`, part of the merge of
`PostProcessingQuery` (its body is in another file): `x` is the head of the left
list, `xs` its tail, and `k` merges that tail with a right list. -/
def merge_rows_head {α : Type} (le : α → α → Bool) (x : α) (xs : List α)
    (k : List α → List α) : List α → List α
  | [] => x :: xs
  | y :: ys => if le x y then x :: k (y :: ys) else y :: merge_rows_head le x xs k ys

/-- Modelled from the spec: the stable merge of two row streams done by the
merge of `PostProcessingQuery` (its body is in another file); of two rows that
tie, the one of the left stream comes first. -/
def merge_rows {α : Type} (le : α → α → Bool) : List α → List α → List α
  | [], ys => ys
  | x :: xs, ys => merge_rows_head le x xs (merge_rows le xs) ys

/-- Modelled from the spec: the rows of all buffers merged in batch order by the
merge of `PostProcessingQuery` (its body is in another file), before the limit
is applied: a stable merge under the composite key when the query is sorted, the
concatenation otherwise. -/
def merged_rows (numeric_value : String → Int) (h : QueryHeader) (pp : PostProcessingQuery)
    (inputs : List BufferT) : List (List (String × String)) :=
  if pp.sorted then
    inputs.foldl (fun acc b => merge_rows (row_le numeric_value h pp) acc b.second) []
  else
    inputs.foldl (fun acc b => acc ++ b.second) []

/-- Modelled from the spec: the truncation to `limit` rows done by the merge of
`PostProcessingQuery` (its body is in another file), where 0 stands for no
limit. -/
def limit_rows (pp : PostProcessingQuery) (rows : List (List (String × String))) :
    List (List (String × String)) :=
  if pp.limit = 0 then rows else rows.take pp.limit.toNat

/-- Modelled from the spec: `PostProcessingQuery::final_merge_processing`, whose
body is in another file.  The rows of the input buffers are merged in batch
order and cut at the limit; they become the rows of the output buffer, and the
function reports success. -/
def PostProcessingQuery_final_merge_processing (numeric_value : String → Int) (h : QueryHeader)
    (pp : PostProcessingQuery) (inputs : List BufferT) (output : BufferT) : Bool × BufferT :=
  (true, { output with second := limit_rows pp (merged_rows numeric_value h pp inputs) })

/-- Modelled from the spec: `PostProcessingQuery::merge_processing`, whose body
is in another file.  One batch is folded into the running buffer with the
discipline of the final merge. -/
def PostProcessingQuery_merge_processing (numeric_value : String → Int) (h : QueryHeader)
    (pp : PostProcessingQuery) (input output : BufferT) : Bool × BufferT :=
  PostProcessingQuery_final_merge_processing numeric_value h pp [output, input] output

/-- Modelled from the spec: the two merge functions of `PostProcessingQuery`,
whose bodies are in another file, as one record. -/
def specified_merge (numeric_value : String → Int) (h : QueryHeader) : PostProcessingMerge :=
  { merge_processing := PostProcessingQuery_merge_processing numeric_value h,
    final_merge_processing := PostProcessingQuery_final_merge_processing numeric_value h }

/-- A sample row with the columns `Source` and `bytes`. -/
def sample_row (source bytes : String) : List (String × String) :=
  [("Source", source), ("bytes", bytes)]

/-- A sample post-processing stage: sorted by `bytes` as a number, then by
`Source` as a string, ascending, with the given limit. -/
def sample_postprocess (limit : Int) : PostProcessingQuery :=
  { sorted := true, sorting_type := 1, limit := limit,
    sort_fields := [⟨"bytes", "int"⟩, ⟨"Source", "string"⟩] }

/-- Three sample buffers, each sorted by `bytes`, then by `Source`. -/
def sample_buffers : List BufferT :=
  [{ first := "FlowSeriesTable", second := [sample_row "a" "5", sample_row "b" "30"] },
   { first := "FlowSeriesTable", second := [sample_row "c" "7"] },
   { first := "FlowSeriesTable", second := [sample_row "a" "30", sample_row "d" "100"] }]

/-- A sample merge function that reports success and leaves one row in the
output buffer. -/
def sample_merge : PostProcessingMerge :=
  { merge_processing := fun _ input _ => (true, input),
    final_merge_processing := fun _ _ output =>
      (true, { output with second := [sample_row "a" "5"] }) }

/-- A sample query object after a successful `Init`, with the sample
post-processing stage. -/
def sample_merging_query (limit : Int) : AnalyticsQuery :=
  { status_details := 0, postprocess_ := some (sample_postprocess limit), dbif := true }

/-- An empty output buffer. -/
def sample_output : BufferT := { first := "FlowSeriesTable", second := [] }

/-- The run of `Init` on the sample message query sorted by `Source`, which has
a sort-fields clause and neither a sort order nor a limit. -/
def sample_sort_source_run : Option AnalyticsQuery :=
  Init sample_constants sample_header (sample_json_library 5000) sample_stages
    (sample_this 0 1) true "q" (sample_sorted_query "\"MessageTable\"" "[\"Source\"]") 0

/-- The object left by `sample_sort_source_run`. -/
def sample_sort_source_result : AnalyticsQuery :=
  sample_sort_source_run.getD {}

/-- The run of `Init` on the sample message query over the whole range of a
64-bit clock, from 0 to `2 ^ 64 - 1`, as the only batch. -/
def sample_full_range_run : Option AnalyticsQuery :=
  Init sample_constants sample_header (sample_library 18446744073709551615) sample_stages
    (sample_this 0 1) true "q" (sample_query "\"MessageTable\"" "0" "18446744073709551615") 0

/-- The object left by `sample_full_range_run`. -/
def sample_full_range_result : AnalyticsQuery :=
  sample_full_range_run.getD {}

/-- The object carried by either outcome of a block. -/
def Ctl.val {α : Type} : Ctl α → α
  | Ctl.next a => a
  | Ctl.ret a => a

/-- The test of `is_object_table_query` as a function of the table name. -/
def is_object_table (c : VizConstants) (table : String) : Bool :=
  (table != c.COLLECTOR_GLOBAL_TABLE) && (table != c.FLOW_TABLE) &&
  (table != c.FLOW_SERIES_TABLE) && (table != c.OBJECT_VALUE_TABLE)

/-- Whether `Init`, called with a database handle on a raw query that names
`table`, reaches the test of lines 412-417: the table is known, both times are
present, and the WHERE and the SELECT stage have been constructed without
error. -/
def redirection_reached (c : VizConstants) (s : Stages) (data : List (String × String))
    (table : String) : Bool :=
  is_valid_from_field c table && (data.lookup QUERY_START_TIME).isSome &&
  (data.lookup QUERY_END_TIME).isSome && (s.wherequery.status_details == 0) &&
  (s.selectquery.status_details == 0)

/-- Sample stages of a query that asks for the list of object ids and whose
WHERE stage fails. -/
def sample_failing_where_stages : Stages :=
  { wherequery := { status_details := EINVAL_errno },
    selectquery := { status_details := 0, provide_timeseries := false, granularity := 0,
                     select_column_fields := ["ObjectId"], ObjectIdQuery := true,
                     flowseries_query_type := 0 },
    query_string_to_column_name := [] }

/-- The object left by `Init` on the object-id query on the sample object table
when the WHERE stage fails. -/
def sample_failing_where_result : AnalyticsQuery :=
  (Init sample_constants sample_header (sample_library 5000) sample_failing_where_stages
    (sample_this 0 1) true "q" (sample_query "\"ObjectVNTable\"" "0" "100") 0).getD {}

/-- The preparation (batch 0 of ten) of the sample message query over the
requested range from 0 to 1000, constructed when the wall clock reads 100. -/
def sample_early_clock_run : Option AnalyticsQuery :=
  Init sample_constants sample_header (sample_library 100) sample_stages
    (sample_this 0 10) true "q" (sample_query "\"MessageTable\"" "0" "1000") 0

/-- The object left by `sample_early_clock_run`. -/
def sample_early_clock_result : AnalyticsQuery :=
  sample_early_clock_run.getD {}

/-- The execution of batch `i` of ten of the same query, constructed when the
wall clock reads 500. -/
def sample_late_clock_run (i : Nat) : Option AnalyticsQuery :=
  Init sample_constants sample_header (sample_library 500) sample_stages
    { sample_this 0 10 with parallel_batch_num := (i : Int) } true "q"
    (sample_query "\"MessageTable\"" "0" "1000") 0

/-- The object left by `sample_late_clock_run`. -/
def sample_late_clock_result (i : Nat) : AnalyticsQuery :=
  (sample_late_clock_run i).getD {}

/-- The run of `Init` for batch `i` of two on the sample message query over the
range from 0 to `2 ^ 35`, the wall clock reading `2 ^ 35`. -/
def sample_wide_range_run (i : Nat) : Option AnalyticsQuery :=
  Init sample_constants sample_header (sample_library 34359738368) sample_stages
    { sample_this 0 2 with parallel_batch_num := (i : Int) } true "q"
    (sample_query "\"MessageTable\"" "0" "34359738368") 0

/-- The object left by `sample_wide_range_run`. -/
def sample_wide_range_result (i : Nat) : AnalyticsQuery :=
  (sample_wide_range_run i).getD {}

/-- The run of `Init` for batch `i` of ten on the sample message query over the
range from 0 to 100, the wall clock reading 6000. -/
def sample_message_later_run (i : Nat) : Option AnalyticsQuery :=
  Init sample_constants sample_header (sample_library 6000) sample_stages
    { sample_this 0 10 with parallel_batch_num := (i : Int) } true "q"
    (sample_query "\"MessageTable\"" "0" "100") 0

/-- The object left by `sample_message_later_run`. -/
def sample_message_later_result (i : Nat) : AnalyticsQuery :=
  (sample_message_later_run i).getD {}

/-- A sample select that provides a time series with the given granularity. -/
def sample_timeseries_select (granularity : Nat) : SelectQuery :=
  { status_details := 0, provide_timeseries := true, granularity := granularity,
    select_column_fields := [], ObjectIdQuery := false, flowseries_query_type := 0 }

end QueryEngine

/-!
# Multicast: the local member list and the unresolved VM list

A shallow embedding of two classes of `src/vnsw/agent/oper/multicast.h`.  A
`std::list` is a list; a `std::map` is the list of its entries in key order.
-/

namespace Multicast

/-- The type `boost::uuids::uuid`, sixteen bytes read as a number. -/
abbrev uuid : Type := Nat

/-- The nil uuid, the value to which `std::map::operator[]` initialises a new
entry of type `uuid`. -/
def nil_uuid : uuid := 0

/-! ## `MulticastGroupObject` -/

/-- The member of `MulticastGroupObject` that `AddLocalMember` and
`DeleteLocalMember` read and write. -/
structure MulticastGroupObject where
  local_olist_ : List uuid
deriving DecidableEq, Repr

/-- The call `std::find(l.begin(), l.end(), x)`: the position of the first
element equal to `x`, and `none` for the end iterator. -/
def std_find : List uuid → uuid → Option Nat
  | [], _ => none
  | y :: ys, x => if y = x then some 0 else (std_find ys x).map (fun i => i + 1)

/-- The function `MulticastGroupObject::AddLocalMember`: the value returned and
the object it leaves. -/
def AddLocalMember (obj : MulticastGroupObject) (intf_uuid : uuid) :
    Bool × MulticastGroupObject :=
  match std_find obj.local_olist_ intf_uuid with
  | some _ => (false, obj)
  | none => (true, { obj with local_olist_ := obj.local_olist_ ++ [intf_uuid] })

/-- The function `MulticastGroupObject::DeleteLocalMember`: the value returned
and the object it leaves. -/
def DeleteLocalMember (obj : MulticastGroupObject) (intf_uuid : uuid) :
    Bool × MulticastGroupObject :=
  match std_find obj.local_olist_ intf_uuid with
  | some it => (true, { obj with local_olist_ := obj.local_olist_.eraseIdx it })
  | none => (false, obj)

/-! ## `MulticastHandler` -/

/-- What the handler reads of a `const VmPortInterface *`: the pointer itself and
the uuid of the interface it points to. -/
structure VmPortInterface where
  address : Nat
  GetUuid : uuid
deriving DecidableEq, Repr

/-- The insertion of a new entry into a `std::map`, before the first entry with
a greater key. -/
def map_insert {V : Type} (k : uuid) (v : V) : List (uuid × V) → List (uuid × V)
  | [] => [(k, v)]
  | (k1, v1) :: rest =>
    if k < k1 then (k, v) :: (k1, v1) :: rest else (k1, v1) :: map_insert k v rest

/-- The operator `m[k]` of a `std::map`: the map it leaves, in which a missing
key has been inserted with the default value. -/
def map_subscript {V : Type} (default_value : V) (m : List (uuid × V)) (k : uuid) :
    List (uuid × V) :=
  match m.lookup k with
  | some _ => m
  | none => map_insert k default_value m

/-- The call `m.erase(k)` of a `std::map`. -/
def map_erase {V : Type} (m : List (uuid × V)) (k : uuid) : List (uuid × V) :=
  m.filter (fun e => e.1 != k)

/-- An assignment through the reference returned by `m[k]`: the value of the
entry with key `k` becomes `f` of it. -/
def map_modify {V : Type} (m : List (uuid × V)) (k : uuid) (f : V → V) : List (uuid × V) :=
  m.map (fun e => if e.1 = k then (e.1, f e.2) else e)

/-- The two members of `MulticastHandler` that `DeleteVMFromUnResolvedList`
reads and writes. -/
structure MulticastHandler where
  unresolved_subnet_vm_list_ : List (uuid × List VmPortInterface)
  vm_vn_mapping_ : List (uuid × uuid)
deriving DecidableEq, Repr

/-- The function `MulticastHandler::DeleteVNFromUnResolvedList`. -/
def DeleteVNFromUnResolvedList (hd : MulticastHandler) (vn_uuid : uuid) : MulticastHandler :=
  match hd.unresolved_subnet_vm_list_.lookup vn_uuid with
  | some _ =>
    { hd with unresolved_subnet_vm_list_ := map_erase hd.unresolved_subnet_vm_list_ vn_uuid }
  | none => hd

/-- The first two statements of `DeleteVMFromUnResolvedList`: the handler when
the size of `unresolved_subnet_vm_list_` is tested, and the VN uuid read for the
interface.  Both subscripts insert a missing key; `remove` drops every copy of
the pointer. -/
def DeleteVMFromUnResolvedList_remove (hd : MulticastHandler) (vm_itf : VmPortInterface) :
    MulticastHandler × uuid :=
  let vm_vn := map_subscript nil_uuid hd.vm_vn_mapping_ vm_itf.GetUuid
  let vn_uuid := (vm_vn.lookup vm_itf.GetUuid).getD nil_uuid
  let unresolved := map_subscript [] hd.unresolved_subnet_vm_list_ vn_uuid
  ({ unresolved_subnet_vm_list_ :=
       map_modify unresolved vn_uuid (fun l => l.filter (fun p => p.address != vm_itf.address)),
     vm_vn_mapping_ := vm_vn }, vn_uuid)

/-- The function `MulticastHandler::DeleteVMFromUnResolvedList`. -/
def DeleteVMFromUnResolvedList (hd : MulticastHandler) (vm_itf : VmPortInterface) :
    MulticastHandler :=
  let r := DeleteVMFromUnResolvedList_remove hd vm_itf
  let hd1 : MulticastHandler :=
    if r.1.unresolved_subnet_vm_list_.length = 0 then DeleteVNFromUnResolvedList r.1 r.2
    else r.1
  { hd1 with vm_vn_mapping_ := map_erase hd1.vm_vn_mapping_ vm_itf.GetUuid }

/-! ## Sample inputs -/

/-- A sample interface with the uuid 1. -/
def sample_vm : VmPortInterface := { address := 100, GetUuid := 1 }

/-- A sample handler in which the interface with uuid 1 is the only unresolved
interface of the VN with uuid 7. -/
def sample_handler : MulticastHandler :=
  { unresolved_subnet_vm_list_ := [(7, [sample_vm])], vm_vn_mapping_ := [(1, 7)] }

/-- A sample group object with two local members. -/
def sample_group : MulticastGroupObject := { local_olist_ := [4, 9] }

end Multicast

namespace QueryEngine

/-! ## Arithmetic on machine integers -/

theorem U64_eq : U64 = 18446744073709551616 := by
  norm_num [U64]

theorem u64_add_eq {a b : Nat} (h : a + b < U64) : u64_add a b = a + b := by
  unfold u64_add
  exact Nat.mod_eq_of_lt h

theorem u64_sub_eq {a b : Nat} (hb : b ≤ a) (ha : a < U64) : u64_sub a b = a - b := by
  unfold u64_sub
  rw [Nat.mod_eq_of_lt ha, Nat.mod_eq_of_lt (lt_of_le_of_lt hb ha)]
  rw [U64_eq] at *
  omega

theorem u64_mul_eq {a b : Nat} (h : a * b < U64) : u64_mul a b = a * b := by
  unfold u64_mul
  exact Nat.mod_eq_of_lt h

theorem toU64_natCast {n : Nat} (h : n < U64) : toU64 (n : Int) = n := by
  unfold toU64
  rw [U64_eq] at h
  omega

/-! ## The chunk loop -/

theorem chunk_list_zero (ts : Nat) : chunk_list 0 ts = [] := by
  simp [chunk_list]

theorem chunk_list_small {d ts : Nat} (hd : 0 < d) (hlt : d < ts) : chunk_list d ts = [d] := by
  have h1 : d / ts = 0 := Nat.div_eq_of_lt hlt
  have h2 : d % ts = d := Nat.mod_eq_of_lt hlt
  have h3 : d ≠ 0 := by omega
  simp [chunk_list, h1, h2, h3]

theorem chunk_list_step {d ts : Nat} (hts : 0 < ts) (hle : ts ≤ d) :
    chunk_list d ts = ts :: chunk_list (d - ts) ts := by
  have h1 : d / ts = (d - ts) / ts + 1 := by
    rw [Nat.div_eq d ts, if_pos ⟨hts, hle⟩]
  have h2 : d % ts = (d - ts) % ts := by
    rw [Nat.mod_eq_sub_mod hle]
  simp [chunk_list, h1, h2, List.replicate_succ]

theorem get_query_details_loop_done (e ts fuel cs : Nat) (acc : List Nat) (h : e ≤ cs) :
    get_query_details_loop e ts (fuel + 1) cs acc = some acc := by
  simp [get_query_details_loop, Nat.not_lt.mpr h]

theorem get_query_details_loop_eq (e ts : Nat) (hts : 1 ≤ ts) (hov : e + ts < U64) :
    ∀ (fuel cs : Nat) (acc : List Nat), cs ≤ e → (e - cs) / ts + 1 < fuel →
      get_query_details_loop e ts fuel cs acc = some (acc ++ chunk_list (e - cs) ts) := by
  intro fuel
  induction fuel with
  | zero => intro cs acc _ hf; exact absurd hf (Nat.not_lt_zero _)
  | succ n ih =>
    intro cs acc hcs hf
    rcases Nat.lt_or_ge cs e with hlt | hge
    · have hadd : u64_add cs ts = cs + ts := u64_add_eq (by omega)
      have hsub : u64_sub e cs = e - cs := u64_sub_eq hcs (by omega)
      by_cases hfit : cs + ts ≤ e
      · have hdiv : (e - cs) / ts = (e - (cs + ts)) / ts + 1 := by
          rw [Nat.div_eq (e - cs) ts, if_pos ⟨by omega, by omega⟩]
          congr 2
          omega
        have hrec := ih (cs + ts) (acc ++ [ts]) hfit (by
          rw [hdiv] at hf
          generalize (e - (cs + ts)) / ts = k at hf ⊢
          omega)
        have hstep : chunk_list (e - cs) ts = ts :: chunk_list (e - (cs + ts)) ts := by
          rw [chunk_list_step (by omega) (by omega)]
          congr 2
          omega
        simp only [get_query_details_loop, hlt, hadd, hfit, if_true, hrec, hstep]
        simp
      · have hn : 1 ≤ n := by
          generalize (e - cs) / ts = k at hf
          omega
        obtain ⟨m, rfl⟩ : ∃ m, n = m + 1 := ⟨n - 1, by omega⟩
        have hsmall : chunk_list (e - cs) ts = [e - cs] :=
          chunk_list_small (by omega) (by omega)
        simp only [get_query_details_loop, hlt, hadd, hfit, if_true, if_false, hsub, hsmall]
        have : ¬ (cs + ts < e) := by omega
        simp [this]
    · have hz : e - cs = 0 := by omega
      simp [get_query_details_loop, Nat.not_lt.mpr hge, hz, chunk_list_zero]

theorem chunk_list_mem {d ts c : Nat} (hts : 0 < ts) (hc : c ∈ chunk_list d ts) :
    0 < c ∧ c ≤ ts := by
  unfold chunk_list at hc
  rcases List.mem_append.mp hc with h | h
  · have := (List.mem_replicate.mp h).2
    omega
  · by_cases hr : d % ts = 0
    · simp [hr] at h
    · simp only [hr, if_false, List.mem_singleton] at h
      have := Nat.mod_lt d hts
      omega

theorem chunk_list_dropLast {d ts c : Nat} (hc : c ∈ (chunk_list d ts).dropLast) : c = ts := by
  unfold chunk_list at hc
  by_cases hr : d % ts = 0
  · simp only [hr, if_true, List.append_nil] at hc
    exact (List.mem_replicate.mp (List.dropLast_subset _ hc)).2
  · simp only [hr, if_false, List.dropLast_concat] at hc
    exact (List.mem_replicate.mp hc).2

theorem chunk_list_sum (d ts : Nat) : (chunk_list d ts).sum = d := by
  unfold chunk_list
  by_cases hr : d % ts = 0
  · simp only [hr, if_true, List.append_nil, List.sum_replicate, smul_eq_mul]
    exact Nat.div_mul_cancel (Nat.dvd_of_mod_eq_zero hr)
  · simp only [hr, if_false, List.sum_append, List.sum_replicate, smul_eq_mul, List.sum_cons,
      List.sum_nil, add_zero]
    exact Nat.div_add_mod' d ts

theorem chunk_windows_bounds (cs : List Nat) :
    ∀ (s : Nat) (w : Nat × Nat), w ∈ chunk_windows s cs → s ≤ w.1 ∧ w.2 ≤ s + cs.sum := by
  induction cs with
  | nil => intro s w hw; simp [chunk_windows] at hw
  | cons c cs ih =>
    intro s w hw
    simp only [chunk_windows, List.mem_cons] at hw
    rcases hw with rfl | hw
    · simp
    · have := ih (s + c) w hw
      simp only [List.sum_cons]
      omega

theorem chunk_windows_nonempty (cs : List Nat) (hpos : ∀ c ∈ cs, 0 < c) :
    ∀ (s : Nat) (w : Nat × Nat), w ∈ chunk_windows s cs → w.1 < w.2 := by
  induction cs with
  | nil => intro s w hw; simp [chunk_windows] at hw
  | cons c cs ih =>
    intro s w hw
    simp only [chunk_windows, List.mem_cons] at hw
    rcases hw with rfl | hw
    · have := hpos c (List.mem_cons_self _ _)
      simp
      omega
    · exact ih (fun x hx => hpos x (List.mem_cons_of_mem _ hx)) (s + c) w hw

theorem chunk_windows_pairwise (cs : List Nat) (hpos : ∀ c ∈ cs, 0 < c) :
    ∀ s : Nat, List.Pairwise (fun a b : Nat × Nat => a.1 < b.1 ∧ a.2 ≤ b.1)
      (chunk_windows s cs) := by
  induction cs with
  | nil => intro s; simp [chunk_windows]
  | cons c cs ih =>
    intro s
    simp only [chunk_windows, List.pairwise_cons]
    refine ⟨?_, ih (fun x hx => hpos x (List.mem_cons_of_mem _ hx)) (s + c)⟩
    intro w hw
    have h1 := (chunk_windows_bounds cs (s + c) w hw).1
    have h2 := hpos c (List.mem_cons_self _ _)
    constructor
    · show s < w.1
      omega
    · exact h1

theorem chunk_windows_cover (cs : List Nat) :
    ∀ (s t : Nat), (s ≤ t ∧ t < s + cs.sum) ↔
      ∃ w ∈ chunk_windows s cs, w.1 ≤ t ∧ t < w.2 := by
  induction cs with
  | nil => intro s t; simp [chunk_windows]
  | cons c cs ih =>
    intro s t
    simp only [chunk_windows, List.sum_cons, List.exists_mem_cons_iff]
    rw [← ih (s + c) t]
    constructor
    · intro h
      by_cases hlt : t < s + c
      · exact Or.inl ⟨h.1, hlt⟩
      · exact Or.inr ⟨by omega, by omega⟩
    · intro h
      rcases h with h | h
      · exact ⟨h.1, by have := h.2; show t < s + (c + cs.sum); omega⟩
      · exact ⟨by omega, by omega⟩

/-! ## What `Init` has established when control reaches the window -/

theorem can_parallelize_query_table (c : VizConstants) (sel : SelectQuery)
    (q : AnalyticsQuery) :
    can_parallelize_query c sel q = can_parallelize_table c sel q.table := rfl

theorem parallel_merge_needed_table (c : VizConstants) (h : QueryHeader) (sel : SelectQuery)
    (q : AnalyticsQuery) :
    parallel_merge_needed c h sel q = parallel_merge_table c h sel q.table := rfl

theorem Init_time_slice_spec {c : VizConstants} {h : QueryHeader} {sel : SelectQuery}
    {q0 p : AnalyticsQuery} (hp : Init_time_slice c h sel q0 = some p) :
    p.original_from_time = clamped_from q0.from_time q0.end_time ∧
    p.original_end_time = q0.end_time ∧
    p.from_time = clamped_from q0.from_time q0.end_time ∧
    p.end_time = q0.end_time ∧
    p.table = q0.table ∧
    p.status_details = q0.status_details ∧
    p.processing_needed = q0.processing_needed ∧
    p.parallel_batch_num = q0.parallel_batch_num ∧
    p.total_parallel_batches = q0.total_parallel_batches ∧
    p.req_from_time = q0.req_from_time ∧
    p.req_end_time = q0.req_end_time ∧
    p.parallelize_query_ = can_parallelize_query c sel q0 ∧
    (can_parallelize_query c sel q0 = true →
      toU64 q0.total_parallel_batches ≠ 0 ∧
      p.time_slice = time_slice_adjusted sel (time_slice_floored c
        (time_slice_unfloored (clamped_from q0.from_time q0.end_time) q0.end_time
          q0.total_parallel_batches)) ∧
      p.merge_needed = (q0.merge_needed || parallel_merge_needed c h sel q0)) ∧
    (can_parallelize_query c sel q0 = false →
      p.time_slice = u64_sub q0.end_time (clamped_from q0.from_time q0.end_time) ∧
      p.merge_needed = q0.merge_needed) := by
  unfold Init_time_slice at hp
  simp only [can_parallelize_query_table, parallel_merge_needed_table] at hp ⊢
  by_cases hc : q0.from_time > q0.end_time
  · simp only [hc, if_true] at hp
    by_cases hpar : can_parallelize_table c sel q0.table = true
    · by_cases hz : toU64 q0.total_parallel_batches = 0
      · simp [hpar, hz] at hp
      · simp only [hpar, hz, if_true, if_false, Option.some.injEq] at hp
        subst hp
        simp [clamped_from, hc, hpar, hz]
    · have hpar2 : can_parallelize_table c sel q0.table = false := by simpa using hpar
      simp only [hpar2, Bool.false_eq_true, if_false, Option.some.injEq] at hp
      subst hp
      simp [clamped_from, hc, hpar2]
  · simp only [hc, if_false] at hp
    by_cases hpar : can_parallelize_table c sel q0.table = true
    · by_cases hz : toU64 q0.total_parallel_batches = 0
      · simp [hpar, hz] at hp
      · simp only [hpar, hz, if_true, if_false, Option.some.injEq] at hp
        subst hp
        simp [clamped_from, hc, hpar, hz]
    · have hpar2 : can_parallelize_table c sel q0.table = false := by simpa using hpar
      simp only [hpar2, Bool.false_eq_true, if_false, Option.some.injEq] at hp
      subst hp
      simp [clamped_from, hc, hpar2]

theorem object_table_redirect_fields (c : VizConstants) (sel : SelectQuery)
    (q : AnalyticsQuery) :
    (object_table_redirect c sel q).from_time = q.from_time ∧
    (object_table_redirect c sel q).end_time = q.end_time ∧
    (object_table_redirect c sel q).status_details = q.status_details ∧
    (object_table_redirect c sel q).processing_needed = q.processing_needed ∧
    (object_table_redirect c sel q).parallel_batch_num = q.parallel_batch_num ∧
    (object_table_redirect c sel q).total_parallel_batches = q.total_parallel_batches ∧
    (object_table_redirect c sel q).req_from_time = q.req_from_time ∧
    (object_table_redirect c sel q).req_end_time = q.req_end_time := by
  unfold object_table_redirect
  split <;> simp

theorem object_table_redirect_table (c : VizConstants) (sel : SelectQuery)
    (q : AnalyticsQuery) :
    (object_table_redirect c sel q).table = redirected_table c sel q.table := by
  unfold object_table_redirect redirected_table is_object_table_query
  split <;> simp_all

theorem Init_stages_next {c : VizConstants} {h : QueryHeader} {lib : Library} {s : Stages}
    {data : List (String × String)} {q0 p : AnalyticsQuery}
    (hp : Init_stages c h lib s data q0 = some (Ctl.next p)) :
    ∃ q4 : AnalyticsQuery, Init_time_slice c h s.selectquery q4 = some p ∧
      q4.from_time = q0.from_time ∧ q4.end_time = q0.end_time ∧
      q4.status_details = 0 ∧
      q4.processing_needed = q0.processing_needed ∧
      q4.parallel_batch_num = q0.parallel_batch_num ∧
      q4.total_parallel_batches = q0.total_parallel_batches ∧
      q4.req_from_time = q0.req_from_time ∧ q4.req_end_time = q0.req_end_time ∧
      s.wherequery.status_details = 0 ∧ s.selectquery.status_details = 0 ∧
      q4.table = redirected_table c s.selectquery q0.table := by
  unfold Init_stages at hp
  simp only [] at hp
  by_cases hw : s.wherequery.status_details = 0
  · by_cases hs : s.selectquery.status_details = 0
    · simp only [hw, hs, ne_eq, not_true_eq_false, if_false] at hp
      split at hp
      · exact absurd hp (by simp)
      · split at hp
        · exact absurd hp (by simp)
        · rename_i st hst
          split at hp
          · exact absurd hp (by simp)
          · rename_i hpp
            split at hp
            · exact absurd hp (by simp)
            · rename_i q5 hq5
              simp only [Option.some.injEq, Ctl.next.injEq] at hp
              subst hp
              refine ⟨_, hq5, ?_⟩
              have hpp0 : st.pp.status_details = 0 := by simpa using hpp
              have hf := object_table_redirect_fields c s.selectquery
                { q0 with wherequery_ := some s.wherequery, status_details := 0,
                          selectquery_ := some s.selectquery }
              simp only [] at hf
              obtain ⟨h1, h2, _, h4, h5, h6, h7, h8⟩ := hf
              exact ⟨h1, h2, hpp0, h4, h5, h6, h7, h8, hw, hs,
                object_table_redirect_table c s.selectquery _⟩
    · simp [hw, hs] at hp
  · simp [hw] at hp

theorem Init_stages_ret {c : VizConstants} {h : QueryHeader} {lib : Library} {s : Stages}
    {data : List (String × String)} {q0 q : AnalyticsQuery}
    (hq : Init_stages c h lib s data q0 = some (Ctl.ret q)) : q.status_details ≠ 0 := by
  unfold Init_stages at hq
  simp only [] at hq
  by_cases hw : s.wherequery.status_details = 0
  · by_cases hs : s.selectquery.status_details = 0
    · simp only [hw, hs, ne_eq, not_true_eq_false, if_false] at hq
      split at hq
      · simp only [Option.some.injEq, Ctl.ret.injEq] at hq
        subst hq
        simp [QE_INVALIDARG_ERROR, EINVAL_errno]
      · split at hq
        · exact absurd hq (by simp)
        · rename_i st hst
          split at hq
          · rename_i hpp
            simp only [Option.some.injEq, Ctl.ret.injEq] at hq
            subst hq
            simpa using hpp
          · split at hq <;> exact absurd hq (by simp)
    · simp only [hw, hs, ne_eq, not_true_eq_false, if_false, not_false_eq_true, if_true,
        Option.some.injEq, Ctl.ret.injEq] at hq
      subst hq
      simpa using hs
  · simp only [hw, ne_eq, not_false_eq_true, if_true, Option.some.injEq, Ctl.ret.injEq] at hq
    subst hq
    simpa using hw

theorem Init_parse_next {c : VizConstants} {h : QueryHeader} {lib : Library} {s : Stages}
    {this : AnalyticsQuery} {db_if : Bool} {qid : String} {data : List (String × String)}
    {ast : Nat} {p : AnalyticsQuery}
    (hp : Init_parse c h lib s this db_if qid data ast = some (Ctl.next p)) :
    ∃ (quoted table start_text end_text : String) (q4 : AnalyticsQuery),
      data.lookup QUERY_TABLE = some quoted ∧
      strip_quotes quoted = some table ∧
      q4.table = redirected_table c s.selectquery table ∧
      data.lookup QUERY_START_TIME = some start_text ∧
      data.lookup QUERY_END_TIME = some end_text ∧
      Init_time_slice c h s.selectquery q4 = some p ∧
      q4.req_from_time = lib.istream_uint64 start_text % U64 ∧
      q4.req_end_time = lib.istream_uint64 end_text % U64 ∧
      q4.from_time = (if lib.istream_uint64 start_text % U64 < ast % U64 then ast % U64
        else lib.istream_uint64 start_text % U64) ∧
      q4.end_time = (if lib.istream_uint64 end_text % U64 > lib.now % U64 then lib.now % U64
        else lib.istream_uint64 end_text % U64) ∧
      q4.status_details = 0 ∧
      q4.processing_needed = this.processing_needed ∧
      q4.parallel_batch_num = this.parallel_batch_num ∧
      q4.total_parallel_batches = this.total_parallel_batches := by
  unfold Init_parse at hp
  simp only [] at hp
  split at hp
  · exact absurd hp (by simp)
  · split at hp
    · exact absurd hp (by simp)
    · rename_i quoted hquoted
      split at hp
      · exact absurd hp (by simp)
      · rename_i table htable
        split at hp
        · exact absurd hp (by simp)
        · split at hp
          · exact absurd hp (by simp)
          · rename_i start_text hst
            split at hp
            · exact absurd hp (by simp)
            · rename_i end_text het
              obtain ⟨q4, hq4, h1, h2, h3, h4, h5, h6, h7, h8, _, _, h9⟩ := Init_stages_next hp
              exact ⟨quoted, table, start_text, end_text, q4, hquoted, htable, h9, hst, het, hq4,
                h7, h8, h1, h2, h3, h4, h5, h6⟩

theorem Init_parse_ret {c : VizConstants} {h : QueryHeader} {lib : Library} {s : Stages}
    {this : AnalyticsQuery} {db_if : Bool} {qid : String} {data : List (String × String)}
    {ast : Nat} {q : AnalyticsQuery}
    (hq : Init_parse c h lib s this db_if qid data ast = some (Ctl.ret q)) :
    q.status_details ≠ 0 := by
  unfold Init_parse at hq
  simp only [] at hq
  split at hq
  · simp only [Option.some.injEq, Ctl.ret.injEq] at hq
    subst hq
    simp [QE_IO_ERROR, EIO_errno]
  · split at hq
    · simp only [Option.some.injEq, Ctl.ret.injEq] at hq
      subst hq
      simp [QE_PARSE_ERROR, EBADMSG_errno]
    · split at hq
      · exact absurd hq (by simp)
      · split at hq
        · simp only [Option.some.injEq, Ctl.ret.injEq] at hq
          subst hq
          simp [QE_INVALIDARG_ERROR, EINVAL_errno]
        · split at hq
          · simp only [Option.some.injEq, Ctl.ret.injEq] at hq
            subst hq
            simp [QE_PARSE_ERROR, EBADMSG_errno]
          · split at hq
            · simp only [Option.some.injEq, Ctl.ret.injEq] at hq
              subst hq
              simp [QE_PARSE_ERROR, EBADMSG_errno]
            · exact Init_stages_ret hq

theorem Init_window_fields (p : AnalyticsQuery) :
    (Init_window p).status_details = p.status_details ∧
    (Init_window p).original_from_time = p.original_from_time ∧
    (Init_window p).original_end_time = p.original_end_time ∧
    (Init_window p).time_slice = p.time_slice ∧
    (Init_window p).parallel_batch_num = p.parallel_batch_num ∧
    (Init_window p).total_parallel_batches = p.total_parallel_batches ∧
    (Init_window p).merge_needed = p.merge_needed ∧
    (Init_window p).table = p.table ∧
    (Init_window p).req_from_time = p.req_from_time ∧
    (Init_window p).req_end_time = p.req_end_time ∧
    (Init_window p).from_time =
      u64_add p.original_from_time (u64_mul p.time_slice (toU64 p.parallel_batch_num)) := by
  unfold Init_window
  simp only []
  split
  · simp
  · split <;> simp

theorem Init_success {c : VizConstants} {h : QueryHeader} {lib : Library} {s : Stages}
    {this : AnalyticsQuery} {db_if : Bool} {qid : String} {data : List (String × String)}
    {ast : Nat} {q : AnalyticsQuery}
    (hq : Init c h lib s this db_if qid data ast = some q) (h0 : q.status_details = 0) :
    ∃ p, Init_parse c h lib s this db_if qid data ast = some (Ctl.next p) ∧
      q = Init_window p := by
  unfold Init at hq
  split at hq
  · exact absurd hq (by simp)
  · rename_i q1 hq1
    simp only [Option.some.injEq] at hq
    subst hq
    exact absurd h0 (Init_parse_ret hq1)
  · rename_i p hp
    simp only [Option.some.injEq] at hq
    exact ⟨p, hp, hq.symm⟩

theorem Init_window_processing (p : AnalyticsQuery) :
    (Init_window p).processing_needed =
      (if p.original_end_time ≤
          u64_add p.original_from_time (u64_mul p.time_slice (toU64 p.parallel_batch_num))
        then false else p.processing_needed) ∧
    (Init_window p).end_time =
      (if p.original_end_time ≤
          u64_add p.original_from_time (u64_mul p.time_slice (toU64 p.parallel_batch_num))
        then u64_add (u64_add p.original_from_time
          (u64_mul p.time_slice (toU64 p.parallel_batch_num))) p.time_slice
        else if p.original_end_time < u64_add (u64_add p.original_from_time
          (u64_mul p.time_slice (toU64 p.parallel_batch_num))) p.time_slice
        then p.original_end_time
        else u64_add (u64_add p.original_from_time
          (u64_mul p.time_slice (toU64 p.parallel_batch_num))) p.time_slice) := by
  unfold Init_window
  simp only [ge_iff_le, gt_iff_lt]
  split
  · simp
  · split <;> simp

theorem Init_plan {c : VizConstants} {h : QueryHeader} {lib : Library} {s : Stages}
    {this : AnalyticsQuery} {db_if : Bool} {qid : String} {data : List (String × String)}
    {ast : Nat} {q : AnalyticsQuery}
    (hq : Init c h lib s this db_if qid data ast = some q) (h0 : q.status_details = 0) :
    ∃ (quoted table start_text end_text : String),
      data.lookup QUERY_TABLE = some quoted ∧
      strip_quotes quoted = some table ∧
      data.lookup QUERY_START_TIME = some start_text ∧
      data.lookup QUERY_END_TIME = some end_text ∧
      q.table = redirected_table c s.selectquery table ∧
      q.req_from_time = lib.istream_uint64 start_text % U64 ∧
      q.req_end_time = lib.istream_uint64 end_text % U64 ∧
      q.original_end_time = planned_end_time lib end_text ∧
      q.original_from_time = planned_from_time lib ast start_text end_text ∧
      q.time_slice = planned_time_slice c s.selectquery
        (redirected_table c s.selectquery table)
        (planned_from_time lib ast start_text end_text) (planned_end_time lib end_text)
        this.total_parallel_batches ∧
      (can_parallelize_table c s.selectquery (redirected_table c s.selectquery table) = true →
        toU64 this.total_parallel_batches ≠ 0) ∧
      q.parallel_batch_num = this.parallel_batch_num ∧
      q.total_parallel_batches = this.total_parallel_batches ∧
      q.from_time =
        u64_add q.original_from_time (u64_mul q.time_slice (toU64 q.parallel_batch_num)) ∧
      q.processing_needed =
        (if q.original_end_time ≤ q.from_time then false else this.processing_needed) ∧
      q.end_time =
        (if q.original_end_time ≤ q.from_time then u64_add q.from_time q.time_slice
          else if q.original_end_time < u64_add q.from_time q.time_slice
            then q.original_end_time
          else u64_add q.from_time q.time_slice) := by
  obtain ⟨p, hp, rfl⟩ := Init_success hq h0
  obtain ⟨quoted, table, start_text, end_text, q4, hquoted, htable, ht4, hst, het, hq4,
    hrf, hre, hfrom, hend, _, hpn, hpbn, htot⟩ := Init_parse_next hp
  obtain ⟨s1, s2, _, _, s5, _, s7, s8, s9, s10, s11, _, s13, s14⟩ := Init_time_slice_spec hq4
  obtain ⟨_, wF, wE, wts, wpbn, wtot, _, wtab, wrf, wre, wfrom⟩ := Init_window_fields p
  obtain ⟨v1, v2⟩ := Init_window_processing p
  have hE : p.original_end_time = planned_end_time lib end_text := by
    rw [s2, hend]; rfl
  have hF : p.original_from_time = planned_from_time lib ast start_text end_text := by
    rw [s1, hfrom, hend]; rfl
  have hpar : can_parallelize_query c s.selectquery q4 =
      can_parallelize_table c s.selectquery (redirected_table c s.selectquery table) := by
    rw [can_parallelize_query_table, ht4]
  refine ⟨quoted, table, start_text, end_text, hquoted, htable, hst, het, ?_, ?_, ?_, ?_, ?_,
    ?_, ?_, ?_, ?_, ?_, ?_, ?_⟩
  · rw [wtab, s5, ht4]
  · rw [wrf, s10, hrf]
  · rw [wre, s11, hre]
  · rw [wE, hE]
  · rw [wF, hF]
  · rw [wts]
    unfold planned_time_slice
    rw [← hpar, ← hF, ← hE, s1, s2, ← htot]
    by_cases hc : can_parallelize_query c s.selectquery q4 = true
    · rw [if_pos hc]
      exact (s13 hc).2.1
    · have hc2 : can_parallelize_query c s.selectquery q4 = false := by simpa using hc
      rw [if_neg hc]
      exact (s14 hc2).1
  · intro hc
    rw [← hpar] at hc
    rw [← htot]
    exact (s13 hc).1
  · rw [wpbn, s8, hpbn]
  · rw [wtot, s9, htot]
  · rw [wfrom, wF, wts, wpbn]
  · rw [v1, wE, wfrom, s7, hpn]
  · rw [v2, wE, wfrom, wts]

theorem chunk_list_getElem (ts : Nat) (hts : 1 ≤ ts) :
    ∀ (i d : Nat), i * ts < d → (chunk_list d ts)[i]? = some (min ts (d - i * ts)) := by
  intro i
  induction i with
  | zero =>
    intro d hd
    simp only [Nat.zero_mul, Nat.sub_zero] at hd ⊢
    by_cases hle : ts ≤ d
    · rw [chunk_list_step (by omega) hle]
      simp [Nat.min_eq_left hle]
    · rw [chunk_list_small hd (by omega)]
      simp
      omega
  | succ n ih =>
    intro d hd
    have hle : ts ≤ d := by
      have : ts ≤ (n + 1) * ts := Nat.le_mul_of_pos_left ts (by omega)
      omega
    have hmul : (n + 1) * ts = n * ts + ts := Nat.succ_mul n ts
    rw [chunk_list_step (by omega) hle, List.getElem?_cons_succ, ih (d - ts) (by omega)]
    congr 2
    omega

theorem chunk_list_length (ts : Nat) (hts : 1 ≤ ts) :
    ∀ (i d : Nat), i < (chunk_list d ts).length ↔ i * ts < d := by
  intro i
  induction i with
  | zero =>
    intro d
    by_cases hd : d = 0
    · subst hd; simp [chunk_list_zero]
    · by_cases hle : ts ≤ d
      · rw [chunk_list_step (by omega) hle]
        simp; omega
      · rw [chunk_list_small (by omega) (by omega)]
        simp; omega
  | succ n ih =>
    intro d
    have hmul : (n + 1) * ts = n * ts + ts := Nat.succ_mul n ts
    by_cases hle : ts ≤ d
    · rw [chunk_list_step (by omega) hle, List.length_cons, Nat.succ_lt_succ_iff, ih (d - ts)]
      omega
    · have h1 : ts ≤ (n + 1) * ts := Nat.le_mul_of_pos_left ts (by omega)
      by_cases hd : d = 0
      · subst hd; simp [chunk_list_zero]
      · rw [chunk_list_small (by omega) (by omega)]
        simp; omega

theorem get_query_details_success (q : AnalyticsQuery) (h0 : q.status_details = 0)
    (hts : q.original_from_time < q.original_end_time → 1 ≤ q.time_slice)
    (hov : q.original_end_time + q.time_slice < U64) (fuel : Nat)
    (hf : (q.original_end_time - q.original_from_time) / q.time_slice + 1 < fuel) :
    get_query_details q fuel [] =
      some { is_merge_needed := q.merge_needed,
             chunk_sizes := chunk_list (q.original_end_time - q.original_from_time) q.time_slice,
             parse_status := 0 } := by
  rcases Nat.lt_or_ge q.original_from_time q.original_end_time with hlt | hge
  · have hloop := get_query_details_loop_eq q.original_end_time q.time_slice (hts hlt) hov fuel
      q.original_from_time [] (Nat.le_of_lt hlt) hf
    simp [get_query_details, h0, hloop]
  · obtain ⟨m, rfl⟩ : ∃ m, fuel = m + 1 := ⟨fuel - 1, by
      generalize (q.original_end_time - q.original_from_time) / q.time_slice = k at hf
      omega⟩
    have hz : q.original_end_time - q.original_from_time = 0 := by omega
    simp [get_query_details, h0, get_query_details_loop_done _ _ _ _ _ hge, hz, chunk_list_zero]

/-! ## Claims -/

/-- C1: with a success status, `original_from_time ≤ original_end_time`, a time
slice of at least one and no 64-bit overflow, `get_query_details` returns (given
enough fuel for the loop) chunk sizes that are all positive, all equal to
`time_slice` except possibly the last, which lies in `1..time_slice`, and that
sum to `original_end_time - original_from_time`; the windows laid end to end
from `original_from_time` are non-empty, strictly increasing without overlap,
and cover exactly `[original_from_time, original_end_time)`. -/
theorem get_query_details_chunks (q : AnalyticsQuery) (h0 : q.status_details = 0)
    (hle : q.original_from_time ≤ q.original_end_time) (hts : 1 ≤ q.time_slice)
    (hov : q.original_end_time + q.time_slice < U64) :
    ∃ chunks : List Nat,
      (∀ fuel, (q.original_end_time - q.original_from_time) / q.time_slice + 1 < fuel →
        get_query_details q fuel [] =
          some { is_merge_needed := q.merge_needed, chunk_sizes := chunks, parse_status := 0 }) ∧
      (∀ c ∈ chunks, 0 < c) ∧
      (∀ c ∈ chunks.dropLast, c = q.time_slice) ∧
      (∀ c ∈ chunks.getLast?, 1 ≤ c ∧ c ≤ q.time_slice) ∧
      chunks.sum = q.original_end_time - q.original_from_time ∧
      (∀ w ∈ chunk_windows q.original_from_time chunks, w.1 < w.2) ∧
      List.Pairwise (fun a b : Nat × Nat => a.1 < b.1 ∧ a.2 ≤ b.1)
        (chunk_windows q.original_from_time chunks) ∧
      (∀ t, (q.original_from_time ≤ t ∧ t < q.original_end_time) ↔
        ∃ w ∈ chunk_windows q.original_from_time chunks, w.1 ≤ t ∧ t < w.2) := by
  have hpos : ∀ c ∈ chunk_list (q.original_end_time - q.original_from_time) q.time_slice,
      0 < c := fun c hc => (chunk_list_mem hts hc).1
  have hsum := chunk_list_sum (q.original_end_time - q.original_from_time) q.time_slice
  refine ⟨chunk_list (q.original_end_time - q.original_from_time) q.time_slice,
    ?_, hpos, fun c hc => chunk_list_dropLast hc, ?_, hsum, ?_, ?_, ?_⟩
  · intro fuel hf
    have hloop := get_query_details_loop_eq q.original_end_time q.time_slice hts hov fuel
      q.original_from_time [] hle hf
    simp [get_query_details, h0, hloop]
  · intro c hc
    exact chunk_list_mem hts (List.mem_of_mem_getLast? hc)
  · exact chunk_windows_nonempty _ hpos _
  · exact chunk_windows_pairwise _ hpos _
  · intro t
    rw [← chunk_windows_cover, hsum]
    constructor
    · intro h; exact ⟨h.1, by omega⟩
    · intro h; exact ⟨h.1, by omega⟩

/-- The hypotheses of C1 hold for the range from 0 to 100 cut into slices of 21,
where the chunks are 21, 21, 21, 21 and 16. -/
theorem get_query_details_chunks_witness :
    sample_sliced.status_details = 0 ∧
    sample_sliced.original_from_time ≤ sample_sliced.original_end_time ∧
    1 ≤ sample_sliced.time_slice ∧
    sample_sliced.original_end_time + sample_sliced.time_slice < U64 ∧
    get_query_details sample_sliced 10 [] =
      some { is_merge_needed := false, chunk_sizes := [21, 21, 21, 21, 16],
             parse_status := 0 } ∧
    ([21, 21, 21, 21, 16] : List Nat).sum =
      sample_sliced.original_end_time - sample_sliced.original_from_time := by
  obtain ⟨chunks, hc, _, _, _, hsum, _⟩ := get_query_details_chunks sample_sliced
    (by decide) (by decide) (by decide) (by decide)
  have hval : get_query_details sample_sliced 10 [] =
      some { is_merge_needed := false, chunk_sizes := [21, 21, 21, 21, 16],
             parse_status := 0 } := by decide
  have h10 := hc 10 (by decide)
  rw [hval] at h10
  have hchunks : chunks = [21, 21, 21, 21, 16] := by
    injection h10 with h10
    injection h10 with _ h10 _
    exact h10.symm
  subst hchunks
  exact ⟨by decide, by decide, by decide, by decide, hval, hsum⟩

/-- C2, counterexample: the preparation and the execution are two constructions,
each reading the wall clock.  For the sample message query over the requested
range from 0 to 1000 in ten batches, the preparation at clock 100 reports the
five chunks 21, 21, 21, 21, 16, while the execution at clock 500 still processes
batch 7 and gives batch 2 the window from 102 to 153 instead of 42 to 63.  And
with one clock, for the range from 0 to `2 ^ 35` in two batches, the preparation
reports two chunks, while batch `2 ^ 30`, whose start wraps around 64 bits,
needs processing. -/
theorem prepare_execute_disagree :
    sample_early_clock_run = some sample_early_clock_result ∧
    sample_early_clock_result.status_details = 0 ∧
    get_query_details sample_early_clock_result 10 [] =
      some { is_merge_needed := false, chunk_sizes := [21, 21, 21, 21, 16],
             parse_status := 0 } ∧
    sample_late_clock_run 7 = some (sample_late_clock_result 7) ∧
    (sample_late_clock_result 7).status_details = 0 ∧
    (sample_late_clock_result 7).processing_needed = true ∧
    ¬ (7 < ([21, 21, 21, 21, 16] : List Nat).length) ∧
    sample_late_clock_run 2 = some (sample_late_clock_result 2) ∧
    (sample_late_clock_result 2).from_time = 102 ∧
    (sample_late_clock_result 2).end_time = 153 ∧
    (sample_late_clock_result 2).from_time ≠
      sample_early_clock_result.original_from_time + 2 * sample_early_clock_result.time_slice ∧
    sample_wide_range_run 0 = some (sample_wide_range_result 0) ∧
    (sample_wide_range_result 0).status_details = 0 ∧
    get_query_details (sample_wide_range_result 0) 10 [] =
      some { is_merge_needed := false, chunk_sizes := [17179869185, 17179869183],
             parse_status := 0 } ∧
    sample_wide_range_run 1073741824 = some (sample_wide_range_result 1073741824) ∧
    (sample_wide_range_result 1073741824).status_details = 0 ∧
    (sample_wide_range_result 1073741824).processing_needed = true ∧
    ¬ (1073741824 < ([17179869185, 17179869183] : List Nat).length) := by
  decide

/-- C2 (amended): the fan-out reported by the preparation (batch 0) agrees with
the window used by the execution of batch `i`, the two constructions reading the
wall clock each for itself: when both runs of `Init` succeed with the same
`original_end_time` (as they do when they read the same clock value) and the
64-bit arithmetic does not wrap, batch `i` needs processing iff `i` is less than
the number of chunks that `get_query_details` reports, and then its window
starts at `original_from_time + i * time_slice`, ends at the minimum of that
start plus `time_slice` and `original_end_time`, and has the length of the
`i`-th chunk. -/
theorem prepare_execute_agree (c : VizConstants) (h : QueryHeader) (lib : Library) (now0 : Nat)
    (s : Stages) (this : AnalyticsQuery) (db_if : Bool) (qid : String)
    (data : List (String × String)) (ast i : Nat) (q q0 : AnalyticsQuery)
    (hthis : this.processing_needed = true)
    (hq : Init c h lib s { this with parallel_batch_num := (i : Int) } db_if qid data ast = some q)
    (h0 : q.status_details = 0)
    (hq0 : Init c h { lib with now := now0 } s { this with parallel_batch_num := 0 } db_if qid
      data ast = some q0)
    (h00 : q0.status_details = 0)
    (hclock : q.original_end_time = q0.original_end_time)
    (hts : q0.original_from_time < q0.original_end_time → 1 ≤ q0.time_slice)
    (hov : q0.original_end_time + q0.time_slice < U64)
    (hov2 : q0.original_from_time + i * q0.time_slice < U64) :
    ∃ chunks : List Nat,
      (∀ fuel, (q0.original_end_time - q0.original_from_time) / q0.time_slice + 1 < fuel →
        get_query_details q0 fuel [] =
          some { is_merge_needed := q0.merge_needed, chunk_sizes := chunks, parse_status := 0 }) ∧
      (q.processing_needed = true ↔ i < chunks.length) ∧
      (i < chunks.length →
        q.from_time = q0.original_from_time + i * q0.time_slice ∧
        q.end_time = min (q.from_time + q0.time_slice) q0.original_end_time ∧
        chunks[i]? = some (q.end_time - q.from_time)) := by
  obtain ⟨quoted, table, st, et, a1, a2, a3, a4, _, _, _, aE, aF, aT, _, aB, _, aFrom, aPN, aEnd⟩ :=
    Init_plan hq h0
  obtain ⟨quoted0, table0, st0, et0, b1, b2, b3, b4, _, _, _, bE, bF, bT, _, _, _, _, _, _⟩ :=
    Init_plan hq0 h00
  have e1 : quoted0 = quoted := Option.some.inj (b1.symm.trans a1)
  subst e1
  have e2 : table0 = table := Option.some.inj (b2.symm.trans a2)
  subst e2
  have e3 : st0 = st := Option.some.inj (b3.symm.trans a3)
  subst e3
  have e4 : et0 = et := Option.some.inj (b4.symm.trans a4)
  subst e4
  have hE : q.original_end_time = q0.original_end_time := hclock
  have hPE : planned_end_time lib et0 = planned_end_time { lib with now := now0 } et0 := by
    rw [← aE, ← bE, hclock]
  have hPF : planned_from_time lib ast st0 et0 =
      planned_from_time { lib with now := now0 } ast st0 et0 := by
    unfold planned_from_time
    rw [hPE]
  have hF : q.original_from_time = q0.original_from_time := by rw [aF, bF, hPF]
  have hT : q.time_slice = q0.time_slice := by rw [aT, bT, hPF, hPE]
  simp only [] at aB aPN
  rw [hthis] at aPN
  rw [hE] at aPN aEnd
  rw [hF, hT, aB] at aFrom
  rw [hT] at aEnd
  have hdet := fun fuel => get_query_details_success q0 h00 hts hov fuel
  generalize q0.original_end_time = E at *
  generalize q0.original_from_time = F at *
  generalize q0.time_slice = TS at *
  have hmul : u64_mul TS (toU64 (i : Int)) = i * TS := by
    rcases Nat.eq_zero_or_pos TS with hz | hpos
    · subst hz; simp [u64_mul]
    · have hi : i ≤ i * TS := Nat.le_mul_of_pos_right i hpos
      rw [toU64_natCast (by omega), u64_mul_eq (by rw [Nat.mul_comm]; omega), Nat.mul_comm]
  have hfrom : q.from_time = F + i * TS := by
    rw [aFrom, hmul, u64_add_eq hov2]
  rw [hfrom] at aPN aEnd
  refine ⟨chunk_list (E - F) TS, hdet, ?_, ?_⟩
  · rw [aPN]
    rcases Nat.eq_zero_or_pos TS with hz | hpos
    · subst hz
      have hFE : ¬ F < E := fun hlt => absurd (hts hlt) (by omega)
      have hd : E - F = 0 := by omega
      simp [hd, chunk_list_zero]
      omega
    · rw [chunk_list_length TS hpos]
      generalize i * TS = k
      by_cases hk : E ≤ F + k
      · simp [hk]; omega
      · simp [hk]; omega
  · intro hi
    have hpos : 1 ≤ TS := by
      rcases Nat.eq_zero_or_pos TS with hz | hpos
      · subst hz
        have hFE : ¬ F < E := fun hlt => absurd (hts hlt) (by omega)
        have hd : E - F = 0 := by omega
        rw [hd, chunk_list_zero] at hi
        simp at hi
      · exact hpos
    have hlt := (chunk_list_length TS hpos i (E - F)).mp hi
    rw [chunk_list_getElem TS hpos i (E - F) hlt, hfrom]
    have hadd : u64_add (F + i * TS) TS = F + i * TS + TS := u64_add_eq (by omega)
    rw [hadd] at aEnd
    generalize i * TS = k at *
    have hk : ¬ E ≤ F + k := by omega
    rw [if_neg hk] at aEnd
    refine ⟨rfl, ?_, ?_⟩
    · rw [aEnd]
      split <;> omega
    · rw [aEnd]
      congr 1
      split <;> omega

/-- The hypotheses of the amended C2 hold for the sample message query over the
range from 0 to 100 with ten batches, prepared at clock 5000 and executed at
clock 6000: five chunks are reported and batch 2 is given the window from 42 to
63. -/
theorem prepare_execute_agree_witness :
    (sample_this 0 10).processing_needed = true ∧
    sample_message_later_run 2 = some (sample_message_later_result 2) ∧
    (sample_message_later_result 2).status_details = 0 ∧
    sample_message_run 0 = some (sample_message_result 0) ∧
    (sample_message_result 0).status_details = 0 ∧
    (sample_message_later_result 2).original_end_time =
      (sample_message_result 0).original_end_time ∧
    ((sample_message_result 0).original_from_time < (sample_message_result 0).original_end_time →
      1 ≤ (sample_message_result 0).time_slice) ∧
    (sample_message_result 0).original_end_time + (sample_message_result 0).time_slice < U64 ∧
    (sample_message_result 0).original_from_time + 2 * (sample_message_result 0).time_slice <
      U64 ∧
    get_query_details (sample_message_result 0) 10 [] =
      some { is_merge_needed := false, chunk_sizes := [21, 21, 21, 21, 16],
             parse_status := 0 } ∧
    (sample_message_later_result 2).processing_needed = true ∧
    (sample_message_later_result 2).from_time = 42 ∧
    (sample_message_later_result 2).end_time = 63 := by
  have hq : sample_message_later_run 2 = some (sample_message_later_result 2) := by decide
  have hq0 : sample_message_run 0 = some (sample_message_result 0) := by decide
  obtain ⟨chunks, hdet, hiff, hwin⟩ := prepare_execute_agree sample_constants sample_header
    (sample_library 6000) 5000 sample_stages (sample_this 0 10) true "q"
    (sample_query "\"MessageTable\"" "0" "100") 0 2 (sample_message_later_result 2)
    (sample_message_result 0) (by decide) hq (by decide) hq0
    (by decide) (by decide) (by decide) (by decide) (by decide)
  have hval : get_query_details (sample_message_result 0) 10 [] =
      some { is_merge_needed := false, chunk_sizes := [21, 21, 21, 21, 16],
             parse_status := 0 } := by decide
  have h10 := hdet 10 (by decide)
  rw [hval] at h10
  have hchunks : chunks = [21, 21, 21, 21, 16] := by
    injection h10 with h10
    injection h10 with _ h10 _
    exact h10.symm
  subst hchunks
  have hlen : 2 < ([21, 21, 21, 21, 16] : List Nat).length := by decide
  obtain ⟨hfrom, hend, _⟩ := hwin hlen
  refine ⟨by decide, hq, by decide, hq0, by decide, by decide, by decide, by decide, by decide,
    hval, hiff.mpr hlen, ?_, ?_⟩
  · rw [hfrom]; decide
  · rw [hend, hfrom]; decide

/-- C3 as stated fails on an empty range: for the flow-series query that selects
the flow count (not parallelizable) with start time 7 and end time 7, `Init`
succeeds, `get_query_details` reports no window at all, and batch 0 is a no-op. -/
theorem nonparallel_empty_range_no_window :
    sample_empty_range_run = some sample_empty_range_result ∧
    sample_empty_range_result.status_details = 0 ∧
    can_parallelize_query sample_constants sample_flow_count_stages.selectquery
      sample_empty_range_result = false ∧
    sample_empty_range_result.original_from_time = 7 ∧
    sample_empty_range_result.original_end_time = 7 ∧
    get_query_details sample_empty_range_result 5 [] =
      some { is_merge_needed := false, chunk_sizes := [], parse_status := 0 } ∧
    sample_empty_range_result.processing_needed = false := by
  decide

/-- C3, amended: if `can_parallelize_query` is false and the range is not empty
(`original_from_time < original_end_time`), then whatever the number of batches,
`time_slice` is `original_end_time - original_from_time`, `get_query_details`
reports exactly one window, which is `[original_from_time, original_end_time)`,
batch 0 is given exactly that window, and every batch `i ≥ 1` whose start does
not wrap around is a no-op. -/
theorem nonparallel_single_window (c : VizConstants) (h : QueryHeader) (lib : Library)
    (s : Stages) (this : AnalyticsQuery) (db_if : Bool) (qid : String)
    (data : List (String × String)) (ast i : Nat) (q : AnalyticsQuery)
    (hthis : this.processing_needed = true)
    (hq : Init c h lib s { this with parallel_batch_num := (i : Int) } db_if qid data ast =
      some q)
    (h0 : q.status_details = 0)
    (hnp : can_parallelize_query c s.selectquery q = false)
    (hlt : q.original_from_time < q.original_end_time) :
    q.time_slice = q.original_end_time - q.original_from_time ∧
    (∀ fuel, 2 ≤ fuel → get_query_details q fuel [] =
      some { is_merge_needed := q.merge_needed,
             chunk_sizes := [q.original_end_time - q.original_from_time],
             parse_status := 0 }) ∧
    chunk_windows q.original_from_time [q.original_end_time - q.original_from_time] =
      [(q.original_from_time, q.original_end_time)] ∧
    (i = 0 → q.processing_needed = true ∧ q.from_time = q.original_from_time ∧
      q.end_time = q.original_end_time) ∧
    (1 ≤ i → q.original_from_time + i * q.time_slice < U64 → q.processing_needed = false) := by
  obtain ⟨quoted, table, st, et, _, _, _, _, aTab, _, _, aE, aF, aT, _, aB, _, aFrom, aPN, aEnd⟩ :=
    Init_plan hq h0
  simp only [] at aB aPN
  rw [hthis] at aPN
  have hE64 : q.original_end_time < U64 := by
    rw [aE]
    unfold planned_end_time
    have : 0 < U64 := by rw [U64_eq]; omega
    split <;> exact Nat.mod_lt _ this
  have hts : q.time_slice = q.original_end_time - q.original_from_time := by
    have hnp2 : can_parallelize_table c s.selectquery
        (redirected_table c s.selectquery table) = false := by
      rw [← aTab]; exact hnp
    rw [aT]
    unfold planned_time_slice
    rw [hnp2, ← aF, ← aE]
    simp only [Bool.false_eq_true, if_false]
    exact u64_sub_eq (Nat.le_of_lt hlt) hE64
  have hFE : u64_add q.original_from_time (q.original_end_time - q.original_from_time) =
      q.original_end_time := by
    rw [u64_add_eq (by omega)]; omega
  refine ⟨hts, ?_, ?_, ?_, ?_⟩
  · intro fuel hf
    obtain ⟨m, rfl⟩ : ∃ m, fuel = m + 2 := ⟨fuel - 2, by omega⟩
    simp [get_query_details, h0, get_query_details_loop, hts, hlt, hFE]
  · simp [chunk_windows]
    omega
  · intro hi
    subst hi
    have hfrom : q.from_time = q.original_from_time := by
      rw [aFrom, aB]
      simp [toU64, u64_mul, u64_add]
      exact Nat.mod_eq_of_lt (by omega)
    rw [hfrom] at aPN aEnd
    rw [hts, hFE] at aEnd
    have h1 : ¬ q.original_end_time ≤ q.original_from_time := by omega
    simp only [h1, if_false, lt_irrefl] at aPN aEnd
    exact ⟨aPN, hfrom, aEnd⟩
  · intro hi hov
    rw [hts] at hov aFrom
    have hi64 : i < U64 := by
      have : i ≤ i * (q.original_end_time - q.original_from_time) :=
        Nat.le_mul_of_pos_right i (by omega)
      omega
    have hfrom : q.from_time =
        q.original_from_time + i * (q.original_end_time - q.original_from_time) := by
      rw [aFrom, aB, toU64_natCast hi64, u64_mul_eq (by rw [Nat.mul_comm]; omega),
        u64_add_eq (by rw [Nat.mul_comm]; omega), Nat.mul_comm]
    have hge : q.original_end_time ≤ q.from_time := by
      rw [hfrom]
      have : q.original_end_time - q.original_from_time ≤
          i * (q.original_end_time - q.original_from_time) :=
        Nat.le_mul_of_pos_left (q.original_end_time - q.original_from_time) (by omega)
      omega
    rw [aPN, if_pos hge]

/-- The hypotheses of the amended C3 hold for the sample flow-count query over
the range from 0 to 100: one window of length 100 is reported. -/
theorem nonparallel_single_window_witness :
    (sample_this 0 4).processing_needed = true ∧
    sample_flow_count_run 0 = some (sample_flow_count_result 0) ∧
    (sample_flow_count_result 0).status_details = 0 ∧
    can_parallelize_query sample_constants sample_flow_count_stages.selectquery
      (sample_flow_count_result 0) = false ∧
    (sample_flow_count_result 0).original_from_time <
      (sample_flow_count_result 0).original_end_time ∧
    (sample_flow_count_result 0).time_slice = 100 ∧
    get_query_details (sample_flow_count_result 0) 2 [] =
      some { is_merge_needed := false, chunk_sizes := [100], parse_status := 0 } := by
  have hq : sample_flow_count_run 0 = some (sample_flow_count_result 0) := by decide
  obtain ⟨hts, hdet, _, _, _⟩ := nonparallel_single_window sample_constants sample_header
    (sample_library 5000) sample_flow_count_stages (sample_this 0 4) true "q"
    (sample_query "\"FlowSeriesTable\"" "0" "100") 0 0 (sample_flow_count_result 0)
    (by decide) hq (by decide) (by decide) (by decide)
  refine ⟨by decide, hq, by decide, by decide, by decide, ?_, ?_⟩
  · rw [hts]; decide
  · rw [hdet 2 (by decide)]; decide

/-- C4, counterexample: for the sample message query over the range from 0 to
`2 ^ 35` in two batches, the start of batch `2 ^ 30` is the number
`original_from_time + i * time_slice`, far beyond `original_end_time`; in 64-bit
arithmetic it wraps around to `2 ^ 30`, and `Init` ends with
`processing_needed = true`. -/
theorem wrapped_batch_start_is_processed :
    sample_wide_range_run 1073741824 = some (sample_wide_range_result 1073741824) ∧
    (sample_wide_range_result 1073741824).status_details = 0 ∧
    (sample_wide_range_result 1073741824).parallel_batch_num = 1073741824 ∧
    (sample_wide_range_result 1073741824).original_end_time ≤
      (sample_wide_range_result 1073741824).original_from_time +
        1073741824 * (sample_wide_range_result 1073741824).time_slice ∧
    (sample_wide_range_result 1073741824).from_time = 1073741824 ∧
    (sample_wide_range_result 1073741824).processing_needed = true := by
  decide

/-- C4 (amended): when `Init` reaches line 477 for batch `i`, it ends with
`status_details = 0`; if the start `original_from_time + i * time_slice` does
not wrap around 64 bits, then `processing_needed` is false when that start is at
or beyond `original_end_time`, and keeps the value `true` given by the
constructor for every other batch index.  In general the test is made on the
64-bit value of the start, which is `from_time`. -/
theorem noop_batch_is_success (c : VizConstants) (h : QueryHeader) (lib : Library)
    (s : Stages) (this : AnalyticsQuery) (db_if : Bool) (qid : String)
    (data : List (String × String)) (ast i : Nat) (p : AnalyticsQuery)
    (hthis : this.processing_needed = true)
    (hi : this.parallel_batch_num = (i : Int))
    (hp : Init_parse c h lib s this db_if qid data ast = some (Ctl.next p)) :
    ∃ q : AnalyticsQuery,
      Init c h lib s this db_if qid data ast = some q ∧
      q.status_details = 0 ∧
      (q.original_from_time + i * q.time_slice < U64 →
        q.from_time = q.original_from_time + i * q.time_slice ∧
        (q.original_end_time ≤ q.original_from_time + i * q.time_slice →
          q.processing_needed = false) ∧
        (q.original_from_time + i * q.time_slice < q.original_end_time →
          q.processing_needed = true)) ∧
      q.from_time =
        u64_add q.original_from_time (u64_mul q.time_slice (toU64 q.parallel_batch_num)) ∧
      (q.original_end_time ≤ q.from_time → q.processing_needed = false) ∧
      (q.from_time < q.original_end_time → q.processing_needed = true) := by
  have hInit : Init c h lib s this db_if qid data ast = some (Init_window p) := by
    simp [Init, hp]
  obtain ⟨_, _, _, _, q4, _, _, _, _, _, hq4, _, _, _, _, hst4, _, _, _⟩ := Init_parse_next hp
  have hst : (Init_window p).status_details = 0 := by
    rw [(Init_window_fields p).1, (Init_time_slice_spec hq4).2.2.2.2.2.1, hst4]
  obtain ⟨_, _, _, _, _, _, _, _, _, _, _, _, _, _, _, aB, _, aFrom, aPN, _⟩ :=
    Init_plan hInit hst
  rw [hthis] at aPN
  have hno : (Init_window p).original_end_time ≤ (Init_window p).from_time →
      (Init_window p).processing_needed = false := by
    intro hge
    rw [aPN, if_pos hge]
  have hyes : (Init_window p).from_time < (Init_window p).original_end_time →
      (Init_window p).processing_needed = true := by
    intro hlt
    rw [aPN, if_neg (by omega)]
  refine ⟨Init_window p, hInit, hst, ?_, aFrom, hno, hyes⟩
  intro hov
  have hfrom : (Init_window p).from_time =
      (Init_window p).original_from_time + i * (Init_window p).time_slice := by
    rw [aFrom, aB, hi]
    rcases Nat.eq_zero_or_pos (Init_window p).time_slice with hz | hpos
    · rw [hz] at hov ⊢
      simp only [u64_mul, Nat.zero_mul, Nat.zero_mod, Nat.mul_zero, Nat.add_zero] at hov ⊢
      exact u64_add_eq (by simpa using hov)
    · have hi64 : i < U64 := by
        have : i ≤ i * (Init_window p).time_slice := Nat.le_mul_of_pos_right i hpos
        omega
      rw [toU64_natCast hi64, u64_mul_eq (by rw [Nat.mul_comm]; omega),
        u64_add_eq (by rw [Nat.mul_comm]; omega), Nat.mul_comm]
  refine ⟨hfrom, ?_, ?_⟩
  · intro hge
    exact hno (by rw [hfrom]; exact hge)
  · intro hlt
    exact hyes (by rw [hfrom]; exact hlt)

/-- The hypotheses of the amended C4 hold for the sample message query run as
batch 7 of ten over the range from 0 to 100: its start 147 does not wrap and is
beyond the end, and the batch is a no-op ending in success. -/
theorem noop_batch_is_success_witness :
    (sample_this 7 10).processing_needed = true ∧
    (sample_this 7 10).parallel_batch_num = ((7 : Nat) : Int) ∧
    Init_parse sample_constants sample_header (sample_library 5000) sample_stages
      (sample_this 7 10) true "q" (sample_query "\"MessageTable\"" "0" "100") 0 =
        some (Ctl.next sample_parsed) ∧
    Init sample_constants sample_header (sample_library 5000) sample_stages
      (sample_this 7 10) true "q" (sample_query "\"MessageTable\"" "0" "100") 0 =
        some sample_noop_result ∧
    sample_noop_result.status_details = 0 ∧
    sample_noop_result.original_from_time + 7 * sample_noop_result.time_slice = 147 ∧
    sample_noop_result.original_end_time = 100 ∧
    sample_noop_result.processing_needed = false := by
  have hp : Init_parse sample_constants sample_header (sample_library 5000) sample_stages
      (sample_this 7 10) true "q" (sample_query "\"MessageTable\"" "0" "100") 0 =
      some (Ctl.next sample_parsed) := by decide
  obtain ⟨q, hq, hst, hnum, _⟩ := noop_batch_is_success sample_constants sample_header
    (sample_library 5000) sample_stages (sample_this 7 10) true "q"
    (sample_query "\"MessageTable\"" "0" "100") 0 7 sample_parsed (by decide) (by decide) hp
  have hval : Init sample_constants sample_header (sample_library 5000) sample_stages
      (sample_this 7 10) true "q" (sample_query "\"MessageTable\"" "0" "100") 0 =
      some sample_noop_result := by decide
  have hqe : q = sample_noop_result := Option.some.inj (hq.symm.trans hval)
  subst hqe
  exact ⟨by decide, by decide, hp, hval, hst, by decide, by decide,
    (hnum (by decide)).2.1 (by decide)⟩

theorem ceil_div_eq (d n : Nat) (hn : 1 ≤ n) :
    ceil_div d n = if d % n = 0 then d / n else d / n + 1 := by
  unfold ceil_div
  have hdm := Nat.div_add_mod d n
  have hr := Nat.mod_lt d hn
  have hsucc : (d / n + 1) * n = d / n * n + n := Nat.succ_mul _ _
  have hcomm : n * (d / n) = d / n * n := Nat.mul_comm _ _
  have hsucc2 : (d / n + 1 + 1) * n = (d / n + 1) * n + n := Nat.succ_mul _ _
  by_cases h0 : d % n = 0
  · rw [if_pos h0]
    apply Nat.div_eq_of_lt_le
    · omega
    · show d + n - 1 < (d / n + 1) * n
      omega
  · rw [if_neg h0]
    apply Nat.div_eq_of_lt_le
    · omega
    · show d + n - 1 < (d / n + 1 + 1) * n
      omega

/-- C5 as stated fails when the number of batches divides the length of the
range: for the range from 0 to 10 and 5 batches the code computes 3, while the
ceiling of 10 / 5 is 2. -/
theorem time_slice_unfloored_not_ceiling :
    time_slice_unfloored 0 10 5 = 3 ∧ ceil_div (10 - 0) 5 = 2 := by
  decide

/-- C5, amended: on the parallelizable path, for `from_time ≤ end_time` and at
least one batch, the time slice computed before the lower bound is applied is
the floor of `(end_time - from_time) / total_parallel_batches` plus one; it is
the ceiling of that quotient when the number of batches does not divide the
length of the range, and the ceiling plus one when it does. -/
theorem time_slice_unfloored_eq (from_time end_time : Nat) (total_parallel_batches : Int)
    (hle : from_time ≤ end_time) (hend : end_time + 1 < U64)
    (hn : 1 ≤ total_parallel_batches) (hn64 : total_parallel_batches < (2 : Int) ^ 64) :
    time_slice_unfloored from_time end_time total_parallel_batches =
      (end_time - from_time) / total_parallel_batches.toNat + 1 ∧
    (¬ total_parallel_batches.toNat ∣ (end_time - from_time) →
      time_slice_unfloored from_time end_time total_parallel_batches =
        ceil_div (end_time - from_time) total_parallel_batches.toNat) ∧
    (total_parallel_batches.toNat ∣ (end_time - from_time) →
      time_slice_unfloored from_time end_time total_parallel_batches =
        ceil_div (end_time - from_time) total_parallel_batches.toNat + 1) := by
  have hconv : toU64 total_parallel_batches = total_parallel_batches.toNat := by
    unfold toU64
    omega
  have hpos : 1 ≤ total_parallel_batches.toNat := by omega
  have hsub : u64_sub end_time from_time = end_time - from_time :=
    u64_sub_eq hle (by omega)
  have hdiv : (end_time - from_time) / total_parallel_batches.toNat ≤ end_time - from_time :=
    Nat.div_le_self _ _
  have hmain : time_slice_unfloored from_time end_time total_parallel_batches =
      (end_time - from_time) / total_parallel_batches.toNat + 1 := by
    unfold time_slice_unfloored
    rw [hconv, hsub, u64_add_eq (by omega)]
  refine ⟨hmain, ?_, ?_⟩
  · intro hnd
    have hmod : (end_time - from_time) % total_parallel_batches.toNat ≠ 0 :=
      fun hz => hnd (Nat.dvd_of_mod_eq_zero hz)
    rw [hmain, ceil_div_eq _ _ hpos, if_neg hmod]
  · intro hd
    have hmod : (end_time - from_time) % total_parallel_batches.toNat = 0 :=
      Nat.mod_eq_zero_of_dvd hd
    rw [hmain, ceil_div_eq _ _ hpos, if_pos hmod]

/-- The hypotheses of the amended C5 hold for the range from 0 to 10 and five
batches. -/
theorem time_slice_unfloored_eq_witness :
    (0 : Nat) ≤ 10 ∧ 10 + 1 < U64 ∧ (1 : Int) ≤ 5 ∧ (5 : Int) < (2 : Int) ^ 64 ∧
    time_slice_unfloored 0 10 5 = (10 - 0) / (5 : Int).toNat + 1 := by
  exact ⟨by decide, by decide, by decide, by decide,
    (time_slice_unfloored_eq 0 10 5 (by decide) (by decide) (by decide) (by decide)).1⟩

/-- C6 fails on the code: with `RowTimeInBits = 23` the lower bound of the time
slice is `2 XOR 23 = 21`, so the range from 0 to 100 cut for ten batches gives
windows of 21 microseconds, far below `2 ^ 23`. -/
theorem row_time_bound_is_not_a_power :
    row_time_bound sample_constants = 21 ∧
    sample_message_run 0 = some (sample_message_result 0) ∧
    (sample_message_result 0).status_details = 0 ∧
    can_parallelize_query sample_constants sample_stages.selectquery
      (sample_message_result 0) = true ∧
    get_query_details (sample_message_result 0) 10 [] =
      some { is_merge_needed := false, chunk_sizes := [21, 21, 21, 21, 16],
             parse_status := 0 } ∧
    21 < 2 ^ sample_constants.RowTimeInBits := by
  decide

theorem round_up_bounds (ts g : Nat) (hg : 0 < g) :
    ts ≤ (ts / g + 1) * g ∧ (ts / g + 1) * g ≤ ts + g := by
  have hdm := Nat.div_add_mod ts g
  have hr := Nat.mod_lt ts hg
  rw [Nat.add_one_mul]
  rw [Nat.mul_comm] at hdm
  generalize ts / g * g = P at *
  generalize ts % g = r at *
  omega

/-- C7, counterexample: for a time series with granularity 2 and the unadjusted
time slice `2 ^ 64 - 1`, the rounding product `(ts / g + 1) * g` is `2 ^ 64`,
which wraps around to 0: the adjusted time slice is 0, neither positive nor at
least the unadjusted one. -/
theorem time_slice_adjusted_wraps :
    (sample_timeseries_select 2).provide_timeseries = true ∧
    0 < (sample_timeseries_select 2).granularity ∧
    ¬ ((sample_timeseries_select 2).granularity ≥ 18446744073709551615) ∧
    (18446744073709551615 / (sample_timeseries_select 2).granularity + 1) *
      (sample_timeseries_select 2).granularity = 18446744073709551616 ∧
    time_slice_adjusted (sample_timeseries_select 2) 18446744073709551615 = 0 ∧
    ¬ (18446744073709551615 ≤
      time_slice_adjusted (sample_timeseries_select 2) 18446744073709551615) := by
  decide

/-- C7 (amended): when the select provides a time series with granularity
`g > 0` and the rounding product does not wrap around 64 bits, the adjusted time
slice is `g` if `g ≥ ts` and `(ts / g + 1) * g` otherwise; it is a positive
multiple of `g` between `ts` and `ts + g`, so every batch start offset `i * ts'`
is a multiple of `g`, and so is the distance of the start computed by `Init`
from `original_from_time` when that start does not wrap around. -/
theorem time_slice_adjusted_multiple (sel : SelectQuery) (ts : Nat)
    (hp : sel.provide_timeseries = true) (hg : 0 < sel.granularity)
    (hg64 : sel.granularity < U64)
    (hnw : sel.granularity < ts → (ts / sel.granularity + 1) * sel.granularity < U64) :
    time_slice_adjusted sel ts =
      (if sel.granularity ≥ ts then sel.granularity
        else (ts / sel.granularity + 1) * sel.granularity) ∧
    (∃ k, 0 < k ∧ time_slice_adjusted sel ts = k * sel.granularity) ∧
    ts ≤ time_slice_adjusted sel ts ∧
    time_slice_adjusted sel ts ≤ ts + sel.granularity ∧
    (∀ i : Nat, sel.granularity ∣ i * time_slice_adjusted sel ts) ∧
    (∀ (q : AnalyticsQuery) (i : Nat), q.time_slice = time_slice_adjusted sel ts →
      q.parallel_batch_num = (i : Int) →
      q.original_from_time + i * time_slice_adjusted sel ts < U64 →
      (Init_window q).from_time = q.original_from_time + i * time_slice_adjusted sel ts ∧
      sel.granularity ∣ (Init_window q).from_time - q.original_from_time) := by
  have hmod : sel.granularity % U64 = sel.granularity := Nat.mod_eq_of_lt hg64
  have hne : (sel.granularity != 0) = true := by
    simp; omega
  have hform : time_slice_adjusted sel ts =
      (if sel.granularity ≥ ts then sel.granularity
        else (ts / sel.granularity + 1) * sel.granularity) := by
    unfold time_slice_adjusted
    simp only [hp, hmod, hne, Bool.and_self, if_true]
    by_cases hge : sel.granularity ≥ ts
    · simp only [hge, if_true]
    · simp only [hge, if_false]
      have hlt : sel.granularity < ts := by omega
      have h1 : ts / sel.granularity + 1 < U64 :=
        lt_of_le_of_lt (Nat.le_mul_of_pos_right _ hg) (hnw hlt)
      rw [u64_add_eq h1, u64_mul_eq (hnw hlt)]
  have hmult : ∃ k, 0 < k ∧ time_slice_adjusted sel ts = k * sel.granularity := by
    rw [hform]
    by_cases hge : sel.granularity ≥ ts
    · exact ⟨1, by omega, by simp [hge]⟩
    · exact ⟨ts / sel.granularity + 1, Nat.succ_pos _, by simp [hge]⟩
  obtain ⟨hb1, hb2⟩ := round_up_bounds ts sel.granularity hg
  have hlo : ts ≤ time_slice_adjusted sel ts := by
    rw [hform]
    split
    · omega
    · exact hb1
  have hhi : time_slice_adjusted sel ts ≤ ts + sel.granularity := by
    rw [hform]
    split
    · omega
    · exact hb2
  have hdvd : ∀ i : Nat, sel.granularity ∣ i * time_slice_adjusted sel ts := by
    intro i
    obtain ⟨k, _, hk⟩ := hmult
    rw [hk]
    exact Dvd.intro_left (i * k) (by rw [Nat.mul_assoc])
  refine ⟨hform, hmult, hlo, hhi, hdvd, ?_⟩
  intro q i hq hi hov
  have hfrom : (Init_window q).from_time =
      q.original_from_time + i * time_slice_adjusted sel ts := by
    rw [(Init_window_fields q).2.2.2.2.2.2.2.2.2.2, hq, hi]
    have hpos : 0 < time_slice_adjusted sel ts := by
      obtain ⟨k, hk, hkk⟩ := hmult
      rw [hkk]
      exact Nat.mul_pos hk hg
    have hi64 : i < U64 := by
      have : i ≤ i * time_slice_adjusted sel ts := Nat.le_mul_of_pos_right i hpos
      omega
    rw [toU64_natCast hi64, u64_mul_eq (by rw [Nat.mul_comm]; omega),
      u64_add_eq (by rw [Nat.mul_comm]; omega), Nat.mul_comm]
  refine ⟨hfrom, ?_⟩
  rw [hfrom, Nat.add_sub_cancel_left]
  exact hdvd i

/-- The hypotheses of the amended C7 hold for a granularity of 60 and a time slice of 100,
which is adjusted to 120. -/
theorem time_slice_adjusted_multiple_witness :
    (0 : Nat) < 60 ∧ (60 : Nat) < U64 ∧
    time_slice_adjusted
      { status_details := 0, provide_timeseries := true, granularity := 60,
        select_column_fields := [], ObjectIdQuery := false, flowseries_query_type := 0 } 100 =
      120 := by
  refine ⟨by decide, by decide, ?_⟩
  rw [(time_slice_adjusted_multiple
    { status_details := 0, provide_timeseries := true, granularity := 60,
      select_column_fields := [], ObjectIdQuery := false, flowseries_query_type := 0 } 100
    rfl (by decide) (by decide) (by intro _; decide)).1]
  decide

/-- C8 fails on the code: for the query with start time 5 and end time 0, `Init`
reaches the slicing step and replaces `from_time` by `0 - 1`, which wraps around
to `2 ^ 64 - 1`, so `original_from_time` exceeds `original_end_time`. -/
theorem from_time_clamp_wraps_at_zero :
    sample_zero_end_run = some sample_zero_end_result ∧
    sample_zero_end_result.status_details = 0 ∧
    sample_zero_end_result.req_from_time = 5 ∧
    sample_zero_end_result.req_end_time = 0 ∧
    sample_zero_end_result.original_end_time = 0 ∧
    sample_zero_end_result.original_from_time = 18446744073709551615 ∧
    ¬ (sample_zero_end_result.original_from_time ≤
        sample_zero_end_result.original_end_time) := by
  decide

/-- C9: after a successful `Init`, `req_end_time` is the number read from the
end-time text, `original_end_time` is the minimum of `req_end_time` and the wall
clock, and `original_from_time`, `time_slice` and the window of the batch are
given by expressions in that clamped value (and the start time, the table, the
number of batches and the batch number) in which `req_end_time` does not
occur. -/
theorem end_time_clamped_to_now (c : VizConstants) (h : QueryHeader) (lib : Library)
    (s : Stages) (this : AnalyticsQuery) (db_if : Bool) (qid : String)
    (data : List (String × String)) (ast : Nat) (q : AnalyticsQuery)
    (hq : Init c h lib s this db_if qid data ast = some q) (h0 : q.status_details = 0) :
    ∃ end_text : String,
      data.lookup QUERY_END_TIME = some end_text ∧
      q.req_end_time = lib.istream_uint64 end_text % U64 ∧
      q.original_end_time = min q.req_end_time (lib.now % U64) ∧
      q.original_from_time =
        clamped_from (max q.req_from_time (ast % U64)) q.original_end_time ∧
      q.time_slice = planned_time_slice c s.selectquery q.table q.original_from_time
        q.original_end_time this.total_parallel_batches ∧
      q.from_time =
        u64_add q.original_from_time (u64_mul q.time_slice (toU64 this.parallel_batch_num)) ∧
      q.processing_needed =
        (if q.original_end_time ≤ q.from_time then false else this.processing_needed) ∧
      q.end_time =
        (if q.original_end_time ≤ q.from_time then u64_add q.from_time q.time_slice
          else if q.original_end_time < u64_add q.from_time q.time_slice
            then q.original_end_time
          else u64_add q.from_time q.time_slice) := by
  obtain ⟨quoted, table, st, et, _, _, _, a4, aTab, aRF, aRE, aE, aF, aT, _, aB, _, aFrom, aPN,
    aEnd⟩ := Init_plan hq h0
  have hE : q.original_end_time = min q.req_end_time (lib.now % U64) := by
    rw [aE, aRE]
    unfold planned_end_time
    split <;> omega
  refine ⟨et, a4, aRE, hE, ?_, ?_, ?_, aPN, aEnd⟩
  · rw [aF, aE, aRF]
    unfold planned_from_time
    congr 1
    split <;> omega
  · rw [aT, aTab, aF, aE]
  · rw [aFrom, aB]

/-- The hypotheses of C9 hold for the sample message query over the range from
0 to 100 at wall-clock time 5000. -/
theorem end_time_clamped_to_now_witness :
    sample_message_run 0 = some (sample_message_result 0) ∧
    (sample_message_result 0).status_details = 0 ∧
    (sample_message_result 0).req_end_time = 100 ∧
    (sample_message_result 0).original_end_time = 100 := by
  have hq : sample_message_run 0 = some (sample_message_result 0) := by decide
  obtain ⟨end_text, _, _, hE, _⟩ := end_time_clamped_to_now sample_constants sample_header
    (sample_library 5000) sample_stages { sample_this 0 10 with parallel_batch_num := ((0 : Nat) : Int) }
    true "q" (sample_query "\"MessageTable\"" "0" "100") 0 (sample_message_result 0) hq (by decide)
  refine ⟨hq, by decide, by decide, ?_⟩
  rw [hE]
  decide

/-- C10 fails on the code: when the database initialisation of the batch
constructor fails, `status_details` is set to `EIO`, yet `Init` is still run,
constructs the three stages and ends with `status_details = 0`. -/
theorem database_failure_is_overwritten :
    (ctor_database_init sample_constants sample_failing_db
      (ctor_members "q" (sample_query "\"MessageTable\"" "0" "100") 0 10)).status_details =
      EIO_errno ∧
    sample_failing_db_run = some sample_failing_db_result ∧
    sample_failing_db_result.status_details = 0 ∧
    sample_failing_db_result.wherequery_.isSome = true ∧
    sample_failing_db_result.selectquery_.isSome = true ∧
    sample_failing_db_result.postprocess_.isSome = true ∧
    sample_failing_db_result.processing_needed = true := by
  decide

/-- C11: `process_query` returns `QUERY_FAILURE` without calling any stage when
`status_details` is nonzero on entry; otherwise it calls the stages in the order
WHERE, SELECT, post-process, calls a stage only if every earlier one has
returned `QUERY_SUCCESS`, returns the status of the first stage that has not
returned `QUERY_SUCCESS`, and returns `QUERY_SUCCESS` iff all three stages have
returned it. -/
theorem process_query_stops_at_first_failure (r : StageRuns) (q : AnalyticsQuery) :
    (q.status_details ≠ 0 →
      (process_query r q).returned = query_status_t.QUERY_FAILURE ∧
      (process_query r q).ran = [] ∧ (process_query r q).object = q) ∧
    (q.status_details = 0 →
      (r.wherequery.query_status ≠ query_status_t.QUERY_SUCCESS →
        (process_query r q).ran = [Stage.WHERE] ∧
        (process_query r q).returned = r.wherequery.query_status) ∧
      (r.wherequery.query_status = query_status_t.QUERY_SUCCESS →
        r.selectquery.query_status ≠ query_status_t.QUERY_SUCCESS →
        (process_query r q).ran = [Stage.WHERE, Stage.SELECT] ∧
        (process_query r q).returned = r.selectquery.query_status) ∧
      (r.wherequery.query_status = query_status_t.QUERY_SUCCESS →
        r.selectquery.query_status = query_status_t.QUERY_SUCCESS →
        (process_query r q).ran = [Stage.WHERE, Stage.SELECT, Stage.POSTPROCESS] ∧
        (process_query r q).returned = r.postprocess.query_status) ∧
      ((process_query r q).returned = query_status_t.QUERY_SUCCESS ↔
        r.wherequery.query_status = query_status_t.QUERY_SUCCESS ∧
        r.selectquery.query_status = query_status_t.QUERY_SUCCESS ∧
        r.postprocess.query_status = query_status_t.QUERY_SUCCESS)) := by
  constructor
  · intro h0
    simp [process_query, h0]
  · intro h0
    by_cases hw : r.wherequery.query_status = query_status_t.QUERY_SUCCESS
    · by_cases hs : r.selectquery.query_status = query_status_t.QUERY_SUCCESS
      · by_cases hp : r.postprocess.query_status = query_status_t.QUERY_SUCCESS
        · simp [process_query, h0, hw, hs, hp]
        · simp [process_query, h0, hw, hs, hp]
      · simp [process_query, h0, hw, hs]
    · simp [process_query, h0, hw]

/-- C12 fails on the code: when the WHERE and SELECT stages succeed and the
post-processing stage fails while holding one row, `process_query` returns
`QUERY_FAILURE` after line 694 has assigned that row to `final_result`, and
`QueryExec` hands the failure status together with the non-empty buffer to the
caller. -/
theorem failed_postprocess_leaves_rows :
    sample_message_run 0 = some (sample_message_result 0) ∧
    (sample_message_result 0).status_details = 0 ∧
    (sample_message_result 0).final_result = none ∧
    (process_query sample_failing_postprocess (sample_message_result 0)).returned =
      query_status_t.QUERY_FAILURE ∧
    (process_query sample_failing_postprocess (sample_message_result 0)).object.final_result =
      some { first := "MessageTable", second := [[("Source", "a")]] } ∧
    QueryExec sample_constants sample_header (sample_library 5000) sample_stages sample_db
      sample_failing_postprocess "q" (sample_query "\"MessageTable\"" "0" "100") 0 0 10 =
      some (EIO_errno, some { first := "MessageTable", second := [[("Source", "a")]] }) := by
  decide

/-- C13 as stated fails when the table is unknown: the query that names the
table `Bogus` and has no start time ends with the invalid-argument code, not
the parse-error code. -/
theorem missing_start_time_with_unknown_table :
    sample_unknown_table_query.lookup QUERY_START_TIME = none ∧
    Init sample_constants sample_header (sample_library 5000) sample_stages
      (sample_this 0 1) true "q" sample_unknown_table_query 0 =
      some sample_unknown_table_result ∧
    sample_unknown_table_result.status_details = EINVAL_errno ∧
    sample_unknown_table_result.status_details ≠ EBADMSG_errno := by
  decide

/-- C13, amended: if the raw query lacks the table key, or names a table that
`is_valid_from_field` accepts and lacks the start-time key or the end-time key,
then `Init` (given a database handle) ends with the parse-error code, which is
not the invalid-argument code, and constructs none of the WHERE, SELECT and
post-processing stages. -/
theorem missing_required_key_is_parse_error (c : VizConstants) (h : QueryHeader)
    (lib : Library) (s : Stages) (this : AnalyticsQuery) (qid : String)
    (data : List (String × String)) (ast : Nat) (quoted t : String)
    (hmiss : data.lookup QUERY_TABLE = none ∨
      (data.lookup QUERY_TABLE = some quoted ∧ strip_quotes quoted = some t ∧
        is_valid_from_field c t = true ∧
        (data.lookup QUERY_START_TIME = none ∨ data.lookup QUERY_END_TIME = none))) :
    ∃ q : AnalyticsQuery,
      Init c h lib s this true qid data ast = some q ∧
      q.status_details = EBADMSG_errno ∧ q.status_details ≠ EINVAL_errno ∧
      q.wherequery_ = this.wherequery_ ∧ q.selectquery_ = this.selectquery_ ∧
      q.postprocess_ = this.postprocess_ := by
  rcases hmiss with hnone | ⟨hq, hs, hv, htime⟩
  · simp [Init, Init_parse, hnone, QE_PARSE_ERROR, EBADMSG_errno, EINVAL_errno]
  · cases hst : data.lookup QUERY_START_TIME with
    | none =>
      simp [Init, Init_parse, hq, hs, hv, hst, QE_PARSE_ERROR, EBADMSG_errno, EINVAL_errno]
    | some start_text =>
      have het : data.lookup QUERY_END_TIME = none := by
        rcases htime with h1 | h1
        · rw [hst] at h1; exact absurd h1 (by simp)
        · exact h1
      simp [Init, Init_parse, hq, hs, hv, hst, het, QE_PARSE_ERROR, EBADMSG_errno, EINVAL_errno]

/-- The hypothesis of the amended C13 holds for the sample query on the message
table that has no start time. -/
theorem missing_required_key_is_parse_error_witness :
    (sample_no_start_query.lookup QUERY_TABLE = none ∨
      (sample_no_start_query.lookup QUERY_TABLE = some "\"MessageTable\"" ∧
        strip_quotes "\"MessageTable\"" = some "MessageTable" ∧
        is_valid_from_field sample_constants "MessageTable" = true ∧
        (sample_no_start_query.lookup QUERY_START_TIME = none ∨
          sample_no_start_query.lookup QUERY_END_TIME = none))) ∧
    ((Init sample_constants sample_header (sample_library 5000) sample_stages
      (sample_this 0 1) true "q" sample_no_start_query 0).getD {}).status_details =
      EBADMSG_errno := by
  have hyp : sample_no_start_query.lookup QUERY_TABLE = none ∨
      (sample_no_start_query.lookup QUERY_TABLE = some "\"MessageTable\"" ∧
        strip_quotes "\"MessageTable\"" = some "MessageTable" ∧
        is_valid_from_field sample_constants "MessageTable" = true ∧
        (sample_no_start_query.lookup QUERY_START_TIME = none ∨
          sample_no_start_query.lookup QUERY_END_TIME = none)) :=
    Or.inr ⟨by decide, by decide, by decide, Or.inl (by decide)⟩
  obtain ⟨q, hq, hst, _⟩ := missing_required_key_is_parse_error sample_constants sample_header
    (sample_library 5000) sample_stages (sample_this 0 1) "q" sample_no_start_query 0
    "\"MessageTable\"" "MessageTable" hyp
  refine ⟨hyp, ?_⟩
  rw [hq]
  exact hst

/-- C14: `is_valid_from_field t` holds iff `t` is the name of an entry of
`_TABLES` or a key of `_OBJECT_TABLES`; and when the unquoted table name of a
query satisfies neither, `Init` ends with the invalid-argument code, leaving the
times as they were and constructing no stage. -/
theorem unknown_table_is_invalid_argument (c : VizConstants) (h : QueryHeader)
    (lib : Library) (s : Stages) (this : AnalyticsQuery) (qid : String)
    (data : List (String × String)) (ast : Nat) (quoted t : String) :
    (is_valid_from_field c t = true ↔
      (∃ d ∈ c._TABLES, d.name = t) ∨ t ∈ c._OBJECT_TABLES) ∧
    (data.lookup QUERY_TABLE = some quoted → strip_quotes quoted = some t →
      ¬ ((∃ d ∈ c._TABLES, d.name = t) ∨ t ∈ c._OBJECT_TABLES) →
      ∃ q : AnalyticsQuery,
        Init c h lib s this true qid data ast = some q ∧
        q.status_details = EINVAL_errno ∧ q.table = t ∧
        q.req_from_time = this.req_from_time ∧ q.req_end_time = this.req_end_time ∧
        q.from_time = this.from_time ∧ q.end_time = this.end_time ∧
        q.wherequery_ = this.wherequery_ ∧ q.selectquery_ = this.selectquery_ ∧
        q.postprocess_ = this.postprocess_) := by
  have hiff : is_valid_from_field c t = true ↔
      (∃ d ∈ c._TABLES, d.name = t) ∨ t ∈ c._OBJECT_TABLES := by
    unfold is_valid_from_field
    by_cases h1 : c._TABLES.any (fun d => d.name == t) = true
    · simp only [h1, if_true, true_iff]
      left
      simpa using h1
    · by_cases h2 : c._OBJECT_TABLES.any (fun k => k == t) = true
      · simp only [h1, h2, if_true, Bool.false_eq_true, if_false, true_iff]
        right
        simpa using h2
      · simp only [h1, h2, Bool.false_eq_true, if_false, false_iff]
        intro hor
        rcases hor with hc | hc
        · exact h1 (by simpa using hc)
        · exact h2 (by simpa using hc)
  refine ⟨hiff, ?_⟩
  intro hq hs hno
  have hv : is_valid_from_field c t = false := by
    cases hval : is_valid_from_field c t with
    | false => rfl
    | true => exact absurd (hiff.mp hval) hno
  simp [Init, Init_parse, hq, hs, hv, QE_INVALIDARG_ERROR]

/-- The hypotheses of C14 hold for the sample query that names the table
`Bogus`. -/
theorem unknown_table_is_invalid_argument_witness :
    sample_unknown_table_query.lookup QUERY_TABLE = some "\"Bogus\"" ∧
    strip_quotes "\"Bogus\"" = some "Bogus" ∧
    is_valid_from_field sample_constants "Bogus" = false ∧
    Init sample_constants sample_header (sample_library 5000) sample_stages
      (sample_this 0 1) true "q" sample_unknown_table_query 0 =
      some sample_unknown_table_result ∧
    sample_unknown_table_result.status_details = EINVAL_errno ∧
    sample_unknown_table_result.wherequery_ = none := by
  have hv : is_valid_from_field sample_constants "Bogus" = false := by decide
  obtain ⟨hiff, hrun⟩ := unknown_table_is_invalid_argument sample_constants sample_header
    (sample_library 5000) sample_stages (sample_this 0 1) "q" sample_unknown_table_query 0
    "\"Bogus\"" "Bogus"
  have hno : ¬ ((∃ d ∈ sample_constants._TABLES, d.name = "Bogus") ∨
      "Bogus" ∈ sample_constants._OBJECT_TABLES) := by
    intro hor
    have := hiff.mpr hor
    rw [hv] at this
    exact absurd this (by decide)
  obtain ⟨q, hq, hst, _, _, _, _, _, hw, _⟩ := hrun (by decide) (by decide) hno
  have hval : Init sample_constants sample_header (sample_library 5000) sample_stages
      (sample_this 0 1) true "q" sample_unknown_table_query 0 =
      some sample_unknown_table_result := by decide
  have hqe : q = sample_unknown_table_result := Option.some.inj (hq.symm.trans hval)
  subst hqe
  exact ⟨by decide, by decide, hv, hval, hst, hw⟩

/-- C15 as stated fails for an object-id list: the query on the object table
`ObjectVNTable` that has no WHERE clause and selects the object ids is
redirected to the object value table before the test of line 420, so `Init`
ends with success instead of the invalid-argument code. -/
theorem object_id_query_without_where_is_accepted :
    (sample_query "\"ObjectVNTable\"" "0" "100").lookup QUERY_WHERE = none ∧
    is_valid_from_field sample_constants "ObjectVNTable" = true ∧
    sample_object_id_run = some sample_object_id_result ∧
    sample_object_id_result.status_details = 0 ∧
    sample_object_id_result.status_details ≠ EINVAL_errno ∧
    sample_object_id_result.table = sample_constants.OBJECT_VALUE_TABLE ∧
    sample_object_id_result.object_value_key = "ObjectVNTable" := by
  decide

/-- C15, amended: for every query whose requested table is an object table (a
valid table other than the message, flow, flow-series and object value tables),
which has both times and no WHERE clause, and whose WHERE and SELECT stages are
constructed without error, `Init` ends with the invalid-argument code unless
the SELECT asks for an object-id list. -/
theorem object_table_without_where_is_rejected (c : VizConstants) (h : QueryHeader)
    (lib : Library) (s : Stages) (this : AnalyticsQuery) (qid : String)
    (data : List (String × String)) (ast : Nat) (quoted t start_text end_text : String)
    (hq : data.lookup QUERY_TABLE = some quoted) (hs : strip_quotes quoted = some t)
    (hv : is_valid_from_field c t = true)
    (h1 : t ≠ c.COLLECTOR_GLOBAL_TABLE) (h2 : t ≠ c.FLOW_TABLE)
    (h3 : t ≠ c.FLOW_SERIES_TABLE) (h4 : t ≠ c.OBJECT_VALUE_TABLE)
    (hst : data.lookup QUERY_START_TIME = some start_text)
    (het : data.lookup QUERY_END_TIME = some end_text)
    (hwhere : data.lookup QUERY_WHERE = none)
    (hw : s.wherequery.status_details = 0) (hsel : s.selectquery.status_details = 0)
    (hoid : s.selectquery.ObjectIdQuery = false) :
    ∃ q : AnalyticsQuery,
      Init c h lib s this true qid data ast = some q ∧
      q.status_details = EINVAL_errno ∧ q.table = t ∧ q.postprocess_ = this.postprocess_ := by
  simp [Init, Init_parse, Init_stages, object_table_redirect, is_object_table_query,
    hq, hs, hv, hst, het, hwhere, hw, hsel, hoid, h1, h2, h3, h4, QE_INVALIDARG_ERROR]

/-- The hypotheses of the amended C15 hold for the sample query on the object
table `ObjectVNTable` that selects one column and has no WHERE clause. -/
theorem object_table_without_where_is_rejected_witness :
    (sample_query "\"ObjectVNTable\"" "0" "100").lookup QUERY_TABLE =
      some "\"ObjectVNTable\"" ∧
    strip_quotes "\"ObjectVNTable\"" = some "ObjectVNTable" ∧
    is_valid_from_field sample_constants "ObjectVNTable" = true ∧
    (sample_query "\"ObjectVNTable\"" "0" "100").lookup QUERY_WHERE = none ∧
    sample_stages.selectquery.ObjectIdQuery = false ∧
    ((Init sample_constants sample_header (sample_library 5000) sample_stages
      (sample_this 0 1) true "q" (sample_query "\"ObjectVNTable\"" "0" "100") 0).getD
        {}).status_details = EINVAL_errno := by
  obtain ⟨q, hq, hst, _⟩ := object_table_without_where_is_rejected sample_constants
    sample_header (sample_library 5000) sample_stages (sample_this 0 1) "q"
    (sample_query "\"ObjectVNTable\"" "0" "100") 0 "\"ObjectVNTable\"" "ObjectVNTable" "0" "100"
    (by decide) (by decide) (by decide) (by decide) (by decide) (by decide) (by decide)
    (by decide) (by decide) (by decide) (by decide) (by decide) (by decide)
  refine ⟨by decide, by decide, by decide, by decide, by decide, ?_⟩
  rw [hq]
  exact hst

/-- C16: `is_valid_where_field f` holds iff the schema of the resolved table has
a column named `f` whose index flag is set; hence it is false when no column of
that schema is named `f`, when the columns of that name are not indexed, and
when the table is in neither list. -/
theorem is_valid_where_field_iff (c : VizConstants) (q : AnalyticsQuery) (f : String) :
    (is_valid_where_field c q f = true ↔
      ∃ sch, resolved_schema c q.table = some sch ∧
        ∃ col ∈ sch.columns, col.name = f ∧ col.index = true) ∧
    ((∀ sch, resolved_schema c q.table = some sch → ∀ col ∈ sch.columns, col.name ≠ f) →
      is_valid_where_field c q f = false) ∧
    ((∀ sch, resolved_schema c q.table = some sch →
        ∀ col ∈ sch.columns, col.name = f → col.index = false) →
      is_valid_where_field c q f = false) ∧
    (resolved_schema c q.table = none → is_valid_where_field c q f = false) := by
  have hiff : is_valid_where_field c q f = true ↔
      ∃ sch, resolved_schema c q.table = some sch ∧
        ∃ col ∈ sch.columns, col.name = f ∧ col.index = true := by
    unfold is_valid_where_field resolved_schema
    cases hfind : c._TABLES.find? (fun t => t.name == q.table) with
    | some d => simp
    | none =>
      by_cases hobj : q.table ∈ c._OBJECT_TABLES
      · have hany : c._OBJECT_TABLES.any (fun k => k == q.table) = true := by simpa using hobj
        simp [hany, hobj]
      · have hany : c._OBJECT_TABLES.any (fun k => k == q.table) = false := by
          simp only [List.any_eq_false, beq_iff_eq]
          intro x hx hxe
          exact hobj (hxe ▸ hx)
        simp [hany, hobj]
  have hfalse : ∀ {P : Prop}, (is_valid_where_field c q f = true ↔ P) → ¬ P →
      is_valid_where_field c q f = false := by
    intro P hP hn
    cases hval : is_valid_where_field c q f with
    | false => rfl
    | true => exact absurd (hP.mp hval) hn
  refine ⟨hiff, ?_, ?_, ?_⟩
  · intro hno
    apply hfalse hiff
    rintro ⟨sch, hsch, col, hcol, hname, _⟩
    exact hno sch hsch col hcol hname
  · intro hno
    apply hfalse hiff
    rintro ⟨sch, hsch, col, hcol, hname, hidx⟩
    have := hno sch hsch col hcol hname
    rw [hidx] at this
    exact absurd this (by decide)
  · intro hnone
    apply hfalse hiff
    rintro ⟨sch, hsch, _⟩
    rw [hnone] at hsch
    exact absurd hsch (by simp)

/-! ## The loops of the constructor of `PostProcessingQuery` -/

theorem PostProcessingQuery_sort_loop_next (c : VizConstants) (names : List (String × String))
    (sel : SelectQuery) (m : AnalyticsQuery) :
    ∀ (es : List JsonValue) (st st1 : PostProcessingState),
      PostProcessingQuery_sort_loop c names sel m es st = Ctl.next st1 →
      st1.pp.status_details = st.pp.status_details ∧ st1.pp.sorted = st.pp.sorted ∧
      st1.pp.sorting_type = st.pp.sorting_type ∧ st1.pp.limit = st.pp.limit ∧
      st1.pp.filter_list = st.pp.filter_list ∧ st1.merge_needed = st.merge_needed := by
  intro es
  induction es with
  | nil =>
    intro st st1 hrun
    simp only [PostProcessingQuery_sort_loop, Ctl.next.injEq] at hrun
    subst hrun
    simp
  | cons e es ih =>
    intro st st1 hrun
    cases e with
    | string s =>
      simp only [PostProcessingQuery_sort_loop] at hrun
      split at hrun
      · exact absurd hrun (by simp)
      · split at hrun
        · exact absurd hrun (by simp)
        · have := ih _ _ hrun
          simpa using this
    | null => simp [PostProcessingQuery_sort_loop] at hrun
    | bool b => simp [PostProcessingQuery_sort_loop] at hrun
    | int n => simp [PostProcessingQuery_sort_loop] at hrun
    | double t => simp [PostProcessingQuery_sort_loop] at hrun
    | array xs => simp [PostProcessingQuery_sort_loop] at hrun
    | object ms => simp [PostProcessingQuery_sort_loop] at hrun

theorem PostProcessingQuery_sort_loop_ret (c : VizConstants) (names : List (String × String))
    (sel : SelectQuery) (m : AnalyticsQuery) :
    ∀ (es : List JsonValue) (st st1 : PostProcessingState),
      PostProcessingQuery_sort_loop c names sel m es st = Ctl.ret st1 →
      st1.pp.status_details ≠ 0 := by
  intro es
  induction es with
  | nil =>
    intro st st1 hrun
    simp [PostProcessingQuery_sort_loop] at hrun
  | cons e es ih =>
    intro st st1 hrun
    cases e with
    | string s =>
      simp only [PostProcessingQuery_sort_loop] at hrun
      split at hrun
      · simp only [Ctl.ret.injEq] at hrun
        subst hrun
        simp [PostProcessingState.invalidarg_error, EINVAL_errno]
      · split at hrun
        · simp only [Ctl.ret.injEq] at hrun
          subst hrun
          simp [PostProcessingState.invalidarg_error, EINVAL_errno]
        · exact ih _ _ hrun
    | null =>
      simp only [PostProcessingQuery_sort_loop, Ctl.ret.injEq] at hrun
      subst hrun
      simp [PostProcessingState.parse_error, EBADMSG_errno]
    | bool b =>
      simp only [PostProcessingQuery_sort_loop, Ctl.ret.injEq] at hrun
      subst hrun
      simp [PostProcessingState.parse_error, EBADMSG_errno]
    | int n =>
      simp only [PostProcessingQuery_sort_loop, Ctl.ret.injEq] at hrun
      subst hrun
      simp [PostProcessingState.parse_error, EBADMSG_errno]
    | double t =>
      simp only [PostProcessingQuery_sort_loop, Ctl.ret.injEq] at hrun
      subst hrun
      simp [PostProcessingState.parse_error, EBADMSG_errno]
    | array xs =>
      simp only [PostProcessingQuery_sort_loop, Ctl.ret.injEq] at hrun
      subst hrun
      simp [PostProcessingState.parse_error, EBADMSG_errno]
    | object ms =>
      simp only [PostProcessingQuery_sort_loop, Ctl.ret.injEq] at hrun
      subst hrun
      simp [PostProcessingState.parse_error, EBADMSG_errno]

theorem PostProcessingQuery_filter_loop_next (h : QueryHeader) (lib : Library) :
    ∀ (es : List JsonValue) (st st1 : PostProcessingState),
      PostProcessingQuery_filter_loop h lib es st = some (Ctl.next st1) →
      st1.pp.status_details = st.pp.status_details ∧ st1.pp.sorted = st.pp.sorted ∧
      st1.pp.sorting_type = st.pp.sorting_type ∧ st1.pp.limit = st.pp.limit ∧
      st1.pp.sort_fields = st.pp.sort_fields ∧ st1.merge_needed = st.merge_needed := by
  intro es
  induction es with
  | nil =>
    intro st st1 hrun
    simp only [PostProcessingQuery_filter_loop, Option.some.injEq, Ctl.next.injEq] at hrun
    subst hrun
    simp
  | cons e es ih =>
    intro st st1 hrun
    simp only [PostProcessingQuery_filter_loop] at hrun
    split at hrun
    · split at hrun
      · exact absurd hrun (by simp)
      · split at hrun
        · exact absurd hrun (by simp)
        · split at hrun
          · exact absurd hrun (by simp)
          · split at hrun
            · split at hrun
              · exact absurd hrun (by simp)
              · have := ih _ _ hrun
                simpa using this
            · exact absurd hrun (by simp)
    · exact absurd hrun (by simp)

theorem PostProcessingQuery_filter_loop_ret (h : QueryHeader) (lib : Library) :
    ∀ (es : List JsonValue) (st st1 : PostProcessingState),
      PostProcessingQuery_filter_loop h lib es st = some (Ctl.ret st1) →
      st1.pp.status_details ≠ 0 := by
  intro es
  induction es with
  | nil =>
    intro st st1 hrun
    simp [PostProcessingQuery_filter_loop] at hrun
  | cons e es ih =>
    intro st st1 hrun
    simp only [PostProcessingQuery_filter_loop] at hrun
    split at hrun
    · split at hrun
      · simp only [Option.some.injEq, Ctl.ret.injEq] at hrun
        subst hrun
        simp [PostProcessingState.invalidarg_error, EINVAL_errno]
      · split at hrun
        · simp only [Option.some.injEq, Ctl.ret.injEq] at hrun
          subst hrun
          simp [PostProcessingState.invalidarg_error, EINVAL_errno]
        · split at hrun
          · simp only [Option.some.injEq, Ctl.ret.injEq] at hrun
            subst hrun
            simp [PostProcessingState.invalidarg_error, EINVAL_errno]
          · split at hrun
            · split at hrun
              · exact absurd hrun (by simp)
              · exact ih _ _ hrun
            · exact absurd hrun (by simp)
    · exact absurd hrun (by simp)

theorem PostProcessingQuery_entry_ret (c : VizConstants) (h : QueryHeader) (lib : Library)
    (names : List (String × String)) (sel : SelectQuery) (m : AnalyticsQuery)
    (key value : String) (st st1 : PostProcessingState)
    (hrun : PostProcessingQuery_entry c h lib names sel m key value st = some (Ctl.ret st1)) :
    st1.pp.status_details ≠ 0 := by
  unfold PostProcessingQuery_entry at hrun
  simp only [] at hrun
  split at hrun
  · exact absurd hrun (by simp)
  · rename_i st2 h3
    simp only [Option.some.injEq, Ctl.ret.injEq] at hrun
    subst hrun
    split at h3
    · split at h3
      · rename_i d hd
        split at h3
        · simp only [Option.some.injEq] at h3
          exact PostProcessingQuery_sort_loop_ret c names sel m _ _ _ h3
        · simp only [Option.some.injEq, Ctl.ret.injEq] at h3
          subst h3
          simp [PostProcessingState.parse_error, EBADMSG_errno]
        · exact absurd h3 (by simp)
      · exact absurd h3 (by simp)
    · exact absurd h3 (by simp)
  · rename_i st3 h3
    split at hrun
    · exact absurd hrun (by simp)
    · rename_i st4 h4
      simp only [Option.some.injEq, Ctl.ret.injEq] at hrun
      subst hrun
      split at h4
      · split at h4
        · split at h4
          · exact PostProcessingQuery_filter_loop_ret h lib _ _ _ h4
          · simp only [Option.some.injEq, Ctl.ret.injEq] at h4
            subst h4
            simp [PostProcessingState.parse_error, EBADMSG_errno]
          · exact absurd h4 (by simp)
        · exact absurd h4 (by simp)
      · exact absurd h4 (by simp)
    · split at hrun <;> exact absurd hrun (by simp)

theorem PostProcessingQuery_entry_next (c : VizConstants) (h : QueryHeader) (lib : Library)
    (names : List (String × String)) (sel : SelectQuery) (m : AnalyticsQuery)
    (key value : String) (st st1 : PostProcessingState)
    (hrun : PostProcessingQuery_entry c h lib names sel m key value st = some (Ctl.next st1)) :
    st1.pp.status_details = st.pp.status_details ∧
    st1.pp.sorted = (if key == QUERY_SORT_OP then true else st.pp.sorted) ∧
    st1.pp.sorting_type =
      (if key == QUERY_SORT_OP then lib.istream_int value else st.pp.sorting_type) ∧
    st1.merge_needed = (st.merge_needed || key == QUERY_SORT_OP || key == QUERY_LIMIT) := by
  unfold PostProcessingQuery_entry at hrun
  simp only [] at hrun
  split at hrun
  · exact absurd hrun (by simp)
  · exact absurd hrun (by simp)
  · rename_i st3 h3
    have f3 : st3.pp.status_details = st.pp.status_details ∧
        st3.pp.sorted = (if key == QUERY_SORT_OP then true else st.pp.sorted) ∧
        st3.pp.sorting_type =
          (if key == QUERY_SORT_OP then lib.istream_int value else st.pp.sorting_type) ∧
        st3.merge_needed = (st.merge_needed || key == QUERY_SORT_OP || key == QUERY_LIMIT) := by
      split at h3
      · split at h3
        · split at h3
          · simp only [Option.some.injEq] at h3
            obtain ⟨a1, a2, a3, _, _, a6⟩ :=
              PostProcessingQuery_sort_loop_next c names sel m _ _ _ h3
            rw [a1, a2, a3, a6]
            by_cases hk1 : (key == QUERY_SORT_OP) = true <;>
              by_cases hk2 : (key == QUERY_LIMIT) = true <;> simp [hk1, hk2]
          · exact absurd h3 (by simp)
          · exact absurd h3 (by simp)
        · exact absurd h3 (by simp)
      · simp only [Option.some.injEq, Ctl.next.injEq] at h3
        subst h3
        by_cases hk1 : (key == QUERY_SORT_OP) = true <;>
          by_cases hk2 : (key == QUERY_LIMIT) = true <;> simp [hk1, hk2]
    split at hrun
    · exact absurd hrun (by simp)
    · exact absurd hrun (by simp)
    · rename_i st4 h4
      have f4 : st4.pp.status_details = st3.pp.status_details ∧
          st4.pp.sorted = st3.pp.sorted ∧ st4.pp.sorting_type = st3.pp.sorting_type ∧
          st4.merge_needed = st3.merge_needed := by
        split at h4
        · split at h4
          · split at h4
            · obtain ⟨a1, a2, a3, _, _, a6⟩ :=
                PostProcessingQuery_filter_loop_next h lib _ _ _ h4
              exact ⟨a1, a2, a3, a6⟩
            · exact absurd h4 (by simp)
            · exact absurd h4 (by simp)
          · exact absurd h4 (by simp)
        · simp only [Option.some.injEq, Ctl.next.injEq] at h4
          subst h4
          exact ⟨rfl, rfl, rfl, rfl⟩
      obtain ⟨b1, b2, b3, b4⟩ := f3
      obtain ⟨d1, d2, d3, d4⟩ := f4
      split at hrun
      · simp only [Option.some.injEq, Ctl.next.injEq] at hrun
        subst hrun
        exact ⟨d1.trans b1, d2.trans b2, d3.trans b3, d4.trans b4⟩
      · simp only [Option.some.injEq, Ctl.next.injEq] at hrun
        subst hrun
        exact ⟨d1.trans b1, d2.trans b2, d3.trans b3, d4.trans b4⟩

theorem PostProcessingQuery_loop_ret (c : VizConstants) (h : QueryHeader) (lib : Library)
    (names : List (String × String)) (sel : SelectQuery) (m : AnalyticsQuery) :
    ∀ (data : List (String × String)) (st st1 : PostProcessingState),
      PostProcessingQuery_loop c h lib names sel m data st = some (Ctl.ret st1) →
      st1.pp.status_details ≠ 0 := by
  intro data
  induction data with
  | nil =>
    intro st st1 hrun
    simp [PostProcessingQuery_loop] at hrun
  | cons kv rest ih =>
    intro st st1 hrun
    obtain ⟨key, value⟩ := kv
    simp only [PostProcessingQuery_loop] at hrun
    split at hrun
    · exact absurd hrun (by simp)
    · rename_i st2 h2
      simp only [Option.some.injEq, Ctl.ret.injEq] at hrun
      subst hrun
      exact PostProcessingQuery_entry_ret c h lib names sel m key value st _ h2
    · exact ih _ _ hrun

theorem lookup_eq_none_of_not_mem_keys (key : String) :
    ∀ data : List (String × String), key ∉ data.map Prod.fst → data.lookup key = none := by
  intro data
  induction data with
  | nil => intro _; rfl
  | cons kv rest ih =>
    intro hk
    obtain ⟨k, v⟩ := kv
    simp only [List.map_cons, List.mem_cons, not_or] at hk
    have hne : (key == k) = false := by simpa using hk.1
    simp only [List.lookup, hne]
    exact ih hk.2

theorem PostProcessingQuery_loop_next (c : VizConstants) (h : QueryHeader) (lib : Library)
    (names : List (String × String)) (sel : SelectQuery) (m : AnalyticsQuery) :
    ∀ (data : List (String × String)) (st st1 : PostProcessingState),
      PostProcessingQuery_loop c h lib names sel m data st = some (Ctl.next st1) →
      st1.pp.status_details = st.pp.status_details ∧
      (data.lookup QUERY_SORT_OP = none →
        st1.pp.sorted = st.pp.sorted ∧ st1.pp.sorting_type = st.pp.sorting_type) ∧
      (∀ v, data.lookup QUERY_SORT_OP = some v → (data.map Prod.fst).Nodup →
        st1.pp.sorted = true ∧ st1.pp.sorting_type = lib.istream_int v) := by
  intro data
  induction data with
  | nil =>
    intro st st1 hrun
    simp only [PostProcessingQuery_loop, Option.some.injEq, Ctl.next.injEq] at hrun
    subst hrun
    simp
  | cons kv rest ih =>
    intro st st1 hrun
    obtain ⟨key, value⟩ := kv
    simp only [PostProcessingQuery_loop] at hrun
    split at hrun
    · exact absurd hrun (by simp)
    · exact absurd hrun (by simp)
    · rename_i st2 h2
      obtain ⟨e1, e2, e3, _⟩ := PostProcessingQuery_entry_next c h lib names sel m key value st _ h2
      obtain ⟨r1, r2, r3⟩ := ih _ _ hrun
      refine ⟨r1.trans e1, ?_, ?_⟩
      · intro hnone
        by_cases hk : (QUERY_SORT_OP == key) = true
        · simp [List.lookup, hk] at hnone
        · have hk2 : (QUERY_SORT_OP == key) = false := by simpa using hk
          have hk3 : (key == QUERY_SORT_OP) = false := by
            simp only [beq_eq_false_iff_ne, ne_eq] at hk2 ⊢
            exact fun hh => hk2 hh.symm
          simp only [List.lookup, hk2] at hnone
          obtain ⟨s1, s2⟩ := r2 hnone
          rw [s1, s2, e2, e3]
          simp [hk3]
      · intro v hsome hnodup
        simp only [List.map_cons, List.nodup_cons] at hnodup
        by_cases hk : (QUERY_SORT_OP == key) = true
        · have hkey : key = QUERY_SORT_OP := by
            simp only [beq_iff_eq] at hk
            exact hk.symm
          have hk3 : (key == QUERY_SORT_OP) = true := by simp [hkey]
          simp only [List.lookup, hk, Option.some.injEq] at hsome
          subst hsome
          have hrest : rest.lookup QUERY_SORT_OP = none := by
            apply lookup_eq_none_of_not_mem_keys
            rw [← hkey]
            exact hnodup.1
          obtain ⟨s1, s2⟩ := r2 hrest
          rw [s1, s2, e2, e3]
          simp [hk3]
        · have hk2 : (QUERY_SORT_OP == key) = false := by simpa using hk
          simp only [List.lookup, hk2] at hsome
          exact r3 v hsome hnodup.2

/-- C18: for a successfully constructed `PostProcessingQuery`, when the raw query
has no sort-order key and the sort-fields clause has yielded at least one sort
field, `sorted` is true and `sorting_type` is `ASCENDING`; when the sort-order
key is present (the keys of the map being distinct), `sorted` is true and
`sorting_type` is the code read from its value. -/
theorem sort_order_defaults_to_ascending (c : VizConstants) (h : QueryHeader) (lib : Library)
    (names : List (String × String)) (sel : SelectQuery) (data : List (String × String))
    (m : AnalyticsQuery) (st : PostProcessingState)
    (hctor : PostProcessingQuery_ctor c h lib names sel data m = some st)
    (hok : st.pp.status_details = 0) :
    (data.lookup QUERY_SORT_OP = none → st.pp.sort_fields ≠ [] →
      st.pp.sorted = true ∧ st.pp.sorting_type = h.ASCENDING) ∧
    (∀ v, data.lookup QUERY_SORT_OP = some v → (data.map Prod.fst).Nodup →
      st.pp.sorted = true ∧ st.pp.sorting_type = lib.istream_int v) := by
  unfold PostProcessingQuery_ctor at hctor
  simp only [] at hctor
  split at hctor
  · exact absurd hctor (by simp)
  · rename_i st1 h1
    simp only [Option.some.injEq] at hctor
    subst hctor
    exact absurd hok (PostProcessingQuery_loop_ret c h lib names sel m data _ _ h1)
  · rename_i st1 h1
    obtain ⟨_, r2, r3⟩ := PostProcessingQuery_loop_next c h lib names sel m data _ _ h1
    simp only [] at r2 r3
    constructor
    · intro hnone hne
      obtain ⟨s1, _⟩ := r2 hnone
      split at hctor
      · simp only [Option.some.injEq] at hctor
        subst hctor
        exact ⟨rfl, rfl⟩
      · rename_i hcond
        simp only [Option.some.injEq] at hctor
        subst hctor
        exfalso
        apply hcond
        have hlen : st1.pp.sort_fields.length ≠ 0 := by
          intro hz
          exact hne (List.length_eq_zero.mp hz)
        simp [s1, hlen]
    · intro v hsome hnodup
      obtain ⟨s1, s2⟩ := r3 v hsome hnodup
      split at hctor
      · rename_i hcond
        rw [s1] at hcond
        simp at hcond
      · simp only [Option.some.injEq] at hctor
        subst hctor
        exact ⟨s1, s2⟩

/-- The hypotheses of C18 hold for the sample message query sorted by `Source`
without a sort order. -/
theorem sort_order_defaults_to_ascending_witness :
    PostProcessingQuery_ctor sample_constants sample_header (sample_json_library 5000) []
      sample_stages.selectquery (sample_sorted_query "\"MessageTable\"" "[\"Source\"]")
      sample_main_query = some sample_sort_source_state ∧
    sample_sort_source_state.pp.status_details = 0 ∧
    (sample_sorted_query "\"MessageTable\"" "[\"Source\"]").lookup QUERY_SORT_OP = none ∧
    sample_sort_source_state.pp.sort_fields ≠ [] ∧
    sample_sort_source_state.pp.sorted = true ∧
    sample_sort_source_state.pp.sorting_type = sample_header.ASCENDING :=
  ⟨by decide, by decide, by decide, by decide,
    ((sort_order_defaults_to_ascending sample_constants sample_header
      (sample_json_library 5000) [] sample_stages.selectquery
      (sample_sorted_query "\"MessageTable\"" "[\"Source\"]") sample_main_query
      sample_sort_source_state (by decide) (by decide)).1 (by decide) (by decide)).1,
    ((sort_order_defaults_to_ascending sample_constants sample_header
      (sample_json_library 5000) [] sample_stages.selectquery
      (sample_sorted_query "\"MessageTable\"" "[\"Source\"]") sample_main_query
      sample_sort_source_state (by decide) (by decide)).1 (by decide) (by decide)).2⟩

theorem is_valid_sort_field_iff (sel : SelectQuery) (s : String) :
    is_valid_sort_field sel s = true ↔
      (s = SELECT_PACKETS ∨ s = SELECT_BYTES ∨ s = SELECT_SUM_PACKETS ∨
        s = SELECT_SUM_BYTES ∨ s = SELECT_AVG_PACKETS ∨ s = SELECT_AVG_BYTES ∨
        s ∈ sel.select_column_fields) := by
  unfold is_valid_sort_field SelectQuery.is_present_in_select_column_fields
  by_cases hsix : (s == SELECT_PACKETS || s == SELECT_BYTES || s == SELECT_SUM_PACKETS ||
      s == SELECT_SUM_BYTES || s == SELECT_AVG_PACKETS || s == SELECT_AVG_BYTES) = true
  · simp only [hsix, if_true, true_iff]
    simp only [Bool.or_eq_true, beq_iff_eq] at hsix
    tauto
  · simp only [hsix, Bool.false_eq_true, if_false]
    simp only [Bool.or_eq_true, beq_iff_eq, not_or] at hsix
    have hmem : sel.select_column_fields.contains s = true ↔ s ∈ sel.select_column_fields := by
      simp
    rw [hmem]
    tauto

/-- C17 as stated fails for a fixed aggregate name that is not a column of the
table: the sample message query sorted by `bytes`, one of the six names, ends
with the invalid-argument code because the message table has no such column. -/
theorem sort_by_bytes_on_message_table_is_rejected :
    SELECT_BYTES = "bytes" ∧
    is_valid_sort_field sample_stages.selectquery "bytes" = true ∧
    get_column_field_datatype sample_constants sample_main_query "bytes" = "" ∧
    Init sample_constants sample_header (sample_json_library 5000) sample_stages
      (sample_this 0 1) true "q" (sample_sorted_query "\"MessageTable\"" "[\"bytes\"]") 0 =
      some sample_sort_bytes_result ∧
    sample_sort_bytes_result.status_details = EINVAL_errno := by
  decide

/-- C17, amended: the post-processing stage accepts a string element `s` of the
sort-fields array iff `s` is a column of the resolved table with a non-empty
datatype and `s` is one of the six fixed aggregate names or is present in the
select column fields; an accepted element is appended to the sort fields and
the loop goes on, any other string element ends the constructor with the
invalid-argument code. -/
theorem sort_field_accepted_iff (c : VizConstants) (names : List (String × String))
    (sel : SelectQuery) (m : AnalyticsQuery) (s : String) (es : List JsonValue)
    (st : PostProcessingState) :
    ((∃ st1, PostProcessingQuery_sort_loop c names sel m [JsonValue.string s] st =
        Ctl.next st1) ↔
      (get_column_field_datatype c m s ≠ "" ∧
        (s = SELECT_PACKETS ∨ s = SELECT_BYTES ∨ s = SELECT_SUM_PACKETS ∨
          s = SELECT_SUM_BYTES ∨ s = SELECT_AVG_PACKETS ∨ s = SELECT_AVG_BYTES ∨
          s ∈ sel.select_column_fields))) ∧
    ((get_column_field_datatype c m s ≠ "" ∧
        (s = SELECT_PACKETS ∨ s = SELECT_BYTES ∨ s = SELECT_SUM_PACKETS ∨
          s = SELECT_SUM_BYTES ∨ s = SELECT_AVG_PACKETS ∨ s = SELECT_AVG_BYTES ∨
          s ∈ sel.select_column_fields)) →
      PostProcessingQuery_sort_loop c names sel m (JsonValue.string s :: es) st =
        PostProcessingQuery_sort_loop c names sel m es
          { st with pp := { st.pp with
              sort_fields := st.pp.sort_fields ++
                [⟨get_column_name names s, get_column_field_datatype c m s⟩] } }) ∧
    (¬ (get_column_field_datatype c m s ≠ "" ∧
        (s = SELECT_PACKETS ∨ s = SELECT_BYTES ∨ s = SELECT_SUM_PACKETS ∨
          s = SELECT_SUM_BYTES ∨ s = SELECT_AVG_PACKETS ∨ s = SELECT_AVG_BYTES ∨
          s ∈ sel.select_column_fields)) →
      PostProcessingQuery_sort_loop c names sel m (JsonValue.string s :: es) st =
        Ctl.ret st.invalidarg_error ∧
      st.invalidarg_error.pp.status_details = EINVAL_errno) := by
  rw [← is_valid_sort_field_iff]
  by_cases hd : get_column_field_datatype c m s = ""
  · have hb : (get_column_field_datatype c m s == "") = true := by simp [hd]
    refine ⟨?_, ?_, ?_⟩
    · simp [PostProcessingQuery_sort_loop, hd]
    · intro hacc
      exact absurd hd hacc.1
    · intro _
      simp [PostProcessingQuery_sort_loop, hd, PostProcessingState.invalidarg_error]
  · have hb : (get_column_field_datatype c m s == "") = false := by simp [hd]
    by_cases hv : is_valid_sort_field sel s = true
    · refine ⟨?_, ?_, ?_⟩
      · simp [PostProcessingQuery_sort_loop, hb, hv, hd]
      · intro _
        simp [PostProcessingQuery_sort_loop, hb, hv]
      · intro hnot
        exact absurd ⟨hd, hv⟩ hnot
    · have hv2 : is_valid_sort_field sel s = false := by simpa using hv
      refine ⟨?_, ?_, ?_⟩
      · simp [PostProcessingQuery_sort_loop, hb, hv2]
      · intro hacc
        exact absurd hacc.2 hv
      · intro _
        simp [PostProcessingQuery_sort_loop, hb, hv2, PostProcessingState.invalidarg_error]

/-- C19 fails on the code: the sample query on the log-collector table has three
keys and no result filter, and the constructed stage holds three copies of the
predicate on the module id instead of one, because lines 173-185 are inside the
loop over the keys of the raw query. -/
theorem own_log_filter_is_added_once_per_key :
    sample_constants.COLLECTOR_GLOBAL_TABLE = "MessageTable" ∧
    (sample_query "\"MessageTable\"" "0" "100").length = 3 ∧
    (sample_query "\"MessageTable\"" "0" "100").lookup QUERY_FILTER = none ∧
    sample_message_run 0 = some (sample_message_result 0) ∧
    (sample_message_result 0).status_details = 0 ∧
    (sample_message_result 0).filter_qe_logs = true ∧
    (sample_message_result 0).postprocess_.map (fun p => p.filter_list) =
      some (List.replicate 3
        { name := "ModuleId", value := "QueryEngine", op := sample_header.NOT_EQUAL,
          ignore_col_absence := true }) := by
  decide

/-- C20 fails on the code: a result filter whose value is the number 5000000000
passes the validation (`IsNumber`), but the conversion of lines 145-160 handles
only strings and 32-bit numbers, so the stored value is left empty; the same
holds for a number stored as a double. -/
theorem wide_number_filter_value_is_empty :
    (JsonValue.int 5000000000).IsNumber = true ∧
    filter_value_of (JsonValue.int 5000000000) = "" ∧
    (JsonValue.double "1.5").IsNumber = true ∧
    filter_value_of (JsonValue.double "1.5") = "" ∧
    Init sample_constants sample_header (sample_json_library 5000) sample_stages
      (sample_this 0 1) true "q"
      (sample_filtered_query "\"FlowSeriesTable\""
        "[\x7b\"name\":\"bytes\",\"value\":5000000000,\"op\":5\x7d]") 0 =
      some sample_wide_filter_result ∧
    sample_wide_filter_result.status_details = 0 ∧
    sample_wide_filter_result.postprocess_.map (fun p => p.filter_list) =
      some [{ name := "bytes", value := "", op := 5 }] := by
  decide

/-! ## `final_result` is not touched by `Init` -/

theorem Init_time_slice_final_result {c : VizConstants} {h : QueryHeader} {sel : SelectQuery}
    {q0 p : AnalyticsQuery} (hp : Init_time_slice c h sel q0 = some p) :
    p.final_result = q0.final_result := by
  unfold Init_time_slice at hp
  simp only [can_parallelize_query_table, parallel_merge_needed_table] at hp
  by_cases hc : q0.from_time > q0.end_time
  · simp only [hc, if_true] at hp
    by_cases hpar : can_parallelize_table c sel q0.table = true
    · by_cases hz : toU64 q0.total_parallel_batches = 0
      · simp [hpar, hz] at hp
      · simp only [hpar, hz, if_true, if_false, Option.some.injEq] at hp
        subst hp
        rfl
    · have hpar2 : can_parallelize_table c sel q0.table = false := by simpa using hpar
      simp only [hpar2, Bool.false_eq_true, if_false, Option.some.injEq] at hp
      subst hp
      rfl
  · simp only [hc, if_false] at hp
    by_cases hpar : can_parallelize_table c sel q0.table = true
    · by_cases hz : toU64 q0.total_parallel_batches = 0
      · simp [hpar, hz] at hp
      · simp only [hpar, hz, if_true, if_false, Option.some.injEq] at hp
        subst hp
        rfl
    · have hpar2 : can_parallelize_table c sel q0.table = false := by simpa using hpar
      simp only [hpar2, Bool.false_eq_true, if_false, Option.some.injEq] at hp
      subst hp
      rfl

theorem object_table_redirect_final_result (c : VizConstants) (sel : SelectQuery)
    (q : AnalyticsQuery) : (object_table_redirect c sel q).final_result = q.final_result := by
  unfold object_table_redirect
  split <;> rfl

theorem Init_stages_final_result {c : VizConstants} {h : QueryHeader} {lib : Library}
    {s : Stages} {data : List (String × String)} {q0 q : AnalyticsQuery}
    (hq : Init_stages c h lib s data q0 = some (Ctl.ret q) ∨
      Init_stages c h lib s data q0 = some (Ctl.next q)) :
    q.final_result = q0.final_result := by
  have hredirect := object_table_redirect_final_result c s.selectquery
    { q0 with wherequery_ := some s.wherequery,
              status_details := s.selectquery.status_details,
              selectquery_ := some s.selectquery }
  simp only [] at hredirect
  unfold Init_stages at hq
  simp only [] at hq
  split at hq
  · rcases hq with hq | hq
    · simp only [Option.some.injEq, Ctl.ret.injEq] at hq
      subst hq
      rfl
    · exact absurd hq (by simp)
  · split at hq
    · rcases hq with hq | hq
      · simp only [Option.some.injEq, Ctl.ret.injEq] at hq
        subst hq
        rfl
      · exact absurd hq (by simp)
    · split at hq
      · rcases hq with hq | hq
        · simp only [Option.some.injEq, Ctl.ret.injEq] at hq
          subst hq
          exact hredirect
        · exact absurd hq (by simp)
      · split at hq
        · rcases hq with hq | hq <;> exact absurd hq (by simp)
        · split at hq
          · rcases hq with hq | hq
            · simp only [Option.some.injEq, Ctl.ret.injEq] at hq
              subst hq
              exact hredirect
            · exact absurd hq (by simp)
          · split at hq
            · rcases hq with hq | hq <;> exact absurd hq (by simp)
            · rename_i q5 hq5
              rcases hq with hq | hq
              · exact absurd hq (by simp)
              · simp only [Option.some.injEq, Ctl.next.injEq] at hq
                subst hq
                rw [Init_time_slice_final_result hq5]
                exact hredirect

theorem Init_final_result {c : VizConstants} {h : QueryHeader} {lib : Library} {s : Stages}
    {this : AnalyticsQuery} {db_if : Bool} {qid : String} {data : List (String × String)}
    {ast : Nat} {q : AnalyticsQuery}
    (hq : Init c h lib s this db_if qid data ast = some q) :
    q.final_result = this.final_result := by
  have hwin : ∀ p : AnalyticsQuery, (Init_window p).final_result = p.final_result := by
    intro p
    unfold Init_window
    simp only []
    split
    · rfl
    · split <;> rfl
  have hparse : ∀ p : AnalyticsQuery,
      (Init_parse c h lib s this db_if qid data ast = some (Ctl.ret p) ∨
        Init_parse c h lib s this db_if qid data ast = some (Ctl.next p)) →
      p.final_result = this.final_result := by
    intro p hp
    unfold Init_parse at hp
    simp only [] at hp
    split at hp
    · rcases hp with hp | hp
      · simp only [Option.some.injEq, Ctl.ret.injEq] at hp
        subst hp
        rfl
      · exact absurd hp (by simp)
    · split at hp
      · rcases hp with hp | hp
        · simp only [Option.some.injEq, Ctl.ret.injEq] at hp
          subst hp
          rfl
        · exact absurd hp (by simp)
      · split at hp
        · rcases hp with hp | hp <;> exact absurd hp (by simp)
        · split at hp
          · rcases hp with hp | hp
            · simp only [Option.some.injEq, Ctl.ret.injEq] at hp
              subst hp
              rfl
            · exact absurd hp (by simp)
          · split at hp
            · rcases hp with hp | hp
              · simp only [Option.some.injEq, Ctl.ret.injEq] at hp
                subst hp
                rfl
              · exact absurd hp (by simp)
            · split at hp
              · rcases hp with hp | hp
                · simp only [Option.some.injEq, Ctl.ret.injEq] at hp
                  subst hp
                  rfl
                · exact absurd hp (by simp)
              · have hstages := Init_stages_final_result hp
                simp only [] at hstages
                exact hstages
  unfold Init at hq
  split at hq
  · exact absurd hq (by simp)
  · rename_i p hp
    simp only [Option.some.injEq] at hq
    subst hq
    exact hparse _ (Or.inl hp)
  · rename_i p hp
    simp only [Option.some.injEq] at hq
    subst hq
    rw [hwin]
    exact hparse _ (Or.inr hp)

theorem AnalyticsQuery_ctor_final_result {c : VizConstants} {h : QueryHeader} {lib : Library}
    {s : Stages} {db : GenDbIf} {qid : String} {data : List (String × String)} {ast : Nat}
    {batch total : Int} {q : AnalyticsQuery}
    (hq : AnalyticsQuery_ctor c h lib s db qid data ast batch total = some q) :
    q.final_result = none := by
  have hfold : ∀ (cfs : List String) (p : AnalyticsQuery),
      (use_columnfamilies db cfs p).final_result = p.final_result := by
    intro cfs
    induction cfs with
    | nil => intro p; rfl
    | cons cf rest ih =>
      intro p
      have hstep : use_columnfamilies db (cf :: rest) p =
          use_columnfamilies db rest
            (if db.Db_UseColumnfamily cf == false then { p with status_details := EIO_errno }
              else p) := rfl
      rw [hstep, ih]
      split <;> rfl
  have hinit : ∀ p : AnalyticsQuery,
      (ctor_database_init c db p).final_result = p.final_result := by
    intro p
    unfold ctor_database_init
    simp only []
    rw [hfold, hfold, hfold]
    by_cases h1 : (db.Db_Init == false) = true <;>
      by_cases h2 : (db.Db_SetTablespace == false) = true <;> simp [h1, h2]
  unfold AnalyticsQuery_ctor at hq
  rw [Init_final_result hq, hinit]
  rfl

/-- C12, amended: when `process_query` returns without having called the
post-processing stage (a nonzero `status_details` on entry, or a failure of the
WHERE or of the SELECT stage), the status returned is not `QUERY_SUCCESS` and
`final_result` is left as it was, which is empty after construction; once the
post-processing stage has been called, `final_result` is the `result_` of that
stage, whatever status it has returned. -/
theorem final_result_after_process_query (c : VizConstants) (h : QueryHeader) (lib : Library)
    (s : Stages) (db : GenDbIf) (r : StageRuns) (qid : String)
    (data : List (String × String)) (ast : Nat) (batch total : Int) (q : AnalyticsQuery)
    (hq : AnalyticsQuery_ctor c h lib s db qid data ast batch total = some q) :
    q.final_result = none ∧
    (Stage.POSTPROCESS ∉ (process_query r q).ran →
      (process_query r q).returned ≠ query_status_t.QUERY_SUCCESS ∧
      (process_query r q).object.final_result = none) ∧
    (Stage.POSTPROCESS ∈ (process_query r q).ran →
      (process_query r q).object.final_result = r.postprocess.result_) := by
  have hnone := AnalyticsQuery_ctor_final_result hq
  refine ⟨hnone, ?_, ?_⟩
  · intro hnot
    unfold process_query at hnot ⊢
    simp only [] at hnot ⊢
    split
    · exact ⟨by simp, hnone⟩
    · split
      · rename_i hw
        exact ⟨hw, hnone⟩
      · split
        · rename_i hs
          exact ⟨hs, hnone⟩
        · rename_i h0 hw hs
          exfalso
          apply hnot
          simp only [h0, hw, hs, if_false]
          split <;> simp
  · intro hmem
    unfold process_query at hmem ⊢
    simp only [] at hmem ⊢
    split
    · rename_i h0
      simp [h0] at hmem
    · split
      · rename_i h0 hw
        simp [h0, hw] at hmem
      · split
        · rename_i h0 hw hs
          simp [h0, hw, hs] at hmem
        · split <;> rfl

/-- The hypothesis of the amended C12 holds for the sample message query run as
batch 0 of ten against the database that answers every call. -/
theorem final_result_after_process_query_witness :
    AnalyticsQuery_ctor sample_constants sample_header (sample_library 5000) sample_stages
      sample_db "q" (sample_query "\"MessageTable\"" "0" "100") 0 0 10 =
      some sample_constructed_result ∧
    sample_constructed_result.final_result = none :=
  ⟨by decide,
    (final_result_after_process_query sample_constants sample_header (sample_library 5000)
      sample_stages sample_db sample_failing_postprocess "q"
      (sample_query "\"MessageTable\"" "0" "100") 0 0 10 sample_constructed_result
      (by decide)).1⟩

/-! ## Malformed clauses of the post-processing stage -/

theorem PostProcessingQuery_loop_append (c : VizConstants) (h : QueryHeader) (lib : Library)
    (names : List (String × String)) (sel : SelectQuery) (m : AnalyticsQuery) :
    ∀ (pre post : List (String × String)) (st st1 : PostProcessingState),
      PostProcessingQuery_loop c h lib names sel m pre st = some (Ctl.next st1) →
      PostProcessingQuery_loop c h lib names sel m (pre ++ post) st =
        PostProcessingQuery_loop c h lib names sel m post st1 := by
  intro pre
  induction pre with
  | nil =>
    intro post st st1 hrun
    simp only [PostProcessingQuery_loop, Option.some.injEq, Ctl.next.injEq] at hrun
    subst hrun
    rfl
  | cons kv rest ih =>
    intro post st st1 hrun
    obtain ⟨key, value⟩ := kv
    simp only [PostProcessingQuery_loop, List.cons_append] at hrun ⊢
    split at hrun
    · exact absurd hrun (by simp)
    · exact absurd hrun (by simp)
    · rename_i st2 h2
      exact ih post st2 st1 hrun

theorem PostProcessingQuery_status_of_ret (c : VizConstants) (h : QueryHeader) (lib : Library)
    (names : List (String × String)) (sel : SelectQuery) (m : AnalyticsQuery)
    (pre post : List (String × String)) (key value : String) (st st1 : PostProcessingState)
    (hpre : PostProcessingQuery_loop c h lib names sel m pre (PostProcessingQuery_initial m) =
      some (Ctl.next st))
    (hentry : PostProcessingQuery_entry c h lib names sel m key value st = some (Ctl.ret st1)) :
    PostProcessingQuery_status c h lib names sel (pre ++ (key, value) :: post) m =
      some st1.pp.status_details := by
  have hloop := PostProcessingQuery_loop_append c h lib names sel m pre ((key, value) :: post)
    _ _ hpre
  unfold PostProcessingQuery_initial at hloop
  simp only [PostProcessingQuery_status, PostProcessingQuery_ctor, hloop,
    PostProcessingQuery_loop, hentry, Option.map_some']

theorem PostProcessingQuery_sort_loop_not_string (c : VizConstants)
    (names : List (String × String)) (sel : SelectQuery) (m : AnalyticsQuery)
    (e : JsonValue) (rest : List JsonValue) (he : e.IsString = false) :
    ∀ (good : List JsonValue) (st : PostProcessingState),
      (∀ x ∈ good, ∃ str, x = JsonValue.string str ∧ get_column_field_datatype c m str ≠ "" ∧
        is_valid_sort_field sel str = true) →
      ∃ st1, PostProcessingQuery_sort_loop c names sel m (good ++ e :: rest) st = Ctl.ret st1 ∧
        st1.pp.status_details = EBADMSG_errno := by
  intro good
  induction good with
  | nil =>
    intro st _
    cases e with
    | string s => simp [JsonValue.IsString] at he
    | null => exact ⟨_, rfl, rfl⟩
    | bool b => exact ⟨_, rfl, rfl⟩
    | int n => exact ⟨_, rfl, rfl⟩
    | double t => exact ⟨_, rfl, rfl⟩
    | array xs => exact ⟨_, rfl, rfl⟩
    | object ms => exact ⟨_, rfl, rfl⟩
  | cons x good ih =>
    intro st hgood
    obtain ⟨str, hx, hdt, hvalid⟩ := hgood x (List.mem_cons_self _ _)
    subst hx
    have hdt2 : (get_column_field_datatype c m str == "") = false := by simpa using hdt
    simp only [List.cons_append, PostProcessingQuery_sort_loop, hdt2, hvalid]
    exact ih _ (fun y hy => hgood y (List.mem_cons_of_mem _ hy))

theorem PostProcessingQuery_filter_loop_append (h : QueryHeader) (lib : Library) :
    ∀ (good es : List JsonValue) (st st1 : PostProcessingState),
      PostProcessingQuery_filter_loop h lib good st = some (Ctl.next st1) →
      PostProcessingQuery_filter_loop h lib (good ++ es) st =
        PostProcessingQuery_filter_loop h lib es st1 := by
  intro good
  induction good with
  | nil =>
    intro es st st1 hrun
    simp only [PostProcessingQuery_filter_loop, Option.some.injEq, Ctl.next.injEq] at hrun
    subst hrun
    rfl
  | cons x good ih =>
    intro es st st1 hrun
    simp only [PostProcessingQuery_filter_loop, List.cons_append] at hrun ⊢
    split at hrun
    · rename_i nv vv ov hn hv ho
      split at hrun
      · exact absurd hrun (by simp)
      · split at hrun
        · exact absurd hrun (by simp)
        · split at hrun
          · exact absurd hrun (by simp)
          · rename_i c1 c2 c3
            rw [if_neg c1, if_neg c2, if_neg c3]
            split at hrun
            · rename_i name op hname hop
              split at hrun
              · exact absurd hrun (by simp)
              · rename_i c4
                rw [if_neg c4]
                exact ih es _ st1 hrun
            · exact absurd hrun (by simp)
    · exact absurd hrun (by simp)

theorem PostProcessingQuery_entry_sort_fields_not_array (c : VizConstants) (h : QueryHeader)
    (lib : Library) (names : List (String × String)) (sel : SelectQuery) (m : AnalyticsQuery)
    (value : String) (st : PostProcessingState) (d v : JsonValue)
    (hparse : lib.rapidjson_Parse (sort_fields_document value) = some d)
    (hmember : d.member "sort_fields" = some v) (hv : ∀ es, v ≠ JsonValue.array es) :
    PostProcessingQuery_entry c h lib names sel m QUERY_SORT_FIELDS value st =
      some (Ctl.ret st.parse_error) := by
  unfold sort_fields_document at hparse
  have h1 : (QUERY_SORT_FIELDS == QUERY_SORT_OP) = false := by decide
  have h2 : (QUERY_SORT_FIELDS == QUERY_LIMIT) = false := by decide
  simp only [PostProcessingQuery_entry, h1, h2, Bool.false_eq_true, if_false, beq_self_eq_true,
    if_true, hparse, hmember]

theorem PostProcessingQuery_entry_sort_fields_ret (c : VizConstants) (h : QueryHeader)
    (lib : Library) (names : List (String × String)) (sel : SelectQuery) (m : AnalyticsQuery)
    (value : String) (st st1 : PostProcessingState) (d : JsonValue) (elems : List JsonValue)
    (hparse : lib.rapidjson_Parse (sort_fields_document value) = some d)
    (hmember : d.member "sort_fields" = some (JsonValue.array elems))
    (hloop : PostProcessingQuery_sort_loop c names sel m elems st = Ctl.ret st1) :
    PostProcessingQuery_entry c h lib names sel m QUERY_SORT_FIELDS value st =
      some (Ctl.ret st1) := by
  unfold sort_fields_document at hparse
  have h1 : (QUERY_SORT_FIELDS == QUERY_SORT_OP) = false := by decide
  have h2 : (QUERY_SORT_FIELDS == QUERY_LIMIT) = false := by decide
  simp only [PostProcessingQuery_entry, h1, h2, Bool.false_eq_true, if_false, beq_self_eq_true,
    if_true, hparse, hmember, hloop]

theorem PostProcessingQuery_entry_filter_not_array (c : VizConstants) (h : QueryHeader)
    (lib : Library) (names : List (String × String)) (sel : SelectQuery) (m : AnalyticsQuery)
    (value : String) (st : PostProcessingState) (d v : JsonValue)
    (hparse : lib.rapidjson_Parse (filter_document value) = some d)
    (hmember : d.member "filter" = some v) (hv : ∀ es, v ≠ JsonValue.array es) :
    PostProcessingQuery_entry c h lib names sel m QUERY_FILTER value st =
      some (Ctl.ret st.parse_error) := by
  unfold filter_document at hparse
  have h1 : (QUERY_FILTER == QUERY_SORT_OP) = false := by decide
  have h2 : (QUERY_FILTER == QUERY_LIMIT) = false := by decide
  have h3 : (QUERY_FILTER == QUERY_SORT_FIELDS) = false := by decide
  simp only [PostProcessingQuery_entry, h1, h2, h3, Bool.false_eq_true, if_false,
    beq_self_eq_true, if_true, hparse, hmember]

theorem PostProcessingQuery_entry_filter_ret (c : VizConstants) (h : QueryHeader)
    (lib : Library) (names : List (String × String)) (sel : SelectQuery) (m : AnalyticsQuery)
    (value : String) (st st1 : PostProcessingState) (d : JsonValue) (elems : List JsonValue)
    (hparse : lib.rapidjson_Parse (filter_document value) = some d)
    (hmember : d.member "filter" = some (JsonValue.array elems))
    (hloop : PostProcessingQuery_filter_loop h lib elems st = some (Ctl.ret st1)) :
    PostProcessingQuery_entry c h lib names sel m QUERY_FILTER value st =
      some (Ctl.ret st1) := by
  unfold filter_document at hparse
  have h1 : (QUERY_FILTER == QUERY_SORT_OP) = false := by decide
  have h2 : (QUERY_FILTER == QUERY_LIMIT) = false := by decide
  have h3 : (QUERY_FILTER == QUERY_SORT_FIELDS) = false := by decide
  simp only [PostProcessingQuery_entry, h1, h2, h3, Bool.false_eq_true, if_false,
    beq_self_eq_true, if_true, hparse, hmember, hloop]

theorem PostProcessingQuery_filter_loop_missing_key (h : QueryHeader) (lib : Library)
    (ms : List (String × JsonValue)) (rest : List JsonValue) (st : PostProcessingState)
    (hms : ms.lookup WHERE_MATCH_NAME = none ∨ ms.lookup WHERE_MATCH_VALUE = none ∨
      ms.lookup WHERE_MATCH_OP = none) :
    PostProcessingQuery_filter_loop h lib (JsonValue.object ms :: rest) st =
      some (Ctl.ret st.invalidarg_error) := by
  simp only [PostProcessingQuery_filter_loop, JsonValue.member]
  cases hn : ms.lookup WHERE_MATCH_NAME <;> cases hv : ms.lookup WHERE_MATCH_VALUE <;>
    cases ho : ms.lookup WHERE_MATCH_OP <;>
    simp [hn, hv, ho, JsonValue.IsString, JsonValue.IsNumber] at hms ⊢

/-- C21 (amended): in the constructor of the post-processing stage, once the
entries before it have been read without error, a sort-fields clause or a result
filter that parses to a value other than an array ends the stage with the
parse-error status, and so does a sort-fields element that is not a string
(the elements before it being valid sort fields); a result-filter element that
is an object without one of the keys `name`, `value`, `op` (the elements before
it being accepted) ends the stage with the invalid-argument status. -/
theorem malformed_clause_status (c : VizConstants) (h : QueryHeader) (lib : Library)
    (names : List (String × String)) (sel : SelectQuery) (m : AnalyticsQuery)
    (pre post : List (String × String)) (value : String) (st : PostProcessingState)
    (hpre : PostProcessingQuery_loop c h lib names sel m pre (PostProcessingQuery_initial m) =
      some (Ctl.next st)) :
    (∀ d v, lib.rapidjson_Parse (sort_fields_document value) = some d →
      d.member "sort_fields" = some v → (∀ es, v ≠ JsonValue.array es) →
      PostProcessingQuery_status c h lib names sel (pre ++ (QUERY_SORT_FIELDS, value) :: post) m =
        some EBADMSG_errno) ∧
    (∀ d v, lib.rapidjson_Parse (filter_document value) = some d →
      d.member "filter" = some v → (∀ es, v ≠ JsonValue.array es) →
      PostProcessingQuery_status c h lib names sel (pre ++ (QUERY_FILTER, value) :: post) m =
        some EBADMSG_errno) ∧
    (∀ d good e rest, lib.rapidjson_Parse (sort_fields_document value) = some d →
      d.member "sort_fields" = some (JsonValue.array (good ++ e :: rest)) →
      (∀ x ∈ good, ∃ str, x = JsonValue.string str ∧ get_column_field_datatype c m str ≠ "" ∧
        is_valid_sort_field sel str = true) →
      e.IsString = false →
      PostProcessingQuery_status c h lib names sel (pre ++ (QUERY_SORT_FIELDS, value) :: post) m =
        some EBADMSG_errno) ∧
    (∀ d good ms rest st1, lib.rapidjson_Parse (filter_document value) = some d →
      d.member "filter" = some (JsonValue.array (good ++ JsonValue.object ms :: rest)) →
      PostProcessingQuery_filter_loop h lib good st = some (Ctl.next st1) →
      (ms.lookup WHERE_MATCH_NAME = none ∨ ms.lookup WHERE_MATCH_VALUE = none ∨
        ms.lookup WHERE_MATCH_OP = none) →
      PostProcessingQuery_status c h lib names sel (pre ++ (QUERY_FILTER, value) :: post) m =
        some EINVAL_errno) := by
  refine ⟨?_, ?_, ?_, ?_⟩
  · intro d v hparse hmember hv
    exact PostProcessingQuery_status_of_ret c h lib names sel m pre post _ value st _ hpre
      (PostProcessingQuery_entry_sort_fields_not_array c h lib names sel m value st d v
        hparse hmember hv)
  · intro d v hparse hmember hv
    exact PostProcessingQuery_status_of_ret c h lib names sel m pre post _ value st _ hpre
      (PostProcessingQuery_entry_filter_not_array c h lib names sel m value st d v
        hparse hmember hv)
  · intro d good e rest hparse hmember hgood he
    obtain ⟨st1, hloop, hst1⟩ :=
      PostProcessingQuery_sort_loop_not_string c names sel m e rest he good st hgood
    rw [← hst1]
    exact PostProcessingQuery_status_of_ret c h lib names sel m pre post _ value st _ hpre
      (PostProcessingQuery_entry_sort_fields_ret c h lib names sel m value st st1 d _
        hparse hmember hloop)
  · intro d good ms rest st1 hparse hmember hgood hms
    have hloop : PostProcessingQuery_filter_loop h lib (good ++ JsonValue.object ms :: rest) st =
        some (Ctl.ret st1.invalidarg_error) := by
      rw [PostProcessingQuery_filter_loop_append h lib good _ st st1 hgood]
      exact PostProcessingQuery_filter_loop_missing_key h lib ms rest st1 hms
    exact PostProcessingQuery_status_of_ret c h lib names sel m pre post _ value st _ hpre
      (PostProcessingQuery_entry_filter_ret c h lib names sel m value st _ d _
        hparse hmember hloop)

/-- C21, counterexample: on the sample message query whose result filter is
`[{"value":"x","op":1}]`, an element without the key `name`, the stage ends with
the invalid-argument status, which is not the parse-error status. -/
theorem missing_filter_key_is_invalid_argument :
    sample_missing_name_state.pp.status_details = EINVAL_errno ∧
    sample_missing_name_state.pp.status_details ≠ EBADMSG_errno := by
  decide

/-- The hypothesis of C21 holds for the sample message query after its entry
`end_time`: the sort-fields clauses `"Source"` and `["Source", 5]` and the result
filter `7` end the stage with the parse-error status, the result filter
`[{"value":"x","op":1}]` with the invalid-argument status. -/
theorem malformed_clause_status_witness :
    PostProcessingQuery_loop sample_constants sample_header sample_malformed_library []
      sample_stages.selectquery sample_main_query [("end_time", "100")]
      (PostProcessingQuery_initial sample_main_query) = some (Ctl.next sample_after_end_time) ∧
    PostProcessingQuery_status sample_constants sample_header sample_malformed_library []
      sample_stages.selectquery (sample_sorted_query "\"MessageTable\"" "\"Source\"")
      sample_main_query = some EBADMSG_errno ∧
    PostProcessingQuery_status sample_constants sample_header sample_malformed_library []
      sample_stages.selectquery (sample_filtered_query "\"MessageTable\"" "7")
      sample_main_query = some EBADMSG_errno ∧
    PostProcessingQuery_status sample_constants sample_header sample_malformed_library []
      sample_stages.selectquery (sample_sorted_query "\"MessageTable\"" "[\"Source\", 5]")
      sample_main_query = some EBADMSG_errno ∧
    PostProcessingQuery_status sample_constants sample_header sample_malformed_library []
      sample_stages.selectquery
      (sample_filtered_query "\"MessageTable\"" "[\x7b\"value\":\"x\",\"op\":1\x7d]")
      sample_main_query = some EINVAL_errno :=
  ⟨by decide,
   (malformed_clause_status sample_constants sample_header sample_malformed_library []
      sample_stages.selectquery sample_main_query [("end_time", "100")]
      [("start_time", "0"), ("table", "\"MessageTable\"")] "\"Source\"" sample_after_end_time
      (by decide)).1
      (JsonValue.object [("sort_fields", JsonValue.string "Source")]) (JsonValue.string "Source")
      rfl rfl (by intro es; simp),
   (malformed_clause_status sample_constants sample_header sample_malformed_library []
      sample_stages.selectquery sample_main_query [("end_time", "100")]
      [("start_time", "0"), ("table", "\"MessageTable\"")] "7" sample_after_end_time
      (by decide)).2.1
      (JsonValue.object [("filter", JsonValue.int 7)]) (JsonValue.int 7)
      rfl rfl (by intro es; simp),
   (malformed_clause_status sample_constants sample_header sample_malformed_library []
      sample_stages.selectquery sample_main_query [("end_time", "100")]
      [("start_time", "0"), ("table", "\"MessageTable\"")] "[\"Source\", 5]"
      sample_after_end_time (by decide)).2.2.1
      (JsonValue.object [("sort_fields",
        JsonValue.array [JsonValue.string "Source", JsonValue.int 5])])
      [JsonValue.string "Source"] (JsonValue.int 5) [] rfl rfl
      (by intro x hx
          simp only [List.mem_singleton] at hx
          subst hx
          exact ⟨"Source", rfl, by decide, by decide⟩)
      (by decide),
   (malformed_clause_status sample_constants sample_header sample_malformed_library []
      sample_stages.selectquery sample_main_query [("end_time", "100")]
      [("start_time", "0"), ("table", "\"MessageTable\"")]
      "[\x7b\"value\":\"x\",\"op\":1\x7d]" sample_after_end_time (by decide)).2.2.2
      (JsonValue.object [("filter", JsonValue.array [JsonValue.object
        [("value", JsonValue.string "x"), ("op", JsonValue.int 1)]])])
      [] [("value", JsonValue.string "x"), ("op", JsonValue.int 1)] [] sample_after_end_time
      rfl rfl (by decide) (Or.inl rfl)⟩

/-! ## The merge functions -/

/-- C22: when `status_details` of the query object is not 0, `merge_processing`
and `final_merge_processing` return false without calling the merge function of
the post-processing stage, and leave the output buffer and the object as they
were; when it is 0 and the stage has been constructed, they call that merge
function, return its value, leave the output buffer it leaves, and
`status_details` stays 0. -/
theorem merge_short_circuits_on_error (mg : PostProcessingMerge) (q : AnalyticsQuery)
    (input : BufferT) (inputs : List BufferT) (output : BufferT) :
    (q.status_details ≠ 0 →
      merge_processing mg q input output =
        some { object := q, returned := false, output := output, merger_called := false } ∧
      final_merge_processing mg q inputs output =
        some { object := q, returned := false, output := output, merger_called := false }) ∧
    (∀ pp, q.status_details = 0 → q.postprocess_ = some pp →
      merge_processing mg q input output =
        some { object := q, returned := (mg.merge_processing pp input output).1,
               output := (mg.merge_processing pp input output).2, merger_called := true } ∧
      final_merge_processing mg q inputs output =
        some { object := q, returned := (mg.final_merge_processing pp inputs output).1,
               output := (mg.final_merge_processing pp inputs output).2,
               merger_called := true }) := by
  refine ⟨?_, ?_⟩
  · intro hne
    simp [merge_processing, final_merge_processing, hne]
  · intro pp h0 hpp
    cases q
    simp only [] at h0 hpp
    subst h0 hpp
    simp [merge_processing, final_merge_processing]

/-- Both cases of C22 occur: the sample query object with the status `EIO` is
left alone by both functions, and with the status 0 both return what the sample
merge function returns. -/
theorem merge_short_circuits_on_error_witness :
    ({ sample_merging_query 0 with status_details := EIO_errno } : AnalyticsQuery).status_details
      ≠ 0 ∧
    final_merge_processing sample_merge { sample_merging_query 0 with status_details := EIO_errno }
      sample_buffers sample_output =
        some { object := { sample_merging_query 0 with status_details := EIO_errno },
               returned := false, output := sample_output, merger_called := false } ∧
    (sample_merging_query 0).status_details = 0 ∧
    (sample_merging_query 0).postprocess_ = some (sample_postprocess 0) ∧
    final_merge_processing sample_merge (sample_merging_query 0) sample_buffers sample_output =
        some { object := sample_merging_query 0, returned := true,
               output := { first := "FlowSeriesTable", second := [sample_row "a" "5"] },
               merger_called := true } :=
  ⟨by decide,
   ((merge_short_circuits_on_error sample_merge
      { sample_merging_query 0 with status_details := EIO_errno }
      sample_output sample_buffers sample_output).1 (by decide)).2,
   by decide, by decide,
   ((merge_short_circuits_on_error sample_merge (sample_merging_query 0)
      sample_output sample_buffers sample_output).2 (sample_postprocess 0)
      (by decide) (by decide)).2⟩

theorem merge_rows_head_eq {α : Type} (le : α → α → Bool) (x : α) (xs : List α)
    (k : List α → List α) (hk : ∀ ys, k ys = List.merge xs ys le) :
    ∀ ys, merge_rows_head le x xs k ys = List.merge (x :: xs) ys le := by
  intro ys
  induction ys with
  | nil => simp [merge_rows_head]
  | cons y ys ih =>
    simp only [merge_rows_head, List.merge, hk, ih]

theorem merge_rows_eq_merge {α : Type} (le : α → α → Bool) :
    ∀ xs ys : List α, merge_rows le xs ys = List.merge xs ys le := by
  intro xs
  induction xs with
  | nil => intro ys; simp [merge_rows]
  | cons x xs ih =>
    intro ys
    simp only [merge_rows]
    exact merge_rows_head_eq le x xs _ ih ys

theorem row_le_total (numeric_value : String → Int) (h : QueryHeader) (pp : PostProcessingQuery)
    (a b : List (String × String)) :
    (row_le numeric_value h pp a b || row_le numeric_value h pp b a) = true := by
  unfold row_le
  split
  · simpa using le_total (sort_key numeric_value pp.sort_fields a) _
  · simpa using le_total (sort_key numeric_value pp.sort_fields b) _

theorem row_le_trans (numeric_value : String → Int) (h : QueryHeader) (pp : PostProcessingQuery)
    (a b c : List (String × String)) (hab : row_le numeric_value h pp a b = true)
    (hbc : row_le numeric_value h pp b c = true) : row_le numeric_value h pp a c = true := by
  unfold row_le at hab hbc ⊢
  split
  · rename_i hdir
    simp only [hdir, if_true, decide_eq_true_eq] at hab hbc ⊢
    exact le_trans hab hbc
  · rename_i hdir
    simp only [hdir, Bool.false_eq_true, if_false, decide_eq_true_eq] at hab hbc ⊢
    exact le_trans hbc hab

theorem merged_rows_sorted (numeric_value : String → Int) (h : QueryHeader)
    (pp : PostProcessingQuery) :
    ∀ (inputs : List BufferT) (acc : List (List (String × String))),
      List.Pairwise (fun a b => row_le numeric_value h pp a b = true) acc →
      (∀ b ∈ inputs, List.Pairwise (fun x y => row_le numeric_value h pp x y = true) b.second) →
      List.Pairwise (fun a b => row_le numeric_value h pp a b = true)
        (inputs.foldl (fun acc b => merge_rows (row_le numeric_value h pp) acc b.second) acc) := by
  intro inputs
  induction inputs with
  | nil => intro acc hacc _; exact hacc
  | cons b rest ih =>
    intro acc hacc hin
    simp only [List.foldl_cons]
    apply ih
    · rw [merge_rows_eq_merge]
      exact List.sorted_merge (row_le_trans numeric_value h pp) (row_le_total numeric_value h pp)
        acc b.second hacc (hin b (List.mem_cons_self _ _))
    · exact fun b' hb' => hin b' (List.mem_cons_of_mem _ hb')

theorem merged_rows_perm (numeric_value : String → Int) (h : QueryHeader)
    (pp : PostProcessingQuery) :
    ∀ (inputs : List BufferT) (acc : List (List (String × String))),
      List.Perm
        (inputs.foldl (fun acc b => merge_rows (row_le numeric_value h pp) acc b.second) acc)
        (acc ++ (inputs.map (fun b => b.second)).flatten) := by
  intro inputs
  induction inputs with
  | nil => intro acc; simp
  | cons b rest ih =>
    intro acc
    simp only [List.foldl_cons, List.map_cons, List.flatten_cons]
    refine (ih _).trans ?_
    rw [merge_rows_eq_merge, ← List.append_assoc]
    exact List.Perm.append_right _ (List.merge_perm_append _)

/-- C25: on the merge of the post-processing stage written after the
specification, for a query object with status 0 whose stage is sorted, and for
input buffers each sorted under the composite key of the sort fields in the
direction of the query, `final_merge_processing` returns an output buffer whose
rows are sorted under the same key; with `limit = 0` the rows are exactly the
rows of all inputs (a permutation of their concatenation), and with a nonzero
limit they are the first `limit` rows of that merge, so at most `limit`. -/
theorem final_merge_sorted_and_limited (numeric_value : String → Int) (h : QueryHeader)
    (q : AnalyticsQuery) (pp : PostProcessingQuery) (inputs : List BufferT) (output : BufferT)
    (h0 : q.status_details = 0) (hpp : q.postprocess_ = some pp) (hsorted : pp.sorted = true)
    (hin : ∀ b ∈ inputs,
      List.Pairwise (fun x y => row_le numeric_value h pp x y = true) b.second) :
    ∃ r, final_merge_processing (specified_merge numeric_value h) q inputs output = some r ∧
      r.merger_called = true ∧
      List.Pairwise (fun x y => row_le numeric_value h pp x y = true) r.output.second ∧
      List.Pairwise (fun x y => row_le numeric_value h pp x y = true)
        (merged_rows numeric_value h pp inputs) ∧
      List.Perm (merged_rows numeric_value h pp inputs) (inputs.map (fun b => b.second)).flatten ∧
      (pp.limit = 0 → r.output.second = merged_rows numeric_value h pp inputs) ∧
      (pp.limit ≠ 0 →
        r.output.second = (merged_rows numeric_value h pp inputs).take pp.limit.toNat ∧
        r.output.second.length =
          min pp.limit.toNat ((inputs.map (fun b => b.second.length)).sum)) := by
  have hs : List.Pairwise (fun x y => row_le numeric_value h pp x y = true)
      (merged_rows numeric_value h pp inputs) := by
    unfold merged_rows
    rw [if_pos hsorted]
    exact merged_rows_sorted numeric_value h pp inputs [] List.Pairwise.nil hin
  have hperm : List.Perm (merged_rows numeric_value h pp inputs)
      (inputs.map (fun b => b.second)).flatten := by
    unfold merged_rows
    rw [if_pos hsorted]
    simpa using merged_rows_perm numeric_value h pp inputs []
  have hlen : (merged_rows numeric_value h pp inputs).length =
      (inputs.map (fun b => b.second.length)).sum := by
    rw [hperm.length_eq, List.length_flatten, List.map_map]
    rfl
  have hrun : final_merge_processing (specified_merge numeric_value h) q inputs output =
      some { object := q, returned := true,
             output := { output with
               second := limit_rows pp (merged_rows numeric_value h pp inputs) },
             merger_called := true } := by
    cases q
    simp only [] at h0 hpp
    subst h0 hpp
    simp [final_merge_processing, specified_merge, PostProcessingQuery_final_merge_processing]
  refine ⟨_, hrun, rfl, ?_, hs, hperm, ?_, ?_⟩
  · simp only [limit_rows]
    split
    · exact hs
    · exact List.Pairwise.sublist (List.take_sublist _ _) hs
  · intro hl
    simp [limit_rows, hl]
  · intro hl
    simp [limit_rows, hl, List.length_take, hlen]

/-- The hypotheses of C25 hold for the three sample buffers sorted by `bytes`,
then `Source`: without a limit the merge keeps the five rows in order, and with
the limit 2 it keeps the first two. -/
theorem final_merge_sorted_and_limited_witness :
    (sample_merging_query 2).status_details = 0 ∧
    (sample_merging_query 2).postprocess_ = some (sample_postprocess 2) ∧
    (sample_postprocess 2).sorted = true ∧
    (∀ b ∈ sample_buffers, List.Pairwise
      (fun x y => row_le (fun s => (sample_decimal s : Int)) sample_header (sample_postprocess 2)
        x y = true) b.second) ∧
    (final_merge_processing (specified_merge (fun s => (sample_decimal s : Int)) sample_header)
      (sample_merging_query 2) sample_buffers sample_output).map (fun r => r.output.second) =
      some [sample_row "a" "5", sample_row "c" "7"] ∧
    (final_merge_processing (specified_merge (fun s => (sample_decimal s : Int)) sample_header)
      (sample_merging_query 0) sample_buffers sample_output).map (fun r => r.output.second) =
      some [sample_row "a" "5", sample_row "c" "7", sample_row "a" "30", sample_row "b" "30",
            sample_row "d" "100"] ∧
    ∃ r, final_merge_processing (specified_merge (fun s => (sample_decimal s : Int)) sample_header)
        (sample_merging_query 2) sample_buffers sample_output = some r ∧
      r.output.second.length = 2 := by
  obtain ⟨r, hr, _, _, _, _, _, hlim⟩ := final_merge_sorted_and_limited
    (fun s => (sample_decimal s : Int)) sample_header (sample_merging_query 2)
    (sample_postprocess 2) sample_buffers sample_output (by decide) (by decide) (by decide)
    (by decide)
  exact ⟨by decide, by decide, by decide, by decide, by decide, by decide, r, hr,
    (hlim (by decide)).2.trans (by decide)⟩

/-! ## The parallelization test and the lower bound of the time slice -/

/-- C24: the flow-series table and the object-value table being different
tables, `can_parallelize_query` returns false iff the table is the flow-series
table, the select does not provide a time series and `flow_count` is among the
select column fields, or the table is the object-value table; it returns true
for every other query. -/
theorem can_parallelize_query_false_iff (c : VizConstants) (sel : SelectQuery)
    (q : AnalyticsQuery) (hne : c.FLOW_SERIES_TABLE ≠ c.OBJECT_VALUE_TABLE) :
    (can_parallelize_query c sel q = false ↔
      (q.table = c.FLOW_SERIES_TABLE ∧ sel.provide_timeseries = false ∧
        SELECT_FLOW_COUNT ∈ sel.select_column_fields) ∨
      q.table = c.OBJECT_VALUE_TABLE) ∧
    (can_parallelize_query c sel q = true ↔
      ¬ ((q.table = c.FLOW_SERIES_TABLE ∧ sel.provide_timeseries = false ∧
          SELECT_FLOW_COUNT ∈ sel.select_column_fields) ∨
        q.table = c.OBJECT_VALUE_TABLE)) := by
  have hmem : sel.is_present_in_select_column_fields SELECT_FLOW_COUNT = true ↔
      SELECT_FLOW_COUNT ∈ sel.select_column_fields := by
    simp [SelectQuery.is_present_in_select_column_fields]
  have key : can_parallelize_query c sel q = false ↔
      (q.table = c.FLOW_SERIES_TABLE ∧ sel.provide_timeseries = false ∧
        SELECT_FLOW_COUNT ∈ sel.select_column_fields) ∨
      q.table = c.OBJECT_VALUE_TABLE := by
    rw [← hmem]
    unfold can_parallelize_query
    by_cases hfs : q.table = c.FLOW_SERIES_TABLE
    · have hov : q.table ≠ c.OBJECT_VALUE_TABLE := fun hh => hne (hfs ▸ hh)
      cases hts : sel.provide_timeseries <;>
        cases hfc : sel.is_present_in_select_column_fields SELECT_FLOW_COUNT <;>
        simp [hfs, hne]
    · have hne2 : ¬ c.OBJECT_VALUE_TABLE = c.FLOW_SERIES_TABLE := fun hh => hne hh.symm
      by_cases hov : q.table = c.OBJECT_VALUE_TABLE
      · simp [hov, hne2]
      · simp [hfs, hov]
  refine ⟨key, ?_⟩
  rw [← key]
  simp

/-- The hypothesis of C24 holds for the sample constants, where the flow-count
query on the flow-series table cannot be run in parallel and the sample message
query can. -/
theorem can_parallelize_query_false_iff_witness :
    sample_constants.FLOW_SERIES_TABLE ≠ sample_constants.OBJECT_VALUE_TABLE ∧
    can_parallelize_query sample_constants sample_flow_count_stages.selectquery
      { table := "FlowSeriesTable" } = false ∧
    can_parallelize_query sample_constants sample_stages.selectquery
      { table := "MessageTable" } = true :=
  ⟨by decide,
   ((can_parallelize_query_false_iff sample_constants sample_flow_count_stages.selectquery
      { table := "FlowSeriesTable" } (by decide)).1).2
      (Or.inl ⟨by decide, by decide, by decide⟩),
   ((can_parallelize_query_false_iff sample_constants sample_stages.selectquery
      { table := "MessageTable" } (by decide)).2).2 (by decide)⟩

theorem xor_two_le (r : Nat) : 2 ^^^ r ≤ r + 2 := by
  have h1 : (2 ^^^ r) / 2 = 1 ^^^ (r / 2) := by
    rw [Nat.xor_div_two]
  have h2 : (2 ^^^ r) % 2 = (2 + r) % 2 := Nat.xor_mod_two_eq
  have h3 : (1 ^^^ (r / 2)) / 2 = r / 2 / 2 := by
    rw [Nat.xor_div_two]
    simp
  have h4 : (1 ^^^ (r / 2)) % 2 = (1 + r / 2) % 2 := Nat.xor_mod_two_eq
  omega

theorem add_two_lt_two_pow (r : Nat) (hr : 3 ≤ r) : r + 2 < 2 ^ r := by
  induction r with
  | zero => omega
  | succ n ih =>
    by_cases hn : n = 2
    · subst hn; decide
    · have := ih (by omega)
      rw [Nat.pow_succ]
      omega

/-- C26: the lower bound that `Init` applies to the time slice, the C++
expression `2^RowTimeInBits`, is the exclusive or of 2 and `RowTimeInBits`: for
every `RowTimeInBits` it is at most `RowTimeInBits + 2`, it is never 2 to the
power `RowTimeInBits`, it is 0 when `RowTimeInBits` is 2, and the time slice
after the bound is the larger of the time slice and this value. -/
theorem row_time_bound_is_small (c : VizConstants) (time_slice : Nat) :
    row_time_bound c ≤ c.RowTimeInBits + 2 ∧
    row_time_bound c ≠ 2 ^ c.RowTimeInBits ∧
    (c.RowTimeInBits = 2 → row_time_bound c = 0) ∧
    (c.RowTimeInBits + 2 < U64 → row_time_bound c = Nat.xor 2 c.RowTimeInBits) ∧
    time_slice_floored c time_slice = max time_slice (row_time_bound c) := by
  have hle : row_time_bound c ≤ c.RowTimeInBits + 2 :=
    le_trans (Nat.mod_le _ _) (xor_two_le c.RowTimeInBits)
  refine ⟨hle, ?_, ?_, ?_, ?_⟩
  · by_cases hr : 3 ≤ c.RowTimeInBits
    · have := add_two_lt_two_pow c.RowTimeInBits hr
      omega
    · have hcases : c.RowTimeInBits = 0 ∨ c.RowTimeInBits = 1 ∨ c.RowTimeInBits = 2 := by omega
      unfold row_time_bound
      rcases hcases with h0 | h1 | h2
      · rw [h0]; decide
      · rw [h1]; decide
      · rw [h2]; decide
  · intro h2
    unfold row_time_bound
    rw [h2]
    decide
  · intro hlt
    unfold row_time_bound
    exact Nat.mod_eq_of_lt (lt_of_le_of_lt (xor_two_le c.RowTimeInBits) hlt)
  · unfold time_slice_floored
    split
    · rename_i hlt
      exact (max_eq_right (Nat.le_of_lt hlt)).symm
    · rename_i hge
      exact (max_eq_left (Nat.le_of_not_lt hge)).symm

/-! ## `merge_needed` after `Init` -/

theorem PostProcessingQuery_loop_merge_needed (c : VizConstants) (h : QueryHeader)
    (lib : Library) (names : List (String × String)) (sel : SelectQuery) (m : AnalyticsQuery) :
    ∀ (data : List (String × String)) (st st1 : PostProcessingState),
      PostProcessingQuery_loop c h lib names sel m data st = some (Ctl.next st1) →
      st1.merge_needed =
        (st.merge_needed ||
          data.any (fun kv => kv.1 == QUERY_SORT_OP || kv.1 == QUERY_LIMIT)) := by
  intro data
  induction data with
  | nil =>
    intro st st1 hrun
    simp only [PostProcessingQuery_loop, Option.some.injEq, Ctl.next.injEq] at hrun
    subst hrun
    simp
  | cons kv rest ih =>
    intro st st1 hrun
    obtain ⟨key, value⟩ := kv
    simp only [PostProcessingQuery_loop] at hrun
    split at hrun
    · exact absurd hrun (by simp)
    · exact absurd hrun (by simp)
    · rename_i st2 h2
      obtain ⟨_, _, _, e4⟩ := PostProcessingQuery_entry_next c h lib names sel m key value st _ h2
      rw [ih _ _ hrun, e4]
      simp only [List.any_cons, Bool.or_assoc]

theorem PostProcessingQuery_ctor_merge_needed (c : VizConstants) (h : QueryHeader)
    (lib : Library) (names : List (String × String)) (sel : SelectQuery) (m : AnalyticsQuery)
    (data : List (String × String)) (st : PostProcessingState)
    (hst : PostProcessingQuery_ctor c h lib names sel data m = some st)
    (h0 : st.pp.status_details = 0) :
    st.merge_needed =
      (m.merge_needed || data.any (fun kv => kv.1 == QUERY_SORT_OP || kv.1 == QUERY_LIMIT)) := by
  unfold PostProcessingQuery_ctor at hst
  simp only [] at hst
  split at hst
  · exact absurd hst (by simp)
  · rename_i st1 hloop
    simp only [Option.some.injEq] at hst
    subst hst
    exact absurd h0 (PostProcessingQuery_loop_ret c h lib names sel m data _ _ hloop)
  · rename_i st1 hloop
    have hm := PostProcessingQuery_loop_merge_needed c h lib names sel m data _ _ hloop
    simp only [] at hm
    split at hst
    · simp only [Option.some.injEq] at hst
      subst hst
      exact hm
    · simp only [Option.some.injEq] at hst
      subst hst
      exact hm

theorem object_table_redirect_merge_needed (c : VizConstants) (sel : SelectQuery)
    (q : AnalyticsQuery) :
    (object_table_redirect c sel q).merge_needed = q.merge_needed := by
  unfold object_table_redirect
  split <;> rfl

theorem Init_time_slice_merge_needed {c : VizConstants} {h : QueryHeader} {sel : SelectQuery}
    {q0 p : AnalyticsQuery} (hp : Init_time_slice c h sel q0 = some p) :
    p.merge_needed =
      (q0.merge_needed ||
        (can_parallelize_table c sel p.table && parallel_merge_table c h sel p.table)) := by
  obtain ⟨_, _, _, _, s5, _, _, _, _, _, _, _, s13, s14⟩ := Init_time_slice_spec hp
  rw [s5, ← can_parallelize_query_table c sel q0, ← parallel_merge_needed_table c h sel q0]
  by_cases hc : can_parallelize_query c sel q0 = true
  · rw [(s13 hc).2.2, hc]
    simp
  · have hc2 : can_parallelize_query c sel q0 = false := by simpa using hc
    rw [(s14 hc2).2, hc2]
    simp

theorem Init_stages_merge_needed {c : VizConstants} {h : QueryHeader} {lib : Library}
    {s : Stages} {data : List (String × String)} {q0 p : AnalyticsQuery}
    (hp : Init_stages c h lib s data q0 = some (Ctl.next p)) :
    p.merge_needed =
      (q0.merge_needed ||
        data.any (fun kv => kv.1 == QUERY_SORT_OP || kv.1 == QUERY_LIMIT) ||
        (can_parallelize_table c s.selectquery p.table &&
          parallel_merge_table c h s.selectquery p.table)) := by
  unfold Init_stages at hp
  simp only [] at hp
  by_cases hw : s.wherequery.status_details = 0
  · by_cases hs : s.selectquery.status_details = 0
    · simp only [hw, hs, ne_eq, not_true_eq_false, if_false] at hp
      split at hp
      · exact absurd hp (by simp)
      · split at hp
        · exact absurd hp (by simp)
        · rename_i st hst
          split at hp
          · exact absurd hp (by simp)
          · rename_i hpp
            split at hp
            · exact absurd hp (by simp)
            · rename_i q5 hq5
              simp only [Option.some.injEq, Ctl.next.injEq] at hp
              subst hp
              have hpp0 : st.pp.status_details = 0 := by simpa using hpp
              have hm := PostProcessingQuery_ctor_merge_needed c h lib _ _ _ data st hst hpp0
              rw [object_table_redirect_merge_needed] at hm
              simp only [] at hm
              have hts := Init_time_slice_merge_needed hq5
              simp only [] at hts
              rw [hts, hm]
    · simp [hw, hs] at hp
  · simp [hw] at hp

theorem Init_parse_merge_needed {c : VizConstants} {h : QueryHeader} {lib : Library}
    {s : Stages} {this : AnalyticsQuery} {db_if : Bool} {qid : String}
    {data : List (String × String)} {ast : Nat} {p : AnalyticsQuery}
    (hp : Init_parse c h lib s this db_if qid data ast = some (Ctl.next p)) :
    p.merge_needed =
      (this.merge_needed ||
        data.any (fun kv => kv.1 == QUERY_SORT_OP || kv.1 == QUERY_LIMIT) ||
        (can_parallelize_table c s.selectquery p.table &&
          parallel_merge_table c h s.selectquery p.table)) := by
  unfold Init_parse at hp
  simp only [] at hp
  split at hp
  · exact absurd hp (by simp)
  · split at hp
    · exact absurd hp (by simp)
    · split at hp
      · exact absurd hp (by simp)
      · split at hp
        · exact absurd hp (by simp)
        · split at hp
          · exact absurd hp (by simp)
          · split at hp
            · exact absurd hp (by simp)
            · have hm := Init_stages_merge_needed hp
              simp only [] at hm
              exact hm

theorem any_key_iff (data : List (String × String)) :
    data.any (fun kv => kv.1 == QUERY_SORT_OP || kv.1 == QUERY_LIMIT) = true ↔
      QUERY_SORT_OP ∈ data.map Prod.fst ∨ QUERY_LIMIT ∈ data.map Prod.fst := by
  simp only [List.any_eq_true, Bool.or_eq_true, beq_iff_eq, List.mem_map]
  constructor
  · rintro ⟨kv, hkv, hk | hk⟩
    · exact Or.inl ⟨kv, hkv, hk⟩
    · exact Or.inr ⟨kv, hkv, hk⟩
  · rintro (⟨kv, hkv, hk⟩ | ⟨kv, hkv, hk⟩)
    · exact ⟨kv, hkv, Or.inl hk⟩
    · exact ⟨kv, hkv, Or.inr hk⟩

/-- C23: after a successful `Init` on an object whose `merge_needed` is false, as
the constructors leave it, `merge_needed` is true iff the raw query has a
sort-order key, or has a limit key, or the query is parallelizable and its table
is the flow table or the flow-series table with a stats or flow-tuple-stats
select; `get_query_details` reports that value (and returns, given enough fuel,
when the time slice is positive on a non-empty range and nothing wraps); in
particular a query on the message table (which is neither flow table) with no
sort-order and no limit key reports false. -/
theorem merge_needed_iff (c : VizConstants) (h : QueryHeader) (lib : Library) (s : Stages)
    (this : AnalyticsQuery) (db_if : Bool) (qid : String) (data : List (String × String))
    (ast : Nat) (q : AnalyticsQuery)
    (hthis : this.merge_needed = false)
    (hq : Init c h lib s this db_if qid data ast = some q) (h0 : q.status_details = 0) :
    (q.merge_needed = true ↔
      QUERY_SORT_OP ∈ data.map Prod.fst ∨ QUERY_LIMIT ∈ data.map Prod.fst ∨
      (can_parallelize_query c s.selectquery q = true ∧
        parallel_merge_needed c h s.selectquery q = true)) ∧
    (∀ fuel chunk_sizes d, get_query_details q fuel chunk_sizes = some d →
      d.is_merge_needed = q.merge_needed) ∧
    ((q.original_from_time < q.original_end_time → 1 ≤ q.time_slice) →
      q.original_end_time + q.time_slice < U64 →
      ∀ fuel, (q.original_end_time - q.original_from_time) / q.time_slice + 1 < fuel →
        ∃ d, get_query_details q fuel [] = some d ∧ d.is_merge_needed = q.merge_needed) ∧
    (q.table = c.COLLECTOR_GLOBAL_TABLE → c.COLLECTOR_GLOBAL_TABLE ≠ c.FLOW_TABLE →
      c.COLLECTOR_GLOBAL_TABLE ≠ c.FLOW_SERIES_TABLE →
      QUERY_SORT_OP ∉ data.map Prod.fst → QUERY_LIMIT ∉ data.map Prod.fst →
      q.merge_needed = false) := by
  obtain ⟨p, hp, rfl⟩ := Init_success hq h0
  obtain ⟨_, _, _, _, _, _, wm, wtab, _⟩ := Init_window_fields p
  have hm := Init_parse_merge_needed hp
  rw [hthis, Bool.false_or] at hm
  have hiff : (Init_window p).merge_needed = true ↔
      QUERY_SORT_OP ∈ data.map Prod.fst ∨ QUERY_LIMIT ∈ data.map Prod.fst ∨
      (can_parallelize_query c s.selectquery (Init_window p) = true ∧
        parallel_merge_needed c h s.selectquery (Init_window p) = true) := by
    rw [wm, hm, can_parallelize_query_table, parallel_merge_needed_table, wtab,
      Bool.or_eq_true, any_key_iff, Bool.and_eq_true, or_assoc]
  refine ⟨hiff, ?_, ?_, ?_⟩
  · intro fuel chunk_sizes d hd
    simp only [get_query_details, h0, if_true] at hd
    split at hd
    · exact absurd hd (by simp)
    · simp only [Option.some.injEq] at hd
      subst hd
      rfl
  · intro hts hov fuel hf
    exact ⟨_, get_query_details_success (Init_window p) h0 hts hov fuel hf, rfl⟩
  · intro htab hne1 hne2 hsort hlimit
    cases hmn : (Init_window p).merge_needed
    · rfl
    · rcases hiff.1 hmn with hh | hh | ⟨_, hh⟩
      · exact absurd hh hsort
      · exact absurd hh hlimit
      · rw [parallel_merge_needed_table, htab] at hh
        simp [parallel_merge_table, hne1, hne2] at hh

/-- The hypotheses of C23 hold for the sample message query sorted by `Source`:
it has a sort-fields clause, which makes the stage sorted, and neither a
sort-order nor a limit key, and `merge_needed` is false. -/
theorem merge_needed_iff_witness :
    (sample_this 0 1).merge_needed = false ∧
    sample_sort_source_run = some sample_sort_source_result ∧
    sample_sort_source_result.status_details = 0 ∧
    sample_sort_source_result.table = sample_constants.COLLECTOR_GLOBAL_TABLE ∧
    (sample_sort_source_result.postprocess_.map (fun pp => pp.sorted)) = some true ∧
    sample_sort_source_result.merge_needed = false ∧
    get_query_details sample_sort_source_result 10 [] =
      some { is_merge_needed := false, chunk_sizes := [100], parse_status := 0 } :=
  ⟨by decide, by decide, by decide, by decide, by decide,
   (merge_needed_iff sample_constants sample_header (sample_json_library 5000) sample_stages
      (sample_this 0 1) true "q" (sample_sorted_query "\"MessageTable\"" "[\"Source\"]") 0
      sample_sort_source_result (by decide) (by decide) (by decide)).2.2.2
      (by decide) (by decide) (by decide) (by decide) (by decide),
   by decide⟩

/-! ## The time slice on the parallelizable path -/

theorem time_slice_unfloored_val (from_time end_time : Nat) (total_parallel_batches : Int)
    (hle : from_time ≤ end_time) (hend : end_time + 1 < U64)
    (hn : 1 ≤ total_parallel_batches) (hn31 : total_parallel_batches < (2 : Int) ^ 31) :
    time_slice_unfloored from_time end_time total_parallel_batches =
      (end_time - from_time) / total_parallel_batches.toNat + 1 := by
  have hconv : toU64 total_parallel_batches = total_parallel_batches.toNat := by
    unfold toU64
    omega
  have hsub : u64_sub end_time from_time = end_time - from_time :=
    u64_sub_eq hle (by omega)
  have hdiv : (end_time - from_time) / total_parallel_batches.toNat ≤ end_time - from_time :=
    Nat.div_le_self _ _
  unfold time_slice_unfloored
  rw [hconv, hsub, u64_add_eq (by omega)]

theorem time_slice_floored_bounds (c : VizConstants) (ts : Nat) :
    ts ≤ time_slice_floored c ts ∧ time_slice_floored c ts ≤ ts + (c.RowTimeInBits + 2) := by
  have hb : row_time_bound c ≤ c.RowTimeInBits + 2 :=
    le_trans (Nat.mod_le _ _) (xor_two_le c.RowTimeInBits)
  unfold time_slice_floored
  split <;> omega

theorem time_slice_adjusted_bounds (sel : SelectQuery) (ts : Nat)
    (hnw : ts + sel.granularity < U64) :
    ts ≤ time_slice_adjusted sel ts ∧ time_slice_adjusted sel ts ≤ ts + sel.granularity := by
  have hmod : sel.granularity % U64 = sel.granularity := Nat.mod_eq_of_lt (by omega)
  unfold time_slice_adjusted
  rw [hmod]
  split
  · rename_i hcond
    have hg : 0 < sel.granularity := by
      simp only [Bool.and_eq_true, bne_iff_ne, ne_eq] at hcond
      omega
    obtain ⟨hb1, hb2⟩ := round_up_bounds ts sel.granularity hg
    split
    · omega
    · have h1 : ts / sel.granularity + 1 < U64 :=
        lt_of_le_of_lt (Nat.le_mul_of_pos_right _ hg) (by omega)
      rw [u64_add_eq h1, u64_mul_eq (by omega)]
      exact ⟨hb1, hb2⟩
  · omega

theorem quotient_succ_mul_gt (d n : Nat) (hn : 0 < n) : d < (d / n + 1) * n := by
  have hdm := Nat.div_add_mod d n
  have hr := Nat.mod_lt d hn
  rw [Nat.add_one_mul, Nat.mul_comm]
  generalize n * (d / n) = P at *
  omega

/-- C27 (amended): after a successful `Init` on the parallelizable path, with
`original_from_time ≤ original_end_time`, a number of batches between 1 and the
largest `int`, and a range, row-time bound and granularity small enough for the
64-bit arithmetic not to wrap, `time_slice` is at least 1 and
`time_slice * total_parallel_batches` exceeds the length of the range; the loop
of `get_query_details` returns within `total_parallel_batches + 1` tests of its
guard, with at most `total_parallel_batches` chunks whose windows cover exactly
the range; with one batch and a non-empty range the only window is
`[original_from_time, original_end_time)`. -/
theorem parallel_time_slice_covers (c : VizConstants) (h : QueryHeader) (lib : Library)
    (s : Stages) (this : AnalyticsQuery) (db_if : Bool) (qid : String)
    (data : List (String × String)) (ast : Nat) (q : AnalyticsQuery)
    (hq : Init c h lib s this db_if qid data ast = some q) (h0 : q.status_details = 0)
    (hpar : can_parallelize_query c s.selectquery q = true)
    (hle : q.original_from_time ≤ q.original_end_time)
    (htot : 1 ≤ q.total_parallel_batches)
    (htot31 : q.total_parallel_batches < (2 : Int) ^ 31)
    (hnw : q.original_end_time + (q.original_end_time - q.original_from_time) +
      (c.RowTimeInBits + 2) + s.selectquery.granularity + 1 < U64) :
    1 ≤ q.time_slice ∧
    q.original_end_time - q.original_from_time <
      q.time_slice * q.total_parallel_batches.toNat ∧
    ∃ chunks : List Nat,
      (∀ fuel, q.total_parallel_batches.toNat + 1 < fuel →
        get_query_details q fuel [] =
          some { is_merge_needed := q.merge_needed, chunk_sizes := chunks, parse_status := 0 }) ∧
      chunks.length ≤ q.total_parallel_batches.toNat ∧
      (∀ t, (q.original_from_time ≤ t ∧ t < q.original_end_time) ↔
        ∃ w ∈ chunk_windows q.original_from_time chunks, w.1 ≤ t ∧ t < w.2) ∧
      (q.total_parallel_batches = 1 → q.original_from_time < q.original_end_time →
        chunk_windows q.original_from_time chunks =
          [(q.original_from_time, q.original_end_time)]) := by
  obtain ⟨quoted, table, start_text, end_text, _, _, _, _, htab, _, _, hE, hF, hts, _, _,
    htotal, _⟩ := Init_plan hq h0
  rw [← htab, ← hE, ← hF, ← htotal] at hts
  rw [can_parallelize_query_table] at hpar
  unfold planned_time_slice at hts
  rw [if_pos hpar] at hts
  have hu := time_slice_unfloored_val q.original_from_time q.original_end_time
    q.total_parallel_batches hle (by omega) htot htot31
  have hdiv : (q.original_end_time - q.original_from_time) / q.total_parallel_batches.toNat ≤
      q.original_end_time - q.original_from_time := Nat.div_le_self _ _
  obtain ⟨f1, f2⟩ := time_slice_floored_bounds c
    (time_slice_unfloored q.original_from_time q.original_end_time q.total_parallel_batches)
  obtain ⟨a1, a2⟩ := time_slice_adjusted_bounds s.selectquery
    (time_slice_floored c
      (time_slice_unfloored q.original_from_time q.original_end_time q.total_parallel_batches))
    (by omega)
  rw [← hts] at a1 a2
  have hn : 0 < q.total_parallel_batches.toNat := by omega
  have hlow : (q.original_end_time - q.original_from_time) / q.total_parallel_batches.toNat + 1 ≤
      q.time_slice := by omega
  have hpos : 1 ≤ q.time_slice := le_trans (Nat.le_add_left 1 _) hlow
  have hgt : q.original_end_time - q.original_from_time <
      q.time_slice * q.total_parallel_batches.toNat :=
    lt_of_lt_of_le (quotient_succ_mul_gt _ _ hn) (Nat.mul_le_mul_right _ hlow)
  have hov : q.original_end_time + q.time_slice < U64 := by omega
  have hquot : (q.original_end_time - q.original_from_time) / q.time_slice <
      q.total_parallel_batches.toNat := by
    rw [Nat.div_lt_iff_lt_mul (by omega), Nat.mul_comm]
    exact hgt
  have hsum := chunk_list_sum (q.original_end_time - q.original_from_time) q.time_slice
  refine ⟨hpos, hgt,
    chunk_list (q.original_end_time - q.original_from_time) q.time_slice, ?_, ?_, ?_, ?_⟩
  · intro fuel hf
    exact get_query_details_success q h0 (fun _ => hpos) hov fuel (by omega)
  · have hlen := chunk_list_length q.time_slice hpos q.total_parallel_batches.toNat
      (q.original_end_time - q.original_from_time)
    by_contra hcon
    have h1 : q.total_parallel_batches.toNat <
        (chunk_list (q.original_end_time - q.original_from_time) q.time_slice).length := by
      omega
    have h2 := hlen.1 h1
    rw [Nat.mul_comm] at h2
    omega
  · intro t
    rw [← chunk_windows_cover, hsum]
    constructor
    · intro ht; exact ⟨ht.1, by omega⟩
    · intro ht; exact ⟨ht.1, by omega⟩
  · intro hone hlt
    rw [hone] at hgt
    simp only [Int.toNat_one, Nat.mul_one] at hgt
    rw [chunk_list_small (by omega) hgt]
    simp only [chunk_windows]
    congr 2
    omega

/-- C27, counterexample: on the sample message query over the range from 0 to
`2 ^ 64 - 1`, run as the only batch, `Init` succeeds on the parallelizable path
with `original_from_time ≤ original_end_time`, yet the quotient plus one wraps
around to 0, the time slice is the lower bound 21, and
`time_slice * total_parallel_batches` does not exceed the length of the
range. -/
theorem time_slice_wraps_on_full_range :
    sample_full_range_run = some sample_full_range_result ∧
    sample_full_range_result.status_details = 0 ∧
    sample_full_range_result.parallelize_query_ = true ∧
    sample_full_range_result.original_from_time ≤ sample_full_range_result.original_end_time ∧
    sample_full_range_result.total_parallel_batches = 1 ∧
    sample_full_range_result.time_slice = 21 ∧
    ¬ (sample_full_range_result.original_end_time - sample_full_range_result.original_from_time <
        sample_full_range_result.time_slice *
          sample_full_range_result.total_parallel_batches.toNat) := by
  decide

/-- The hypotheses of the amended C27 hold for the sample message query over the
range from 0 to 100 run as batch 0 of ten, where the time slice is 21 and the
five chunks cover the range. -/
theorem parallel_time_slice_covers_witness :
    sample_message_run 0 = some (sample_message_result 0) ∧
    (sample_message_result 0).status_details = 0 ∧
    can_parallelize_query sample_constants sample_stages.selectquery
      (sample_message_result 0) = true ∧
    (sample_message_result 0).original_from_time ≤
      (sample_message_result 0).original_end_time ∧
    (1 : Int) ≤ (sample_message_result 0).total_parallel_batches ∧
    (sample_message_result 0).total_parallel_batches < (2 : Int) ^ 31 ∧
    1 ≤ (sample_message_result 0).time_slice ∧
    (sample_message_result 0).original_end_time - (sample_message_result 0).original_from_time <
      (sample_message_result 0).time_slice *
        (sample_message_result 0).total_parallel_batches.toNat ∧
    get_query_details (sample_message_result 0) 12 [] =
      some { is_merge_needed := false, chunk_sizes := [21, 21, 21, 21, 16],
             parse_status := 0 } := by
  have hq : sample_message_run 0 = some (sample_message_result 0) := by decide
  obtain ⟨hpos, hgt, _⟩ := parallel_time_slice_covers sample_constants sample_header
    (sample_library 5000) sample_stages
    { sample_this 0 10 with parallel_batch_num := ((0 : Nat) : Int) } true "q"
    (sample_query "\"MessageTable\"" "0" "100") 0 (sample_message_result 0) hq
    (by decide) (by decide) (by decide) (by decide) (by decide) (by decide)
  exact ⟨hq, by decide, by decide, by decide, by decide, by decide, hpos, hgt, by decide⟩

/-! ## The redirection of object tables -/

theorem Init_time_slice_object_value_key {c : VizConstants} {h : QueryHeader}
    {sel : SelectQuery} {q0 p : AnalyticsQuery} (hp : Init_time_slice c h sel q0 = some p) :
    p.object_value_key = q0.object_value_key := by
  unfold Init_time_slice at hp
  simp only [can_parallelize_query_table] at hp
  by_cases hc : q0.from_time > q0.end_time
  · simp only [hc, if_true] at hp
    by_cases hpar : can_parallelize_table c sel q0.table = true
    · by_cases hz : toU64 q0.total_parallel_batches = 0
      · simp [hpar, hz] at hp
      · simp only [hpar, hz, if_true, if_false, Option.some.injEq] at hp
        subst hp
        rfl
    · have hpar2 : can_parallelize_table c sel q0.table = false := by simpa using hpar
      simp only [hpar2, Bool.false_eq_true, if_false, Option.some.injEq] at hp
      subst hp
      rfl
  · simp only [hc, if_false] at hp
    by_cases hpar : can_parallelize_table c sel q0.table = true
    · by_cases hz : toU64 q0.total_parallel_batches = 0
      · simp [hpar, hz] at hp
      · simp only [hpar, hz, if_true, if_false, Option.some.injEq] at hp
        subst hp
        rfl
    · have hpar2 : can_parallelize_table c sel q0.table = false := by simpa using hpar
      simp only [hpar2, Bool.false_eq_true, if_false, Option.some.injEq] at hp
      subst hp
      rfl

theorem Init_window_object_value_key (p : AnalyticsQuery) :
    (Init_window p).object_value_key = p.object_value_key := by
  unfold Init_window
  simp only []
  split
  · rfl
  · split <;> rfl

theorem object_table_redirect_object_value_key (c : VizConstants) (sel : SelectQuery)
    (q : AnalyticsQuery) :
    (object_table_redirect c sel q).object_value_key =
      (if is_object_table c q.table && sel.ObjectIdQuery then q.table
        else q.object_value_key) := by
  unfold object_table_redirect is_object_table is_object_table_query
  split <;> simp_all

theorem redirected_table_eq (c : VizConstants) (sel : SelectQuery) (table : String) :
    redirected_table c sel table =
      (if is_object_table c table && sel.ObjectIdQuery then c.OBJECT_VALUE_TABLE
        else table) := rfl

theorem Init_stages_table {c : VizConstants} {h : QueryHeader} {lib : Library} {s : Stages}
    {data : List (String × String)} {q0 : AnalyticsQuery} {r : Ctl AnalyticsQuery}
    (hr : Init_stages c h lib s data q0 = some r) :
    r.val.table =
      (if s.wherequery.status_details = 0 ∧ s.selectquery.status_details = 0 then
        redirected_table c s.selectquery q0.table else q0.table) ∧
    r.val.object_value_key =
      (if s.wherequery.status_details = 0 ∧ s.selectquery.status_details = 0 ∧
          (is_object_table c q0.table && s.selectquery.ObjectIdQuery) = true then q0.table
        else q0.object_value_key) := by
  unfold Init_stages at hr
  simp only [] at hr
  by_cases hw : s.wherequery.status_details = 0
  · by_cases hs : s.selectquery.status_details = 0
    · simp only [hw, hs, ne_eq, not_true_eq_false, if_false] at hr
      have ht := object_table_redirect_table c s.selectquery
        { q0 with wherequery_ := some s.wherequery, status_details := 0,
                  selectquery_ := some s.selectquery }
      have hk := object_table_redirect_object_value_key c s.selectquery
        { q0 with wherequery_ := some s.wherequery, status_details := 0,
                  selectquery_ := some s.selectquery }
      simp only [] at ht hk
      simp only [hw, hs, true_and, if_true]
      split at hr
      · simp only [Option.some.injEq] at hr
        subst hr
        exact ⟨ht, hk⟩
      · split at hr
        · exact absurd hr (by simp)
        · rename_i st hst
          split at hr
          · simp only [Option.some.injEq] at hr
            subst hr
            exact ⟨ht, hk⟩
          · split at hr
            · exact absurd hr (by simp)
            · rename_i q5 hq5
              simp only [Option.some.injEq] at hr
              subst hr
              have h5 := (Init_time_slice_spec hq5).2.2.2.2.1
              have k5 := Init_time_slice_object_value_key hq5
              simp only [] at h5 k5
              exact ⟨h5.trans ht, k5.trans hk⟩
    · simp only [hw, hs, ne_eq, not_true_eq_false, if_false, not_false_eq_true, if_true,
        Option.some.injEq] at hr
      subst hr
      simp [Ctl.val, hs]
  · simp only [hw, ne_eq, not_false_eq_true, if_true, Option.some.injEq] at hr
    subst hr
    simp [Ctl.val, hw]

theorem Init_parse_table {c : VizConstants} {h : QueryHeader} {lib : Library} {s : Stages}
    {this : AnalyticsQuery} {qid : String} {data : List (String × String)} {ast : Nat}
    {quoted table : String} {r : Ctl AnalyticsQuery}
    (hquoted : data.lookup QUERY_TABLE = some quoted) (htable : strip_quotes quoted = some table)
    (hr : Init_parse c h lib s this true qid data ast = some r) :
    r.val.table =
      (if redirection_reached c s data table = true then redirected_table c s.selectquery table
        else table) ∧
    r.val.object_value_key =
      (if redirection_reached c s data table = true ∧
          (is_object_table c table && s.selectquery.ObjectIdQuery) = true then table
        else this.object_value_key) := by
  have hb : (true == false) = false := rfl
  unfold Init_parse at hr
  simp only [hquoted, htable, hb, Bool.false_eq_true, if_false] at hr
  unfold redirection_reached
  by_cases hvalid : is_valid_from_field c table = true
  · simp only [hvalid, hb, Bool.false_eq_true, if_false] at hr
    cases hst : data.lookup QUERY_START_TIME with
    | none =>
      simp only [hst, Option.some.injEq] at hr
      subst hr
      simp [Ctl.val, QE_PARSE_ERROR, hst]
    | some start_text =>
      simp only [hst] at hr
      cases het : data.lookup QUERY_END_TIME with
      | none =>
        simp only [het, Option.some.injEq] at hr
        subst hr
        simp [Ctl.val, QE_PARSE_ERROR, het]
      | some end_text =>
        simp only [het] at hr
        obtain ⟨t1, t2⟩ := Init_stages_table hr
        simp only [] at t1 t2
        rw [t1, t2]
        simp [hvalid, hst, het, and_assoc]
  · have hv2 : is_valid_from_field c table = false := by simpa using hvalid
    simp only [hv2, beq_self_eq_true, if_true, Option.some.injEq] at hr
    subst hr
    simp [Ctl.val, QE_INVALIDARG_ERROR, hv2]

/-- C28: for `Init` called with a database handle on a raw query that names a
table, the redirection happens only once the SELECT stage has been constructed
without error: when that point is reached, the requested table is an object
table and the select asks for an object-id list, then after `Init`
`object_value_key` is the requested table name and `table` is the object-value
table, for which (it being different from the flow-series table)
`can_parallelize_query` is false; in every other case, among them a failed WHERE
or SELECT stage, `table` is the requested name and `object_value_key` is
untouched. -/
theorem object_table_redirection (c : VizConstants) (h : QueryHeader) (lib : Library)
    (s : Stages) (this : AnalyticsQuery) (qid : String) (data : List (String × String))
    (ast : Nat) (q : AnalyticsQuery) (quoted table : String)
    (hq : Init c h lib s this true qid data ast = some q)
    (hquoted : data.lookup QUERY_TABLE = some quoted)
    (htable : strip_quotes quoted = some table) :
    (redirection_reached c s data table = true → is_object_table c table = true →
      s.selectquery.ObjectIdQuery = true →
      q.object_value_key = table ∧ q.table = c.OBJECT_VALUE_TABLE ∧
      (c.FLOW_SERIES_TABLE ≠ c.OBJECT_VALUE_TABLE →
        can_parallelize_query c s.selectquery q = false)) ∧
    (¬ (redirection_reached c s data table = true ∧ is_object_table c table = true ∧
        s.selectquery.ObjectIdQuery = true) →
      q.table = table ∧ q.object_value_key = this.object_value_key) ∧
    (s.wherequery.status_details ≠ 0 ∨ s.selectquery.status_details ≠ 0 → q.table = table) := by
  have key : q.table =
        (if redirection_reached c s data table = true then
          redirected_table c s.selectquery table else table) ∧
      q.object_value_key =
        (if redirection_reached c s data table = true ∧
            (is_object_table c table && s.selectquery.ObjectIdQuery) = true then table
          else this.object_value_key) := by
    unfold Init at hq
    split at hq
    · exact absurd hq (by simp)
    · rename_i q1 hq1
      simp only [Option.some.injEq] at hq
      subst hq
      exact Init_parse_table hquoted htable hq1
    · rename_i p hp
      simp only [Option.some.injEq] at hq
      subst hq
      have ht := Init_parse_table hquoted htable hp
      rw [Init_window_object_value_key, (Init_window_fields p).2.2.2.2.2.2.2.1]
      exact ht
  obtain ⟨kt, kk⟩ := key
  refine ⟨?_, ?_, ?_⟩
  · intro hreach hobj hid
    have htab : q.table = c.OBJECT_VALUE_TABLE := by
      rw [kt, redirected_table_eq]
      simp [hreach, hobj, hid]
    refine ⟨?_, htab, ?_⟩
    · rw [kk]
      simp [hreach, hobj, hid]
    · intro hne
      unfold can_parallelize_query
      rw [htab]
      have hne2 : (c.OBJECT_VALUE_TABLE == c.FLOW_SERIES_TABLE) = false := by
        simp only [beq_eq_false_iff_ne, ne_eq]
        exact fun hh => hne hh.symm
      simp [hne2]
  · intro hnot
    rw [kt, kk, redirected_table_eq]
    by_cases hreach : redirection_reached c s data table = true
    · have hno : (is_object_table c table && s.selectquery.ObjectIdQuery) = false := by
        cases hobj : is_object_table c table <;> cases hid : s.selectquery.ObjectIdQuery <;>
          simp_all
      simp [hno]
    · simp [hreach]
  · intro hfail
    rw [kt]
    have hreach : redirection_reached c s data table = false := by
      unfold redirection_reached
      rcases hfail with hw | hs
      · simp [hw]
      · simp [hs]
    simp [hreach]

/-- The hypotheses of C28 hold for the object-id query on the sample object
table, which is redirected to the object-value table, and for the same query
with a failing WHERE stage, whose table stays the requested one. -/
theorem object_table_redirection_witness :
    sample_object_id_run = some sample_object_id_result ∧
    (sample_query "\"ObjectVNTable\"" "0" "100").lookup QUERY_TABLE = some "\"ObjectVNTable\"" ∧
    strip_quotes "\"ObjectVNTable\"" = some "ObjectVNTable" ∧
    redirection_reached sample_constants sample_object_id_stages
      (sample_query "\"ObjectVNTable\"" "0" "100") "ObjectVNTable" = true ∧
    is_object_table sample_constants "ObjectVNTable" = true ∧
    sample_object_id_stages.selectquery.ObjectIdQuery = true ∧
    sample_object_id_result.object_value_key = "ObjectVNTable" ∧
    sample_object_id_result.table = "ObjectValueTable" ∧
    sample_failing_where_result.table = "ObjectVNTable" := by
  have hq : sample_object_id_run = some sample_object_id_result := by decide
  obtain ⟨hk, ht, _⟩ := (object_table_redirection sample_constants sample_header
    (sample_library 5000) sample_object_id_stages (sample_this 0 1) "q"
    (sample_query "\"ObjectVNTable\"" "0" "100") 0 sample_object_id_result
    "\"ObjectVNTable\"" "ObjectVNTable" hq (by decide) (by decide)).1
    (by decide) (by decide) (by decide)
  exact ⟨hq, by decide, by decide, by decide, by decide, by decide, hk, ht, by decide⟩

end QueryEngine

namespace Multicast

/-! ## The local member list -/

theorem std_find_none_iff (x : uuid) : ∀ l : List uuid, std_find l x = none ↔ x ∉ l := by
  intro l
  induction l with
  | nil => simp [std_find]
  | cons y ys ih =>
    by_cases hy : y = x
    · simp [std_find, hy]
    · have hxy : ¬ x = y := fun hh => hy hh.symm
      simp [std_find, hy, hxy, ih]

theorem std_find_some_eraseIdx (x : uuid) :
    ∀ (l : List uuid) (i : Nat), std_find l x = some i → l.eraseIdx i = l.erase x := by
  intro l
  induction l with
  | nil => intro i hi; simp [std_find] at hi
  | cons y ys ih =>
    intro i hi
    by_cases hy : y = x
    · simp only [std_find, hy, if_true, Option.some.injEq] at hi
      subst hi
      simp [hy]
    · simp only [std_find, hy, if_false, Option.map_eq_some'] at hi
      obtain ⟨j, hj, rfl⟩ := hi
      have hne : (y == x) = false := by simpa using hy
      rw [List.eraseIdx_cons_succ, ih j hj, List.erase_cons, hne]
      rfl

/-- C29: the local member list stays free of duplicates under `AddLocalMember`
and `DeleteLocalMember`; `AddLocalMember` returns true iff the uuid was absent,
and then appends it, so the size grows by one; `DeleteLocalMember` returns true
iff the uuid was present, and then the uuid is absent and the size has shrunk by
one; a call that returns false leaves the object unchanged. -/
theorem local_olist_stays_duplicate_free (obj : MulticastGroupObject) (u : uuid)
    (hnd : obj.local_olist_.Nodup) :
    (AddLocalMember obj u).2.local_olist_.Nodup ∧
    (DeleteLocalMember obj u).2.local_olist_.Nodup ∧
    ((AddLocalMember obj u).1 = true ↔ u ∉ obj.local_olist_) ∧
    ((AddLocalMember obj u).1 = true →
      (AddLocalMember obj u).2.local_olist_ = obj.local_olist_ ++ [u] ∧
      (AddLocalMember obj u).2.local_olist_.length = obj.local_olist_.length + 1) ∧
    ((AddLocalMember obj u).1 = false → (AddLocalMember obj u).2 = obj) ∧
    ((DeleteLocalMember obj u).1 = true ↔ u ∈ obj.local_olist_) ∧
    ((DeleteLocalMember obj u).1 = true →
      u ∉ (DeleteLocalMember obj u).2.local_olist_ ∧
      (DeleteLocalMember obj u).2.local_olist_.length + 1 = obj.local_olist_.length) ∧
    ((DeleteLocalMember obj u).1 = false → (DeleteLocalMember obj u).2 = obj) := by
  cases hfind : std_find obj.local_olist_ u with
  | none =>
    have hnot : u ∉ obj.local_olist_ := (std_find_none_iff u _).1 hfind
    simp only [AddLocalMember, DeleteLocalMember, hfind]
    refine ⟨?_, hnd, ?_, ?_, ?_, ?_, ?_, ?_⟩
    · rw [List.nodup_append]
      refine ⟨hnd, List.nodup_singleton u, ?_⟩
      intro a ha hb
      rw [List.mem_singleton] at hb
      exact hnot (hb ▸ ha)
    · simp [hnot]
    · intro _; simp
    · intro hh; simp at hh
    · simp [hnot]
    · intro hh; simp at hh
    · intro _; trivial
  | some i =>
    have hmem : u ∈ obj.local_olist_ := by
      by_contra hcon
      rw [(std_find_none_iff u _).2 hcon] at hfind
      exact absurd hfind (by simp)
    have herase := std_find_some_eraseIdx u obj.local_olist_ i hfind
    simp only [AddLocalMember, DeleteLocalMember, hfind, herase]
    refine ⟨hnd, hnd.erase u, ?_, ?_, ?_, ?_, ?_, ?_⟩
    · simp [hmem]
    · intro hh; simp at hh
    · intro _; trivial
    · simp [hmem]
    · intro _
      refine ⟨?_, ?_⟩
      · exact hnd.not_mem_erase
      · rw [List.length_erase_of_mem hmem]
        have hpos : 0 < obj.local_olist_.length := List.length_pos_of_mem hmem
        omega
    · intro hh; simp at hh

/-- The hypothesis of C29 holds for the sample group object with the members 4
and 9: adding 9 is refused, adding 5 appends it, deleting 4 removes it and
deleting 5 is refused. -/
theorem local_olist_stays_duplicate_free_witness :
    sample_group.local_olist_.Nodup ∧
    AddLocalMember sample_group 9 = (false, sample_group) ∧
    AddLocalMember sample_group 5 = (true, { local_olist_ := [4, 9, 5] }) ∧
    DeleteLocalMember sample_group 4 = (true, { local_olist_ := [9] }) ∧
    DeleteLocalMember sample_group 5 = (false, sample_group) ∧
    (AddLocalMember sample_group 5).2.local_olist_.Nodup :=
  ⟨by decide, by decide, by decide, by decide, by decide,
   (local_olist_stays_duplicate_free sample_group 5 (by decide)).1⟩

/-! ## The unresolved VM list -/

theorem lookup_map_insert {V : Type} (k : uuid) (v : V) :
    ∀ m : List (uuid × V), m.lookup k = none → (map_insert k v m).lookup k = some v := by
  intro m
  induction m with
  | nil => intro _; simp [map_insert, List.lookup]
  | cons e rest ih =>
    intro hm
    obtain ⟨k1, v1⟩ := e
    by_cases hk : (k == k1) = true
    · simp [List.lookup, hk] at hm
    · have hk2 : (k == k1) = false := by simpa using hk
      simp only [List.lookup, hk2] at hm
      simp only [map_insert]
      split
      · simp [List.lookup]
      · simp only [List.lookup, hk2]
        exact ih hm

theorem lookup_map_subscript {V : Type} (d : V) (m : List (uuid × V)) (k : uuid) :
    (map_subscript d m k).lookup k = some ((m.lookup k).getD d) := by
  unfold map_subscript
  cases hm : m.lookup k with
  | none => simpa using lookup_map_insert k d m hm
  | some v => simpa using hm

theorem lookup_map_modify {V : Type} (k : uuid) (f : V → V) :
    ∀ m : List (uuid × V), (map_modify m k f).lookup k = (m.lookup k).map f := by
  intro m
  induction m with
  | nil => rfl
  | cons e rest ih =>
    obtain ⟨k1, v1⟩ := e
    have hcons : map_modify ((k1, v1) :: rest) k f =
        (if k1 = k then (k1, f v1) else (k1, v1)) :: map_modify rest k f := rfl
    rw [hcons]
    by_cases hk : k1 = k
    · subst hk
      rw [if_pos rfl]
      simp [List.lookup]
    · have hk2 : (k == k1) = false := by
        simp only [beq_eq_false_iff_ne, ne_eq]
        exact fun hh => hk hh.symm
      rw [if_neg hk]
      simp only [List.lookup, hk2]
      exact ih

theorem lookup_map_erase {V : Type} (k : uuid) :
    ∀ m : List (uuid × V), (map_erase m k).lookup k = none := by
  intro m
  induction m with
  | nil => rfl
  | cons e rest ih =>
    obtain ⟨k1, v1⟩ := e
    have ih2 : (List.filter (fun e => e.1 != k) rest).lookup k = none := ih
    by_cases hk : k1 = k
    · subst hk
      simp [map_erase, List.filter, ih2]
    · have hk2 : (k == k1) = false := by
        simp only [beq_eq_false_iff_ne, ne_eq]
        exact fun hh => hk hh.symm
      have hk3 : (k1 != k) = true := by simpa using hk
      simp [map_erase, List.filter, hk3, List.lookup, hk2, ih2]

theorem map_subscript_length_pos {V : Type} (d : V) (m : List (uuid × V)) (k : uuid) :
    1 ≤ (map_subscript d m k).length := by
  have h := lookup_map_subscript d m k
  cases hm : map_subscript d m k with
  | nil => rw [hm] at h; simp [List.lookup] at h
  | cons e rest => simp

/-- C30: `DeleteVMFromUnResolvedList` never removes a VN entry: for every handler
and interface, when the size of `unresolved_subnet_vm_list_` is tested the map
has at least one entry, so the handler the function leaves has the map as it was
at the test; it has an entry for the VN uuid read for the interface (the nil
uuid when the interface was not mapped), whose list is the former list of that
VN (the empty list when there was none) without the interface, also when that
list is empty, as for the sample handler; the entry of the interface is gone
from `vm_vn_mapping_`. -/
theorem DeleteVMFromUnResolvedList_keeps_vn (hd : MulticastHandler)
    (vm_itf : VmPortInterface) :
    1 ≤ (DeleteVMFromUnResolvedList_remove hd vm_itf).1.unresolved_subnet_vm_list_.length ∧
    (DeleteVMFromUnResolvedList hd vm_itf).unresolved_subnet_vm_list_ =
      (DeleteVMFromUnResolvedList_remove hd vm_itf).1.unresolved_subnet_vm_list_ ∧
    (DeleteVMFromUnResolvedList_remove hd vm_itf).2 =
      (hd.vm_vn_mapping_.lookup vm_itf.GetUuid).getD nil_uuid ∧
    (DeleteVMFromUnResolvedList hd vm_itf).unresolved_subnet_vm_list_.lookup
        ((hd.vm_vn_mapping_.lookup vm_itf.GetUuid).getD nil_uuid) =
      some (((hd.unresolved_subnet_vm_list_.lookup
          ((hd.vm_vn_mapping_.lookup vm_itf.GetUuid).getD nil_uuid)).getD []).filter
        (fun p => p.address != vm_itf.address)) ∧
    (DeleteVMFromUnResolvedList hd vm_itf).vm_vn_mapping_.lookup vm_itf.GetUuid = none ∧
    DeleteVMFromUnResolvedList sample_handler sample_vm =
      { unresolved_subnet_vm_list_ := [(7, [])], vm_vn_mapping_ := [] } := by
  have hvn : (DeleteVMFromUnResolvedList_remove hd vm_itf).2 =
      (hd.vm_vn_mapping_.lookup vm_itf.GetUuid).getD nil_uuid := by
    simp [DeleteVMFromUnResolvedList_remove, lookup_map_subscript]
  have hlen : 1 ≤
      (DeleteVMFromUnResolvedList_remove hd vm_itf).1.unresolved_subnet_vm_list_.length := by
    simp only [DeleteVMFromUnResolvedList_remove, map_modify, List.length_map]
    exact map_subscript_length_pos _ _ _
  have hkeep : (DeleteVMFromUnResolvedList hd vm_itf).unresolved_subnet_vm_list_ =
      (DeleteVMFromUnResolvedList_remove hd vm_itf).1.unresolved_subnet_vm_list_ := by
    have hne : ¬ (DeleteVMFromUnResolvedList_remove hd vm_itf).1.unresolved_subnet_vm_list_.length
        = 0 := by omega
    simp only [DeleteVMFromUnResolvedList, hne, if_false]
  refine ⟨hlen, hkeep, hvn, ?_, ?_, by decide⟩
  · rw [hkeep]
    simp only [DeleteVMFromUnResolvedList_remove, lookup_map_subscript, Option.getD_some,
      lookup_map_modify, Option.map_some']
  · simp only [DeleteVMFromUnResolvedList]
    exact lookup_map_erase _ _

end Multicast
